import Mathlib

/-!
# USB gadget HAL (`hal/UsbGadget.cpp`): embedding and verified properties

The gadget controller is embedded as explicit state passing over a `World`
record.  Every call into the configfs helper library, the FFS monitor, the
property store and the HIDL callback is recorded as an `Effect` in a
chronological trace; the outcome of each such call is chosen by an `Env`
oracle that may depend on the whole history, so a statement quantified over
`Env` covers every outcome of every individual operation.
-/

namespace UsbGadget

/-! ## Data model -/

/-- Status codes of `V1_0::Status`. -/
inductive Status
  | SUCCESS
  | ERROR
  | FUNCTIONS_APPLIED
  | FUNCTIONS_NOT_APPLIED
  | CONFIGURATION_NOT_SUPPORTED
  deriving DecidableEq, Repr

/-- The enum `mdmType` (lines 42-47); the declaration order gives the values
0, 1, 2, 3. -/
inductive mdmType
  | INTERNAL
  | EXTERNAL
  | INTERNAL_EXTERNAL
  | NONE
  deriving DecidableEq, Repr

/-- Integer value of an `mdmType` enumerator, used by `mtype ? mtype : NONE`. -/
def mdmType.toNat : mdmType → Nat
  | .INTERNAL => 0
  | .EXTERNAL => 1
  | .INTERNAL_EXTERNAL => 2
  | .NONE => 3

/-- Modelled from the spec: the `GadgetFunction` flag values are declared in the
HIDL interface, which is not part of the sources; they are disjoint single-bit
flags and zero means "no functions".  The values are those of the interface
`android.hardware.usb.gadget@1.0`. -/
def GadgetFunction.NONE : Nat := 0

/-- Flag of the debug bridge (bit 0); see `GadgetFunction.NONE`. -/
def GadgetFunction.ADB : Nat := 1

/-- Flag of the accessory function (bit 1). -/
def GadgetFunction.ACCESSORY : Nat := 2

/-- Flag of media transfer (bit 2). -/
def GadgetFunction.MTP : Nat := 4

/-- Flag of MIDI (bit 3). -/
def GadgetFunction.MIDI : Nat := 8

/-- Flag of picture transfer (bit 4). -/
def GadgetFunction.PTP : Nat := 16

/-- Flag of the RNDIS network function (bit 5). -/
def GadgetFunction.RNDIS : Nat := 32

/-- Flag of the audio source (bit 6). -/
def GadgetFunction.AUDIO_SOURCE : Nat := 64

/-- One observable call made by the controller, with the outcome it got.
Log output (`ALOGI`/`ALOGE`) is not recorded. -/
inductive Effect
  /-- Library call `resetGadget()` and its status. -/
  | resetGadget (st : Status)
  /-- Call `mMonitorFfs.reset()`. -/
  | monitorReset
  /-- Call `usleep(kDisconnectWaitUs)`. -/
  | usleep
  /-- Library call `setVidPid(vid, pid)` and its status. -/
  | setVidPid (vid pid : String) (st : Status)
  /-- Library call `linkFunction(name, idx)`; a non-zero `rc` is a failure. -/
  | linkFunction (name : String) (idx : Nat) (rc : Int)
  /-- Return of `addGenericAndroidFunctions` with its status and the value it
  left in `ffsEnabled`. -/
  | addGenericAndroidFunctions (functions : Nat) (st : Status) (ffs : Bool)
  /-- Library call `addAdb(&mMonitorFfs, &i)` with the value of `i` on entry. -/
  | addAdb (idx : Nat) (st : Status)
  /-- Call `WriteStringToFile(content, PULLUP_PATH)` and whether it succeeded. -/
  | writePullup (content : String) (ok : Bool)
  /-- Call `SetProperty(key, value)`. -/
  | setProperty (key value : String)
  /-- Call `mMonitorFfs.registerFunctionsAppliedCallback`. -/
  | registerFunctionsAppliedCallback
  /-- Call `mMonitorFfs.startMonitor()`. -/
  | startMonitor
  /-- Call `mMonitorFfs.waitForPullUp(timeout)` and its result. -/
  | waitForPullUp (timeout : Nat) (pulled : Bool)
  /-- Call `callback->setCurrentUsbFunctionsCb(functions, status)`. -/
  | setCurrentUsbFunctionsCb (functions : Nat) (st : Status)
  /-- Call `callback->getCurrentUsbFunctionsCb(functions, status)`. -/
  | getCurrentUsbFunctionsCb (functions : Nat) (st : Status)
  deriving DecidableEq, Repr

/-- One entry of the directory `/sys/bus/esoc/devices`: its name and the
content of its `esoc_name` file (`none` when `ReadFileToString` fails). -/
structure EsocEntry where
  d_name : String
  esoc_name : Option String
  deriving DecidableEq, Repr

/-- The files `getModemType` probes: the entries `readdir` yields (`none` when
`opendir` returns `NULL`) and the content of `/sys/devices/soc0/machine`
(`none` when it cannot be read). -/
structure ModemFs where
  esocDir : Option (List EsocEntry)
  socMachine : Option String
  deriving DecidableEq, Repr

/-- The properties read with `GetProperty(..., "")` at the start of
`setupFunctions`; an unset property is the empty string. -/
structure Props where
  gadgetName : String
  rndisFunc : String
  rmnetFunc : String
  rmnetInst : String
  dplInst : String
  vendorProp : String
  deriving DecidableEq, Repr

/-- What the library routine `addGenericAndroidFunctions` did: the functions it
linked, in order, the value it left in `ffsEnabled`, and the status it
returned. -/
structure GenericOutcome where
  links : List String
  ffsEnabled : Bool
  status : Status
  deriving DecidableEq, Repr

/-- The environment of one call: outcomes of the external operations, each as
a function of the effects so far, and the files and properties read. -/
structure Env where
  resetGadget : List Effect → Status
  setVidPid : List Effect → String → String → Status
  linkFunction : List Effect → String → Nat → Int
  addGeneric : List Effect → Nat → GenericOutcome
  addAdb : List Effect → Nat → Status
  writePullup : List Effect → String → Bool
  waitForPullUp : List Effect → Nat → Bool
  props : Props
  fs : ModemFs

/-- The state of the gadget object (`mCurrentUsbFunctions`,
`mCurrentUsbFunctionsApplied`), of its collaborators, and the effect trace.

Modelled from the spec: the fields `monitorRunning`, `pulledUp` and `links`
mirror state that lives outside the sources (the FFS monitor and configfs): the
monitor has a running flag set by `startMonitor` and cleared by its `reset`; a
successful write of `"none"` to the pull-up path or a successful `resetGadget`
leaves the gadget pulled down, a successful write of the controller name pulls
it up, as does the running monitor when it completes with a pull-up;
`resetGadget` unlinks every function and a successful `linkFunction` adds
one. -/
structure World where
  mCurrentUsbFunctions : Nat
  mCurrentUsbFunctionsApplied : Bool
  monitorRunning : Bool
  pulledUp : Bool
  links : List (String × Nat)
  trace : List Effect
  deriving DecidableEq, Repr

/-- Append one effect to the trace. -/
def World.emit (w : World) (e : Effect) : World :=
  { w with trace := w.trace ++ [e] }

/-- The effects recorded in `w1` after the first `w0.trace.length` ones: what a
call that went from `w0` to `w1` emitted. -/
def emitted (w0 w1 : World) : List Effect :=
  w1.trace.drop w0.trace.length

/-! ## External primitives (outcome from the environment) -/

/-- Library call `setVidPid(vid, pid)`. -/
def setVidPid (env : Env) (w : World) (vid pid : String) : Status × World :=
  let st := env.setVidPid w.trace vid pid
  (st, w.emit (.setVidPid vid pid st))

/-- Library call `linkFunction(name, idx)`; returns the C return code. -/
def linkFunction (env : Env) (w : World) (name : String) (idx : Nat) : Int × World :=
  let rc := env.linkFunction w.trace name idx
  (rc, { w.emit (.linkFunction name idx rc) with
           links := if rc = 0 then w.links ++ [(name, idx)] else w.links })

/-- Library call `resetGadget()`. -/
def resetGadget (env : Env) (w : World) : Status × World :=
  let st := env.resetGadget w.trace
  (st, if st = .SUCCESS then
         { w.emit (.resetGadget st) with pulledUp := false, links := [] }
       else w.emit (.resetGadget st))

/-- Call `WriteStringToFile(content, PULLUP_PATH)`; `up` tells whether the
string written is a controller name (pull up) or `"none"` (pull down). -/
def writePullup (env : Env) (w : World) (content : String) (up : Bool) : Bool × World :=
  let ok := env.writePullup w.trace content
  (ok, if ok then { w.emit (.writePullup content ok) with pulledUp := up }
       else w.emit (.writePullup content ok))

/-- Replay of the links made inside `addGenericAndroidFunctions`: each one is a
successful `linkFunction(name, (*functionCount)++)`. -/
def replayLinks : List String → World → Nat → World × Nat
  | [], w, i => (w, i)
  | name :: rest, w, i =>
    replayLinks rest
      { w.emit (.linkFunction name i 0) with links := w.links ++ [(name, i)] } (i + 1)

/-- Modelled from the spec: `addGenericAndroidFunctions(&mMonitorFfs, functions,
&ffsEnabled, &i)` belongs to the configfs helper library, not to the sources.
It links the generic functions requested by the caller at consecutive
positions starting at `i`, advancing `i` once per link, records in
`ffsEnabled` whether one of them needs userspace attachment, and returns a
status.  Which functions it links, the flag and the status are left to the
environment; a failure inside the routine shows only in its status. -/
def addGenericAndroidFunctions (env : Env) (w : World) (functions : Nat) (i : Nat) :
    Status × Bool × Nat × World :=
  let out := env.addGeneric w.trace functions
  let r := replayLinks out.links w i
  (out.status, out.ffsEnabled, r.2,
    r.1.emit (.addGenericAndroidFunctions functions out.status out.ffsEnabled))

/-- Library call `addAdb(&mMonitorFfs, &i)`; its link is mirrored under the
library's function name `ffs.adb`. -/
def addAdb (env : Env) (w : World) (i : Nat) : Status × World :=
  let st := env.addAdb w.trace i
  (st, { w.emit (.addAdb i st) with
           links := if st = .SUCCESS then w.links ++ [("ffs.adb", i)] else w.links })

/-! ## `validateAndSetVidPid` (lines 112-166) -/

/-- The `switch` of `validateAndSetVidPid`: the product id of each `case`
label, in source order, `none` for `default`. -/
def validateAndSetVidPid.product (functions : Nat) : Option String :=
  if functions = GadgetFunction.ADB then some "0x4ee7"
  else if functions = GadgetFunction.MTP then some "0x4ee1"
  else if functions = GadgetFunction.ADB ||| GadgetFunction.MTP then some "0x4ee2"
  else if functions = GadgetFunction.RNDIS then some "0x4ee3"
  else if functions = GadgetFunction.ADB ||| GadgetFunction.RNDIS then some "0x4ee4"
  else if functions = GadgetFunction.PTP then some "0x4ee5"
  else if functions = GadgetFunction.ADB ||| GadgetFunction.PTP then some "0x4ee6"
  else if functions = GadgetFunction.MIDI then some "0x4ee8"
  else if functions = GadgetFunction.ADB ||| GadgetFunction.MIDI then some "0x4ee9"
  else if functions = GadgetFunction.ACCESSORY then some "0x2d00"
  else if functions = GadgetFunction.ADB ||| GadgetFunction.ACCESSORY then some "0x2d01"
  else if functions = GadgetFunction.AUDIO_SOURCE then some "0x2d02"
  else if functions = GadgetFunction.ADB ||| GadgetFunction.AUDIO_SOURCE then some "0x2d03"
  else if functions = GadgetFunction.ACCESSORY ||| GadgetFunction.AUDIO_SOURCE then some "0x2d04"
  else if functions = GadgetFunction.ADB ||| GadgetFunction.ACCESSORY |||
      GadgetFunction.AUDIO_SOURCE then some "0x2d05"
  else none

/-- Function `validateAndSetVidPid(functions)`: every `case` calls
`setVidPid("0x18d1", pid)` and returns its status; `default` returns
`CONFIGURATION_NOT_SUPPORTED`. -/
def validateAndSetVidPid (env : Env) (w : World) (functions : Nat) : Status × World :=
  match validateAndSetVidPid.product functions with
  | some pid => setVidPid env w "0x18d1" pid
  | none => (.CONFIGURATION_NOT_SUPPORTED, w)

/-! ## `getModemType` (lines 168-205) -/

/-- The value `std::string::npos` for a 64-bit `size_t`. -/
def npos : Nat := 2 ^ 64 - 1

/-- Whether `pat` occurs at the start of `s`. -/
def startsWith : List Char → List Char → Bool
  | [], _ => true
  | _ :: _, [] => false
  | p :: ps, c :: cs => p == c && startsWith ps cs

/-- Search of `std::string::find`: position of the first occurrence of `pat` in
`s` (whose first character has position `pos`), or `npos`. -/
def findFrom (pat : List Char) : List Char → Nat → Nat
  | [], pos => if pat = [] then pos else npos
  | c :: cs, pos => if startsWith pat (c :: cs) then pos else findFrom pat cs (pos + 1)

/-- Method `std::string::find(pat)`. -/
def find (s pat : String) : Nat := findFrom pat.data s.data 0

/-- Search of `std::string::find_last_of(ch)`: `acc` is the last position seen
so far. -/
def findLastOfFrom (ch : Char) : List Char → Nat → Nat → Nat
  | [], _, acc => acc
  | c :: cs, pos, acc => findLastOfFrom ch cs (pos + 1) (if c = ch then pos else acc)

/-- Method `std::string::find_last_of(ch)`: the last position of `ch`, or
`npos`. -/
def find_last_of (s : String) (ch : Char) : Nat := findLastOfFrom ch s.data 0 npos

/-- The `readdir` loop (lines 179-190): entries whose name starts with a dot
are skipped; the first entry whose readable `esoc_name` contains `MDM` or `SDX`
sets `EXTERNAL` and ends the loop; otherwise the initial `INTERNAL` stays. -/
def scanEsoc : List EsocEntry → mdmType
  | [] => .INTERNAL
  | entry :: rest =>
    if entry.d_name.data.head? = some '.' then scanEsoc rest
    else
      match entry.esoc_name with
      | some esoc_name =>
        if find esoc_name "MDM" ≠ npos ∨ find esoc_name "SDX" ≠ npos then .EXTERNAL
        else scanEsoc rest
      | none => scanEsoc rest

/-- Function `getModemType()`.  `length - 1` is computed in `size_t`, that is
modulo `2 ^ 64`. -/
def getModemType (fs : ModemFs) : mdmType :=
  match fs.esocDir with
  | none => .INTERNAL
  | some entries =>
    let mtype := scanEsoc entries
    match fs.socMachine with
    | some soc_machine =>
      let pos_sda := find soc_machine "SDA"
      let pos_p := find_last_of soc_machine 'P'
      let length := soc_machine.length
      if pos_sda ≠ npos ∨ pos_p = (length + 2 ^ 64 - 1) % 2 ^ 64 then
        (if mtype.toNat ≠ 0 then mtype else .NONE)
      else if mtype.toNat ≠ 0 then .INTERNAL_EXTERNAL
      else mtype
    | none => mtype

/-! ## The gadget object -/

/-- Constructor `UsbGadget::UsbGadget`: `mCurrentUsbFunctionsApplied` is
initialised to `false`; `mCurrentUsbFunctions` has no initialiser, so its
first value is arbitrary, as is the state the hardware is found in. -/
def construct (functions0 : Nat) (pulledUp0 : Bool) (links0 : List (String × Nat)) : World :=
  { mCurrentUsbFunctions := functions0
    mCurrentUsbFunctionsApplied := false
    monitorRunning := false
    pulledUp := pulledUp0
    links := links0
    trace := [] }

/-- Method `UsbGadget::getCurrentUsbFunctions(callback)` (lines 79-90); the
callback is dereferenced unconditionally, so it is taken to be non-null. -/
def getCurrentUsbFunctions (w : World) : World :=
  w.emit (.getCurrentUsbFunctionsCb w.mCurrentUsbFunctions
    (if w.mCurrentUsbFunctionsApplied then .FUNCTIONS_APPLIED else .FUNCTIONS_NOT_APPLIED))

/-- Method `UsbGadget::reset()` (lines 92-99). -/
def reset (env : Env) (w : World) : Status × World :=
  let r := writePullup env w "none" false
  if ¬ r.1 then (.ERROR, r.2) else (.SUCCESS, r.2)

/-- Method `UsbGadget::tearDownGadget()` (lines 101-110). -/
def tearDownGadget (env : Env) (w : World) : Status × World :=
  let r := resetGadget env w
  if r.1 ≠ .SUCCESS then (.ERROR, r.2)
  else if r.2.monitorRunning then
    (.SUCCESS, { r.2.emit .monitorReset with monitorRunning := false })
  else (.SUCCESS, r.2)

/-- One statement of a composition block of `setupFunctions`:
`if (linkFunction(name, i++)) return Status::ERROR;` or
`if (setVidPid(vid, pid) != Status::SUCCESS) return Status::ERROR;`. -/
inductive Step
  | link (name : String)
  | vidPid (vid pid : String)
  deriving DecidableEq, Repr

/-- How a block of `setupFunctions` ends: with a `return status;` or by falling
through to the next statement with the counter `i`. -/
inductive Flow
  | ret (st : Status)
  | next (i : Nat)
  deriving DecidableEq, Repr

/-- Execution of a sequence of `Step` statements from counter `i`: the first
failing call returns `ERROR`, and `i++` is evaluated for every link made. -/
def runSteps (env : Env) : List Step → World → Nat → Flow × World
  | [], w, i => (.next i, w)
  | .link name :: rest, w, i =>
    let r := linkFunction env w name i
    if r.1 ≠ 0 then (.ret .ERROR, r.2) else runSteps env rest r.2 (i + 1)
  | .vidPid vid pid :: rest, w, i =>
    let r := setVidPid env w vid pid
    if r.1 ≠ .SUCCESS then (.ret .ERROR, r.2) else runSteps env rest r.2 i

/-- The statements of lines 243-267, selected by `functions` and `mtype`. -/
def rndisSteps (functions : Nat) (mtype : mdmType) (dplInst : String) : List Step :=
  if functions &&& GadgetFunction.RNDIS ≠ 0 then
    if functions &&& GadgetFunction.ADB ≠ 0 then
      if mtype = .EXTERNAL ∨ mtype = .INTERNAL_EXTERNAL then
        [.link "diag.diag", .link "diag.diag_mdm", .link "qdss.qdss", .link "qdss.qdss_mdm",
         .link "cser.dun.0", .link dplInst, .vidPid "0x05c6" "0x90e7"]
      else if mtype = .INTERNAL then
        [.link "diag.diag", .link "qdss.qdss", .link "cser.dun.0", .link dplInst,
         .vidPid "0x05c6" "0x90e9"]
      else []
    else []
  else []

/-- The statements of lines 278-307, selected by `mtype`. -/
def adbSteps (mtype : mdmType) (rmnetInst dplInst : String) : List Step :=
  if mtype = .EXTERNAL ∨ mtype = .INTERNAL_EXTERNAL then
    [.link "diag.diag", .link "diag.diag_mdm", .link "qdss.qdss", .link "qdss.qdss_mdm",
     .link "cser.dun.0", .link dplInst, .link rmnetInst, .vidPid "0x05c6" "0x90e5"]
  else if mtype = .NONE then
    [.link "diag.diag", .vidPid "0x05c6" "0x901d"]
  else
    [.link "diag.diag", .link "cser.dun.0", .link rmnetInst, .link dplInst, .link "qdss.qdss",
     .vidPid "0x05c6" "0x90db"]

/-- Lines 269-308 of `setupFunctions`: the block guarded by
`i == 0 && functions & GadgetFunction::ADB`. -/
def setupFunctions.adbOverride (env : Env) (w : World) (functions : Nat) (mtype : mdmType)
    (vendorProp rmnetInst dplInst : String) (i : Nat) : Flow × World :=
  if i = 0 ∧ functions &&& GadgetFunction.ADB ≠ 0 then
    if vendorProp ≠ "" then
      (.ret .SUCCESS, w.emit (.setProperty "vendor.usb.config" vendorProp))
    else runSteps env (adbSteps mtype rmnetInst dplInst) w i
  else (.next i, w)

/-- Lines 310-314 of `setupFunctions`: `addAdb` when ADB is requested; the
result is the status of the block and the new value of `ffsEnabled`. -/
def setupFunctions.finallyAdb (env : Env) (w : World) (functions : Nat) (ffsEnabled : Bool)
    (i : Nat) : Flow × Bool × World :=
  if functions &&& GadgetFunction.ADB ≠ 0 then
    let r := addAdb env w i
    if r.1 ≠ .SUCCESS then (.ret .ERROR, true, r.2) else (.next (i + 1), true, r.2)
  else (.next i, ffsEnabled, w)

/-- The lambda registered with the monitor at lines 329-332: it stores the
reported flag in `mCurrentUsbFunctionsApplied`. -/
def functionsAppliedCallback (w : World) (functionsApplied : Bool) : World :=
  { w with mCurrentUsbFunctionsApplied := functionsApplied }

/-- Modelled from the spec: the FFS monitor itself is not part of the sources.
While it is running it pulls the gadget up once the userspace functions have
attached, or finds it pulled down when they detach, and reports that outcome
through the callback registered by `setupFunctions`; when it is not running
nothing happens. -/
def monitorCompletion (w : World) (pulled : Bool) : World :=
  if w.monitorRunning then functionsAppliedCallback { w with pulledUp := pulled } pulled else w

/-- Call `mMonitorFfs.waitForPullUp(timeout)` (line 338).  Modelled from the
spec: the wait returns `true` on the pull-up confirmation of the monitor, which
by then has pulled the gadget up and has invoked the registered completion
callback with `true`; it returns `false` when the timeout expires with no
completion. -/
def waitForPullUp (env : Env) (w : World) (timeout : Nat) : Bool × World :=
  let gadgetPullup := env.waitForPullUp w.trace timeout
  let w1 := w.emit (.waitForPullUp timeout gadgetPullup)
  (gadgetPullup, if gadgetPullup then monitorCompletion w1 true else w1)

/-- Lines 316-345 of `setupFunctions`: direct pull-up when no FFS function is
enabled, otherwise registration of the completion callback
`functionsAppliedCallback` with the monitor, its start and the bounded wait,
during which the monitor may complete. -/
def setupFunctions.activate (env : Env) (w : World) (functions : Nat) ( callback : Bool)
    (timeout : Nat) (gadgetName : String) (ffsEnabled : Bool) : Status × World :=
  if ¬ ffsEnabled then
    let r := writePullup env w gadgetName true
    if ¬ r.1 then (.ERROR, r.2)
    else
      let w2 := { r.2 with mCurrentUsbFunctionsApplied := true }
      (.SUCCESS, if callback then w2.emit (.setCurrentUsbFunctionsCb functions .SUCCESS) else w2)
  else
    let w1 := w.emit .registerFunctionsAppliedCallback
    let w2 := { w1.emit .startMonitor with monitorRunning := true }
    if callback then
      let r := waitForPullUp env w2 timeout
      (.SUCCESS,
        r.2.emit (.setCurrentUsbFunctionsCb functions (if r.1 then .SUCCESS else .ERROR)))
    else (.SUCCESS, w2)

/-- Method `UsbGadget::setupFunctions(functions, callback, timeout)` (lines
207-346); `callback` tells whether the callback pointer is non-null. -/
def setupFunctions (env : Env) (w : World) (functions : Nat) ( callback : Bool)
    (timeout : Nat) : Status × World :=
  let gadgetName := env.props.gadgetName
  let rmnetFunc := env.props.rmnetFunc
  let vendorProp := env.props.vendorProp
  if gadgetName = "" then (.ERROR, w)
  else
    let rmnetInst := if env.props.rmnetInst = "" then "rmnet" else env.props.rmnetInst
    let dplInst := if env.props.dplInst = "" then "dpl" else env.props.dplInst
    let rmnetInst := rmnetFunc ++ "." ++ rmnetInst
    let dplInst := rmnetFunc ++ "." ++ dplInst
    match addGenericAndroidFunctions env w functions 0 with
    | (st, ffsEnabled, i, w1) =>
      if st ≠ .SUCCESS then (.ERROR, w1)
      else
        let mtype := getModemType env.fs
        match runSteps env (rndisSteps functions mtype dplInst) w1 i with
        | (.ret st, w2) => (st, w2)
        | (.next i, w2) =>
          match setupFunctions.adbOverride env w2 functions mtype vendorProp rmnetInst dplInst
              i with
          | (.ret st, w3) => (st, w3)
          | (.next i, w3) =>
            match setupFunctions.finallyAdb env w3 functions ffsEnabled i with
            | (.ret st, _, w4) => (st, w4)
            | (.next _, ffsEnabled, w4) =>
              setupFunctions.activate env w4 functions callback timeout gadgetName ffsEnabled

/-- The `error:` label of `setCurrentUsbFunctions` (lines 389-396). -/
def setCurrentUsbFunctions.error (w : World) (functions : Nat) ( callback : Bool)
    (status : Status) : World :=
  if ¬ callback then w else w.emit (.setCurrentUsbFunctionsCb functions status)

/-- Method `UsbGadget::setCurrentUsbFunctions(functions, callback, timeout)`
(lines 348-397).  The mutex held for the whole call is not represented: calls
are executed one after the other. -/
def setCurrentUsbFunctions (env : Env) (w : World) (functions : Nat) ( callback : Bool)
    (timeout : Nat) : World :=
  let w0 := { w with mCurrentUsbFunctions := functions, mCurrentUsbFunctionsApplied := false }
  let r := tearDownGadget env w0
  if r.1 ≠ .SUCCESS then setCurrentUsbFunctions.error r.2 functions callback r.1
  else
    let w2 := r.2.emit .usleep
    if functions = GadgetFunction.NONE then
      if ¬ callback then w2 else w2.emit (.setCurrentUsbFunctionsCb functions .SUCCESS)
    else
      let r := validateAndSetVidPid env w2 functions
      if r.1 ≠ .SUCCESS then setCurrentUsbFunctions.error r.2 functions callback r.1
      else
        let r := setupFunctions env r.2 functions callback timeout
        if r.1 ≠ .SUCCESS then setCurrentUsbFunctions.error r.2 functions callback r.1
        else r.2

/-! ## Vocabulary of the properties -/

/-- The identity table as documented: each supported function set with its
product id (the vendor id is always `0x18d1`). -/
def identityTable : List (Nat × String) :=
  [ (GadgetFunction.ADB, "0x4ee7"),
    (GadgetFunction.MTP, "0x4ee1"),
    (GadgetFunction.ADB ||| GadgetFunction.MTP, "0x4ee2"),
    (GadgetFunction.RNDIS, "0x4ee3"),
    (GadgetFunction.ADB ||| GadgetFunction.RNDIS, "0x4ee4"),
    (GadgetFunction.PTP, "0x4ee5"),
    (GadgetFunction.ADB ||| GadgetFunction.PTP, "0x4ee6"),
    (GadgetFunction.MIDI, "0x4ee8"),
    (GadgetFunction.ADB ||| GadgetFunction.MIDI, "0x4ee9"),
    (GadgetFunction.ACCESSORY, "0x2d00"),
    (GadgetFunction.ADB ||| GadgetFunction.ACCESSORY, "0x2d01"),
    (GadgetFunction.AUDIO_SOURCE, "0x2d02"),
    (GadgetFunction.ADB ||| GadgetFunction.AUDIO_SOURCE, "0x2d03"),
    (GadgetFunction.ACCESSORY ||| GadgetFunction.AUDIO_SOURCE, "0x2d04"),
    (GadgetFunction.ADB ||| GadgetFunction.ACCESSORY ||| GadgetFunction.AUDIO_SOURCE, "0x2d05") ]

/-- The effects of the teardown of `setCurrentUsbFunctions` on the state `w`
it is called in, with the environment `env`. -/
def teardownEffects (env : Env) (w : World) : List Effect :=
  Effect.resetGadget (env.resetGadget w.trace) ::
    (if env.resetGadget w.trace = .SUCCESS ∧ w.monitorRunning = true then [Effect.monitorReset]
     else [])

/-- The call of `setCurrentUsbFunctionsCb(functions, st)` when the callback is
non-null, nothing otherwise. -/
def cbEffects ( callback : Bool) (functions : Nat) (st : Status) : List Effect :=
  if callback then [Effect.setCurrentUsbFunctionsCb functions st] else []

/-- An effect of identity selection or of composition building: an identity
write, a function link (also inside the generic step or `addAdb`), a write to
the pull-up path, a property write, or a monitor registration, start or wait. -/
def Effect.isIdentityOrBuild : Effect → Bool
  | .setVidPid _ _ _ => true
  | .linkFunction _ _ _ => true
  | .addGenericAndroidFunctions _ _ _ => true
  | .addAdb _ _ => true
  | .writePullup _ _ => true
  | .setProperty _ _ => true
  | .registerFunctionsAppliedCallback => true
  | .startMonitor => true
  | .waitForPullUp _ _ => true
  | _ => false

/-- A call that reported a failure. -/
def Effect.failed : Effect → Bool
  | .resetGadget st => decide (st ≠ .SUCCESS)
  | .setVidPid _ _ st => decide (st ≠ .SUCCESS)
  | .linkFunction _ _ rc => decide (rc ≠ 0)
  | .addGenericAndroidFunctions _ st _ => decide (st ≠ .SUCCESS)
  | .addAdb _ st => decide (st ≠ .SUCCESS)
  | .writePullup _ ok => !ok
  | _ => false

/-- A step of composition building before the debug bridge: a function link,
an identity write, or the return of the generic step. -/
def Effect.isBuildStep : Effect → Bool
  | .setVidPid _ _ _ => true
  | .linkFunction _ _ _ => true
  | .addGenericAndroidFunctions _ _ _ => true
  | _ => false

/-- A run of successful build steps whose links all have an index below `n`. -/
def BuildOK (n : Nat) (b : List Effect) : Prop :=
  (∀ e ∈ b, e.isBuildStep = true) ∧ (∀ e ∈ b, e.failed = false) ∧
    ∀ name j rc, Effect.linkFunction name j rc ∈ b → j < n

/-- The gadget fields and the mirrored flags of two states agree (the links
and the trace may differ). -/
def SameFlags (w w1 : World) : Prop :=
  w1.mCurrentUsbFunctions = w.mCurrentUsbFunctions ∧
  w1.mCurrentUsbFunctionsApplied = w.mCurrentUsbFunctionsApplied ∧
  w1.monitorRunning = w.monitorRunning ∧ w1.pulledUp = w.pulledUp

/-- The possible endings of the effect trace of `setupFunctions` after its
successful build steps, with the status returned, whether
`mCurrentUsbFunctionsApplied` was set, and whether the monitor was started;
`n` is the value of the counter `i` when building ended. -/
inductive SetupTail (functions : Nat) ( callback : Bool) (timeout : Nat) (gadgetName : String)
    (n : Nat) : Status → Bool → Bool → List Effect → Prop
  | udc : gadgetName = "" →
      SetupTail functions callback timeout gadgetName n .ERROR false false []
  | buildFail (e : Effect) : e.isBuildStep = true → e.failed = true →
      SetupTail functions callback timeout gadgetName n .ERROR false false [e]
  | vendor (v : String) : functions &&& GadgetFunction.ADB ≠ 0 → v ≠ "" → n = 0 →
      SetupTail functions callback timeout gadgetName n .SUCCESS false false
        [.setProperty "vendor.usb.config" v]
  | adbFail (st : Status) : functions &&& GadgetFunction.ADB ≠ 0 → st ≠ .SUCCESS →
      SetupTail functions callback timeout gadgetName n .ERROR false false [.addAdb n st]
  | pullFail : functions &&& GadgetFunction.ADB = 0 →
      SetupTail functions callback timeout gadgetName n .ERROR false false
        [.writePullup gadgetName false]
  | direct : functions &&& GadgetFunction.ADB = 0 →
      SetupTail functions callback timeout gadgetName n .SUCCESS true false
        (.writePullup gadgetName true :: cbEffects callback functions .SUCCESS)
  | monitor (adb : List Effect) (pulled : Bool) :
      (functions &&& GadgetFunction.ADB = 0 ∧ adb = []) ∨
        (functions &&& GadgetFunction.ADB ≠ 0 ∧ adb = [.addAdb n .SUCCESS]) →
      SetupTail functions callback timeout gadgetName n .SUCCESS (callback && pulled) true
        (adb ++ [.registerFunctionsAppliedCallback, .startMonitor] ++
          (if callback then
            [.waitForPullUp timeout pulled,
             .setCurrentUsbFunctionsCb functions (if pulled then .SUCCESS else .ERROR)]
           else []))

/-- The shape of a run of `setupFunctions` from `w` with result `r`: its
effects are successful build steps with links below the final counter `n`,
followed by one of the endings of `SetupTail`; `mCurrentUsbFunctions` is kept,
and the applied flag and the pull-up are raised exactly by the direct pull-up and
by a confirmation of the monitor during the wait, the monitor flag by the
monitor start. -/
def SetupShape (env : Env) (w : World) (functions : Nat) ( callback : Bool) (timeout : Nat)
    (r : Status × World) : Prop :=
  ∃ b tail n applied mon,
    r.2.trace = w.trace ++ (b ++ tail) ∧ BuildOK n b ∧
    SetupTail functions callback timeout env.props.gadgetName n r.1 applied mon tail ∧
    r.2.mCurrentUsbFunctions = w.mCurrentUsbFunctions ∧
    r.2.mCurrentUsbFunctionsApplied = (applied || w.mCurrentUsbFunctionsApplied) ∧
    r.2.pulledUp = (applied || w.pulledUp) ∧
    r.2.monitorRunning = (mon || w.monitorRunning)

/-- The effect is a call of `linkFunction`. -/
def Effect.isLink : Effect → Bool
  | .linkFunction _ _ _ => true
  | _ => false

/-- The effect is the call of `addAdb`, which links the debug bridge. -/
def Effect.isAddAdb : Effect → Bool
  | .addAdb _ _ => true
  | _ => false

/-- An environment in which every external operation succeeds, with the given
properties, files, outcome of the generic step and result of the bounded wait. -/
def envAllOk (props : Props) (fs : ModemFs) (generic : GenericOutcome) (pulled : Bool) : Env :=
  { resetGadget := fun _ => .SUCCESS
    setVidPid := fun _ _ _ => .SUCCESS
    linkFunction := fun _ _ _ => 0
    addGeneric := fun _ _ => generic
    addAdb := fun _ _ => .SUCCESS
    writePullup := fun _ _ => true
    waitForPullUp := fun _ _ => pulled
    props := props
    fs := fs }

/-- Sample properties: controller `a600000.dwc3`, network backend `gsi`, no
instance names and no vendor override configured. -/
def sampleProps : Props :=
  { gadgetName := "a600000.dwc3", rndisFunc := "gsi", rmnetFunc := "gsi", rmnetInst := "",
    dplInst := "", vendorProp := "" }

/-- Sample files of a platform with an internal modem only. -/
def sampleFsInternal : ModemFs := { esocDir := some [], socMachine := some "SM8150" }

/-- Sample files of a platform without modem (machine name ending in `P`). -/
def sampleFsNone : ModemFs := { esocDir := some [], socMachine := some "SM8150P" }

/-- A freshly constructed gadget object on pulled-down hardware. -/
def freshWorld : World := construct 0 false []

/-- The possible continuations of the effect trace of `setCurrentUsbFunctions`
after the teardown, with whether the teardown succeeded, whether
`mCurrentUsbFunctionsApplied` was set and whether the monitor was started. -/
inductive CallTail (env : Env) (functions : Nat) ( callback : Bool) (timeout : Nat) :
    Bool → Bool → Bool → List Effect → Prop
  | teardownFail : CallTail env functions callback timeout false false false
      (cbEffects callback functions .ERROR)
  | none : functions = GadgetFunction.NONE →
      CallTail env functions callback timeout true false false
        (.usleep :: cbEffects callback functions .SUCCESS)
  | unsupported : functions ≠ GadgetFunction.NONE →
      validateAndSetVidPid.product functions = none →
      CallTail env functions callback timeout true false false
        (.usleep :: cbEffects callback functions .CONFIGURATION_NOT_SUPPORTED)
  | identityFail (pid : String) (st : Status) : functions ≠ GadgetFunction.NONE →
      validateAndSetVidPid.product functions = some pid → st ≠ .SUCCESS →
      CallTail env functions callback timeout true false false
        (.usleep :: .setVidPid "0x18d1" pid st :: cbEffects callback functions st)
  | setup (pid : String) (b tail : List Effect) (n : Nat) (status : Status) (applied mon : Bool) :
      functions ≠ GadgetFunction.NONE →
      validateAndSetVidPid.product functions = some pid → BuildOK n b →
      SetupTail functions callback timeout env.props.gadgetName n status applied mon tail →
      CallTail env functions callback timeout true applied mon
        (.usleep :: .setVidPid "0x18d1" pid .SUCCESS ::
          (b ++ tail ++ (if status = .SUCCESS then [] else cbEffects callback functions status)))

/-- The shape of a call of `setCurrentUsbFunctions` from `w` to `w1`: the
teardown effects followed by one of the continuations of `CallTail`, and the
resulting gadget fields and mirrored flags. -/
def CallShape (env : Env) (w : World) (functions : Nat) ( callback : Bool) (timeout : Nat)
    (w1 : World) : Prop :=
  ∃ ok applied mon rest,
    w1.trace = w.trace ++ (teardownEffects env w ++ rest) ∧
    CallTail env functions callback timeout ok applied mon rest ∧
    (ok = true ↔ env.resetGadget w.trace = .SUCCESS) ∧
    w1.mCurrentUsbFunctions = functions ∧
    w1.mCurrentUsbFunctionsApplied = applied ∧
    w1.pulledUp = (if ok then applied else w.pulledUp) ∧
    w1.monitorRunning = (if ok then mon else w.monitorRunning)

/-- One step of the life of the gadget object: a call of one of its methods
with the environment it runs in, or a completion reported by the monitor. -/
inductive Op
  | callSet (env : Env) (functions : Nat) ( callback : Bool) (timeout : Nat)
  | callReset (env : Env)
  | callGet
  | monitorEvent (pulled : Bool)

/-- The state after one step. -/
def applyOp (w : World) : Op → World
  | .callSet env functions callback timeout =>
    setCurrentUsbFunctions env w functions callback timeout
  | .callReset env => (reset env w).2
  | .callGet => getCurrentUsbFunctions w
  | .monitorEvent pulled => monitorCompletion w pulled

/-- The state after a sequence of steps. -/
def run (w : World) (ops : List Op) : World :=
  ops.foldl applyOp w

/-- The step is a call of `reset`. -/
def Op.isReset : Op → Bool
  | .callReset _ => true
  | _ => false

/-- The step is a call of `setCurrentUsbFunctions`. -/
def Op.isSet : Op → Bool
  | .callSet _ _ _ _ => true
  | _ => false

/-- The sample environment of a platform with an internal modem on which the
generic step links the MIDI function and every operation succeeds. -/
def envMidi : Env :=
  envAllOk sampleProps sampleFsInternal ⟨["midi.gs5"], false, .SUCCESS⟩ true

/-- The state after a successful `setCurrentUsbFunctions(MIDI)` on a fresh
gadget: MIDI is applied and the gadget is pulled up. -/
def midiWorld : World :=
  setCurrentUsbFunctions envMidi freshWorld GadgetFunction.MIDI true 1000

/-- Reference notion of external-modem evidence: some directory entry whose
name does not start with a dot has a readable `esoc_name` that contains `MDM`
or `SDX`. -/
def refExternal (entries : List EsocEntry) : Bool :=
  entries.any fun e =>
    decide (e.d_name.data.head? ≠ some '.') &&
      match e.esoc_name with
      | some name => decide ("MDM".data <:+: name.data) || decide ("SDX".data <:+: name.data)
      | none => false

/-- Reference notion of the machine override: the machine string contains
`SDA` or its last character is `P`. -/
def refOverride (machine : String) : Bool :=
  decide ("SDA".data <:+: machine.data) || decide (machine.data.getLast? = some 'P')

/-- Reference classification from the two flags. -/
def refModemType (ext ov : Bool) : mdmType :=
  match ov, ext with
  | true, false => .NONE
  | true, true => .EXTERNAL
  | false, true => .INTERNAL_EXTERNAL
  | false, false => .INTERNAL

/-- The effects of a sequence of `Step` statements started at counter `i` when
every call succeeds. -/
def stepEffects : List Step → Nat → List Effect
  | [], _ => []
  | .link name :: rest, i => .linkFunction name i 0 :: stepEffects rest (i + 1)
  | .vidPid vid pid :: rest, i => .setVidPid vid pid .SUCCESS :: stepEffects rest i

/-- The links made by a sequence of `Step` statements started at counter `i`
when every call succeeds. -/
def stepLinks : List Step → Nat → List (String × Nat)
  | [], _ => []
  | .link name :: rest, i => (name, i) :: stepLinks rest (i + 1)
  | .vidPid _ _ :: rest, i => stepLinks rest i

/-- The number of `link` statements in a sequence of `Step` statements. -/
def countLinks : List Step → Nat
  | [] => 0
  | .link _ :: rest => countLinks rest + 1
  | .vidPid _ _ :: rest => countLinks rest

/-- Successful links of the functions `names` at the consecutive positions
`start`, `start + 1`, ... -/
def linkEffects : List String → Nat → List Effect
  | [], _ => []
  | name :: rest, start => .linkFunction name start 0 :: linkEffects rest (start + 1)

/-- The pairs mirrored in `links` by `linkEffects`. -/
def linkPairs : List String → Nat → List (String × Nat)
  | [], _ => []
  | name :: rest, start => (name, start) :: linkPairs rest (start + 1)

/-- The state `w` with more effects in its trace and more links. -/
def World.extend (w : World) (effects : List Effect) (links : List (String × Nat)) : World :=
  { w with trace := w.trace ++ effects, links := w.links ++ links }

/-- Lines 310-345 of `setupFunctions`: what remains once the compositions are
linked, that is `finallyAdb` followed, unless it returned, by `activate`. -/
def setupFunctions.finish (env : Env) (w : World) (functions : Nat) ( callback : Bool)
    (timeout : Nat) (gadgetName : String) (ffsEnabled : Bool) (i : Nat) : Status × World :=
  match setupFunctions.finallyAdb env w functions ffsEnabled i with
  | (.ret st, _, w4) => (st, w4)
  | (.next _, ffsEnabled, w4) =>
    setupFunctions.activate env w4 functions callback timeout gadgetName ffsEnabled

/-- The name `<rmnetFunc>.<dplInst>` computed at lines 230-236; the instance
defaults to `dpl` when its property is empty. -/
def Props.dplName (p : Props) : String :=
  p.rmnetFunc ++ "." ++ if p.dplInst = "" then "dpl" else p.dplInst

/-- The name `<rmnetFunc>.<rmnetInst>` computed at lines 225-235; the instance
defaults to `rmnet` when its property is empty. -/
def Props.rmnetName (p : Props) : String :=
  p.rmnetFunc ++ "." ++ if p.rmnetInst = "" then "rmnet" else p.rmnetInst

/-- Lines 269-345 of `setupFunctions`: what remains after the RNDIS block, that
is `adbOverride` followed, unless it returned, by `finish`. -/
def setupFunctions.afterRndis (env : Env) (w : World) (functions : Nat) ( callback : Bool)
    (timeout : Nat) (ffsEnabled : Bool) (i : Nat) : Status × World :=
  match setupFunctions.adbOverride env w functions (getModemType env.fs) env.props.vendorProp
    env.props.rmnetName env.props.dplName i with
  | (.ret st, w3) => (st, w3)
  | (.next i3, w3) =>
    setupFunctions.finish env w3 functions callback timeout env.props.gadgetName ffsEnabled i3

/-- The sample environment of a platform with an internal modem on which the
generic step links the RNDIS function `gsi.rndis` and every operation
succeeds. -/
def envRndis : Env :=
  envAllOk sampleProps sampleFsInternal ⟨["gsi.rndis"], false, .SUCCESS⟩ true

/-- Sample files of a platform with an internal and an external modem. -/
def sampleFsExternal : ModemFs :=
  { esocDir := some [⟨".", none⟩, ⟨"esoc0", some "SDX55"⟩], socMachine := some "SM8150" }

/-- The sample environment of a platform with an internal and an external
modem on which the generic step links nothing and every operation succeeds. -/
def envExternal : Env :=
  envAllOk sampleProps sampleFsExternal ⟨[], false, .SUCCESS⟩ true

/-- The sample environment of a platform with an internal modem with the
vendor override `custom_usb_cfg` configured, on which the generic step links
nothing and every operation succeeds. -/
def envVendor : Env :=
  envAllOk { sampleProps with vendorProp := "custom_usb_cfg" } sampleFsInternal
    ⟨[], false, .SUCCESS⟩ true

/-- The phase of a `setCurrentUsbFunctions` transaction an effect belongs to:
0 teardown (`resetGadget`, monitor stop), 1 settle sleep, 2 identity selection
and composition building (identity writes, links, the generic step, the adb
link, the vendor property), 3 activation (pull-up write, monitor registration,
start and wait), 4 report through a callback. -/
def Effect.phase : Effect → Nat
  | .resetGadget _ => 0
  | .monitorReset => 0
  | .usleep => 1
  | .setVidPid _ _ _ => 2
  | .linkFunction _ _ _ => 2
  | .addGenericAndroidFunctions _ _ _ => 2
  | .addAdb _ _ => 2
  | .setProperty _ _ => 2
  | .writePullup _ _ => 3
  | .registerFunctionsAppliedCallback => 3
  | .startMonitor => 3
  | .waitForPullUp _ _ => 3
  | .setCurrentUsbFunctionsCb _ _ => 4
  | .getCurrentUsbFunctionsCb _ _ => 4

/-- The effects are in the order of their phases: no effect is followed by an
effect of an earlier phase. -/
def PhaseSorted (l : List Effect) : Prop :=
  l.Pairwise fun a b => a.phase ≤ b.phase

/-- The step is admitted at the state `w`: it is not a call of `reset`, and a
call of `setCurrentUsbFunctions` made while the monitor is running has a
successful `resetGadget`, so that its teardown stops the monitor. -/
def Op.admittedAt (w : World) : Op → Bool
  | .callSet env _ _ _ => !w.monitorRunning || decide (env.resetGadget w.trace = .SUCCESS)
  | .callReset _ => false
  | _ => true

/-- Every step of the sequence is admitted at the state it is applied in. -/
def admitted (w : World) : List Op → Bool
  | [] => true
  | op :: ops => op.admittedAt w && admitted (applyOp w op) ops

/-- An environment like `envMidi` in which `resetGadget` fails. -/
def envResetFails : Env :=
  { envMidi with resetGadget := fun _ => .ERROR }

/-- An environment like `envMidi` in which a write to the pull-up path made in
the state `midiWorld` has the outcome `first` and every other one the outcome
`later`. -/
def envFlaky (first later : Bool) : Env :=
  { envMidi with
    writePullup := fun tr _ => if tr.length = midiWorld.trace.length then first else later }

/-! ## Lemmas -/

theorem emitted_append (w0 w1 : World) (l : List Effect) (h : w1.trace = w0.trace ++ l) :
    emitted w0 w1 = l := by
  simp [emitted, h]

theorem product_eq_lookup (functions : Nat) :
    validateAndSetVidPid.product functions = identityTable.lookup functions := by
  by_cases h : functions < 68
  · interval_cases functions <;> rfl
  · have e : ∀ k : Nat, k < 68 → (functions == k) = false := by
      intro k hk
      simp only [beq_eq_false_iff_ne, ne_eq]
      omega
    have e2 : ∀ k : Nat, k < 68 → ¬ functions = k := by
      intro k hk
      omega
    simp only [validateAndSetVidPid.product, identityTable, List.lookup, GadgetFunction.ADB,
      GadgetFunction.MTP, GadgetFunction.RNDIS, GadgetFunction.PTP, GadgetFunction.MIDI,
      GadgetFunction.ACCESSORY, GadgetFunction.AUDIO_SOURCE]
    have o1 : (1 ||| 4 : Nat) = 5 := rfl
    have o2 : (1 ||| 32 : Nat) = 33 := rfl
    have o3 : (1 ||| 16 : Nat) = 17 := rfl
    have o4 : (1 ||| 8 : Nat) = 9 := rfl
    have o5 : (1 ||| 2 : Nat) = 3 := rfl
    have o6 : (1 ||| 64 : Nat) = 65 := rfl
    have o7 : (2 ||| 64 : Nat) = 66 := rfl
    simp [o1, o2, o3, o4, o5, o6, o7, e, e2]

theorem scanEsoc_external (entries : List EsocEntry) (e : EsocEntry) (he : e ∈ entries)
    (hd : e.d_name.data.head? ≠ some '.') (name : String) (hn : e.esoc_name = some name)
    (hx : find name "MDM" ≠ npos ∨ find name "SDX" ≠ npos) :
    scanEsoc entries = .EXTERNAL := by
  induction entries with
  | nil => simp at he
  | cons x rest ih =>
    rcases List.mem_cons.1 he with h | h
    · subst h
      simp [scanEsoc, hd, hn, hx]
    · have r := ih h
      unfold scanEsoc
      split_ifs
      · exact r
      · split
        · split_ifs
          · rfl
          · exact r
        · exact r

theorem BuildOK.nil (n : Nat) : BuildOK n [] := by
  simp [BuildOK]

theorem BuildOK.mono {n m : Nat} {b : List Effect} (h : BuildOK n b) (hnm : n ≤ m) :
    BuildOK m b :=
  ⟨h.1, h.2.1, fun name j rc hj => Nat.lt_of_lt_of_le (h.2.2 name j rc hj) hnm⟩

theorem BuildOK.append {n : Nat} {l b : List Effect} (ha : BuildOK n l) (hb : BuildOK n b) :
    BuildOK n (l ++ b) := by
  refine ⟨?_, ?_, ?_⟩
  · intro e he
    rcases List.mem_append.1 he with h | h
    · exact ha.1 e h
    · exact hb.1 e h
  · intro e he
    rcases List.mem_append.1 he with h | h
    · exact ha.2.1 e h
    · exact hb.2.1 e h
  · intro name j rc he
    rcases List.mem_append.1 he with h | h
    · exact ha.2.2 name j rc h
    · exact hb.2.2 name j rc h

theorem BuildOK.link (name : String) {j n : Nat} (h : j < n) :
    BuildOK n [Effect.linkFunction name j 0] := by
  refine ⟨?_, ?_, ?_⟩
  · simp [Effect.isBuildStep]
  · simp [Effect.failed]
  · intro a b c hm
    simp only [List.mem_singleton, Effect.linkFunction.injEq] at hm
    omega

theorem BuildOK.vidPid (vid pid : String) (n : Nat) :
    BuildOK n [Effect.setVidPid vid pid .SUCCESS] := by
  refine ⟨?_, ?_, ?_⟩ <;> simp [Effect.isBuildStep, Effect.failed]

theorem replayLinks_spec (names : List String) (w : World) (i : Nat) :
    ∃ l, (replayLinks names w i).1.trace = w.trace ++ l ∧
      (replayLinks names w i).2 = i + names.length ∧
      SameFlags w (replayLinks names w i).1 ∧ BuildOK (i + names.length) l := by
  induction names generalizing w i with
  | nil =>
    exact ⟨[], by simp [replayLinks], by simp [replayLinks], ⟨rfl, rfl, rfl, rfl⟩,
      BuildOK.nil _⟩
  | cons name rest ih =>
    obtain ⟨l, h1, h2, h3, h4⟩ := ih
      { w.emit (.linkFunction name i 0) with links := w.links ++ [(name, i)] } (i + 1)
    refine ⟨Effect.linkFunction name i 0 :: l, ?_, ?_, ?_, ?_⟩
    · rw [replayLinks, h1]
      simp [World.emit]
    · rw [replayLinks, h2, List.length_cons]
      omega
    · rw [replayLinks]
      exact h3
    · have e : i + 1 + rest.length = i + (name :: rest).length := by
        simp only [List.length_cons]; omega
      rw [e] at h4
      exact BuildOK.append (l := [_]) (BuildOK.link name (by simp)) h4

theorem runSteps_link_ok (env : Env) (name : String) (rest : List Step) (w : World) (i : Nat)
    (h : env.linkFunction w.trace name i = 0) :
    runSteps env (.link name :: rest) w i =
      runSteps env rest (linkFunction env w name i).2 (i + 1) := by
  simp [runSteps, linkFunction, h]

theorem runSteps_link_fail (env : Env) (name : String) (rest : List Step) (w : World) (i : Nat)
    (h : env.linkFunction w.trace name i ≠ 0) :
    runSteps env (.link name :: rest) w i = (.ret .ERROR, (linkFunction env w name i).2) := by
  simp [runSteps, linkFunction, h]

theorem runSteps_vidPid_ok (env : Env) (vid pid : String) (rest : List Step) (w : World) (i : Nat)
    (h : env.setVidPid w.trace vid pid = .SUCCESS) :
    runSteps env (.vidPid vid pid :: rest) w i =
      runSteps env rest (setVidPid env w vid pid).2 i := by
  simp [runSteps, setVidPid, h]

theorem runSteps_vidPid_fail (env : Env) (vid pid : String) (rest : List Step) (w : World) (i : Nat)
    (h : env.setVidPid w.trace vid pid ≠ .SUCCESS) :
    runSteps env (.vidPid vid pid :: rest) w i = (.ret .ERROR, (setVidPid env w vid pid).2) := by
  simp [runSteps, setVidPid, h]

theorem runSteps_spec (env : Env) (steps : List Step) (w : World) (i : Nat) :
    ∃ l, (runSteps env steps w i).2.trace = w.trace ++ l ∧
      SameFlags w (runSteps env steps w i).2 ∧
      (∀ j, (runSteps env steps w i).1 = .next j → i ≤ j ∧ BuildOK j l) ∧
      (∀ st, (runSteps env steps w i).1 = .ret st → st = .ERROR ∧
        ∃ n good e, l = good ++ [e] ∧ BuildOK n good ∧ e.isBuildStep = true ∧
          e.failed = true) := by
  induction steps generalizing w i with
  | nil =>
    refine ⟨[], by simp [runSteps], ⟨rfl, rfl, rfl, rfl⟩, ?_, ?_⟩
    · intro j hj
      simp only [runSteps, Flow.next.injEq] at hj
      exact ⟨by omega, BuildOK.nil _⟩
    · intro st hst
      simp [runSteps] at hst
  | cons s rest ih =>
    cases s with
    | link name =>
      by_cases hrc : env.linkFunction w.trace name i = 0
      · obtain ⟨l, h1, h2, h3, h4⟩ := ih (linkFunction env w name i).2 (i + 1)
        rw [runSteps_link_ok env name rest w i hrc]
        have ht : (linkFunction env w name i).2.trace =
            w.trace ++ [Effect.linkFunction name i 0] := by
          simp [linkFunction, hrc, World.emit]
        have hf : SameFlags w (linkFunction env w name i).2 := ⟨rfl, rfl, rfl, rfl⟩
        refine ⟨Effect.linkFunction name i 0 :: l, ?_, ?_, ?_, ?_⟩
        · rw [h1, ht]; simp
        · exact ⟨h2.1.trans hf.1, h2.2.1.trans hf.2.1, h2.2.2.1.trans hf.2.2.1,
            h2.2.2.2.trans hf.2.2.2⟩
        · intro j hj
          obtain ⟨a, b⟩ := h3 j hj
          exact ⟨by omega, BuildOK.append (l := [_]) (BuildOK.link name (by omega)) b⟩
        · intro st hst
          obtain ⟨a, n, good, e, hl, hg, he1, he2⟩ := h4 st hst
          refine ⟨a, max n (i + 1), Effect.linkFunction name i 0 :: good, e, by simp [hl], ?_,
            he1, he2⟩
          exact BuildOK.append (l := [_]) (BuildOK.link name (by simp)) (hg.mono (le_max_left _ _))
      · rw [runSteps_link_fail env name rest w i hrc]
        refine ⟨[Effect.linkFunction name i (env.linkFunction w.trace name i)], ?_, ?_, ?_, ?_⟩
        · simp [linkFunction, World.emit]
        · exact ⟨rfl, rfl, rfl, rfl⟩
        · intro j hj
          simp at hj
        · intro st hst
          simp only [Flow.ret.injEq] at hst
          exact ⟨hst.symm, 0, [], _, rfl, BuildOK.nil _, rfl, by simp [Effect.failed, hrc]⟩
    | vidPid vid pid =>
      by_cases hrc : env.setVidPid w.trace vid pid = .SUCCESS
      · obtain ⟨l, h1, h2, h3, h4⟩ := ih (setVidPid env w vid pid).2 i
        rw [runSteps_vidPid_ok env vid pid rest w i hrc]
        have ht : (setVidPid env w vid pid).2.trace =
            w.trace ++ [Effect.setVidPid vid pid .SUCCESS] := by
          simp [setVidPid, hrc, World.emit]
        have hf : SameFlags w (setVidPid env w vid pid).2 := ⟨rfl, rfl, rfl, rfl⟩
        refine ⟨Effect.setVidPid vid pid .SUCCESS :: l, ?_, ?_, ?_, ?_⟩
        · rw [h1, ht]; simp
        · exact ⟨h2.1.trans hf.1, h2.2.1.trans hf.2.1, h2.2.2.1.trans hf.2.2.1,
            h2.2.2.2.trans hf.2.2.2⟩
        · intro j hj
          obtain ⟨a, b⟩ := h3 j hj
          exact ⟨a, BuildOK.append (l := [_]) (BuildOK.vidPid vid pid j) b⟩
        · intro st hst
          obtain ⟨a, n, good, e, hl, hg, he1, he2⟩ := h4 st hst
          exact ⟨a, n, Effect.setVidPid vid pid .SUCCESS :: good, e, by simp [hl],
            BuildOK.append (l := [_]) (BuildOK.vidPid vid pid n) hg, he1, he2⟩
      · rw [runSteps_vidPid_fail env vid pid rest w i hrc]
        refine ⟨[Effect.setVidPid vid pid (env.setVidPid w.trace vid pid)], ?_, ?_, ?_, ?_⟩
        · simp [setVidPid, World.emit]
        · exact ⟨rfl, rfl, rfl, rfl⟩
        · intro j hj
          simp at hj
        · intro st hst
          simp only [Flow.ret.injEq] at hst
          exact ⟨hst.symm, 0, [], _, rfl, BuildOK.nil _, rfl, by simp [Effect.failed, hrc]⟩

theorem waitForPullUp_fst (env : Env) (w : World) (timeout : Nat) :
    (waitForPullUp env w timeout).1 = env.waitForPullUp w.trace timeout := rfl

theorem waitForPullUp_trace (env : Env) (w : World) (timeout : Nat) :
    (waitForPullUp env w timeout).2.trace
      = w.trace ++ [.waitForPullUp timeout (env.waitForPullUp w.trace timeout)] := by
  unfold waitForPullUp monitorCompletion functionsAppliedCallback
  by_cases h : env.waitForPullUp w.trace timeout = true
  · by_cases hm : w.monitorRunning = true <;> simp [h, hm, World.emit]
  · simp [h, World.emit]

theorem activate_spec (env : Env) (w : World) (functions : Nat) ( callback : Bool) (timeout : Nat)
    (gadgetName : String) (ffsEnabled : Bool) (n : Nat) (adb : List Effect)
    (hadb : (functions &&& GadgetFunction.ADB = 0 ∧ adb = []) ∨
        (functions &&& GadgetFunction.ADB ≠ 0 ∧ adb = [.addAdb n .SUCCESS]))
    (hffs : functions &&& GadgetFunction.ADB ≠ 0 → ffsEnabled = true) :
    ∃ tail applied mon,
      (setupFunctions.activate env w functions callback timeout gadgetName ffsEnabled).2.trace
        = w.trace ++ tail ∧
      SetupTail functions callback timeout gadgetName n
        (setupFunctions.activate env w functions callback timeout gadgetName ffsEnabled).1
        applied mon (adb ++ tail) ∧
      (setupFunctions.activate env w functions callback timeout gadgetName
        ffsEnabled).2.mCurrentUsbFunctions = w.mCurrentUsbFunctions ∧
      (setupFunctions.activate env w functions callback timeout gadgetName
        ffsEnabled).2.mCurrentUsbFunctionsApplied = (applied || w.mCurrentUsbFunctionsApplied) ∧
      (setupFunctions.activate env w functions callback timeout gadgetName
        ffsEnabled).2.pulledUp = (applied || w.pulledUp) ∧
      (setupFunctions.activate env w functions callback timeout gadgetName
        ffsEnabled).2.monitorRunning = (mon || w.monitorRunning) := by
  cases ffsEnabled with
  | false =>
    have h0 : functions &&& GadgetFunction.ADB = 0 := by
      by_contra h
      exact absurd (hffs h) (by simp)
    have ha : adb = [] := by
      rcases hadb with h | h
      · exact h.2
      · exact absurd h0 h.1
    subst ha
    by_cases hok : env.writePullup w.trace gadgetName = true
    · refine ⟨.writePullup gadgetName true :: cbEffects callback functions .SUCCESS, true, false,
        ?_, ?_, ?_, ?_, ?_, ?_⟩
      · cases callback <;>
          simp [setupFunctions.activate, writePullup, hok, World.emit, cbEffects]
      · have : (setupFunctions.activate env w functions callback timeout gadgetName false).1
            = .SUCCESS := by
          simp [setupFunctions.activate, writePullup, hok]
        rw [this]
        exact SetupTail.direct h0
      · cases callback <;> simp [setupFunctions.activate, writePullup, hok, World.emit]
      · cases callback <;> simp [setupFunctions.activate, writePullup, hok, World.emit]
      · cases callback <;> simp [setupFunctions.activate, writePullup, hok, World.emit]
      · cases callback <;> simp [setupFunctions.activate, writePullup, hok, World.emit]
    · refine ⟨[.writePullup gadgetName false], false, false, ?_, ?_, ?_, ?_, ?_, ?_⟩
      · simp [setupFunctions.activate, writePullup, hok, World.emit]
      · have : (setupFunctions.activate env w functions callback timeout gadgetName false).1
            = .ERROR := by
          simp [setupFunctions.activate, writePullup, hok]
        rw [this]
        exact SetupTail.pullFail h0
      · simp [setupFunctions.activate, writePullup, hok, World.emit]
      · simp [setupFunctions.activate, writePullup, hok, World.emit]
      · simp [setupFunctions.activate, writePullup, hok, World.emit]
      · simp [setupFunctions.activate, writePullup, hok, World.emit]
  | true =>
    refine ⟨[.registerFunctionsAppliedCallback, .startMonitor] ++
          (if callback then
            [.waitForPullUp timeout (env.waitForPullUp
                (w.trace ++ [.registerFunctionsAppliedCallback, .startMonitor]) timeout),
             .setCurrentUsbFunctionsCb functions
               (if env.waitForPullUp
                 (w.trace ++ [.registerFunctionsAppliedCallback, .startMonitor]) timeout
                then .SUCCESS else .ERROR)]
           else []), (callback && env.waitForPullUp
                (w.trace ++ [.registerFunctionsAppliedCallback, .startMonitor]) timeout),
          true, ?_, ?_, ?_, ?_, ?_, ?_⟩
    · cases callback <;>
        simp [setupFunctions.activate, waitForPullUp, monitorCompletion,
          functionsAppliedCallback, World.emit]
      split <;> simp
    · have : (setupFunctions.activate env w functions callback timeout gadgetName true).1
          = .SUCCESS := by
        cases callback <;> simp [setupFunctions.activate]
      rw [this, ← List.append_assoc]
      exact SetupTail.monitor adb _ hadb
    · cases callback <;>
        simp [setupFunctions.activate, waitForPullUp, monitorCompletion,
          functionsAppliedCallback, World.emit]
      split <;> simp
    · cases callback <;>
        simp [setupFunctions.activate, waitForPullUp, monitorCompletion,
          functionsAppliedCallback, World.emit]
      split <;> simp [*]
    · cases callback <;>
        simp [setupFunctions.activate, waitForPullUp, monitorCompletion,
          functionsAppliedCallback, World.emit]
      split <;> simp [*]
    · cases callback <;>
        simp [setupFunctions.activate, waitForPullUp, monitorCompletion,
          functionsAppliedCallback, World.emit]
      split <;> simp

theorem SameFlags.trans {a b c : World} (h1 : SameFlags a b) (h2 : SameFlags b c) :
    SameFlags a c :=
  ⟨h2.1.trans h1.1, h2.2.1.trans h1.2.1, h2.2.2.1.trans h1.2.2.1, h2.2.2.2.trans h1.2.2.2⟩

theorem addGeneric_spec (env : Env) (w : World) (functions : Nat) (i : Nat) :
    ∃ l, (addGenericAndroidFunctions env w functions i).2.2.2.trace =
        w.trace ++ (l ++ [Effect.addGenericAndroidFunctions functions
          (addGenericAndroidFunctions env w functions i).1
          (addGenericAndroidFunctions env w functions i).2.1]) ∧
      SameFlags w (addGenericAndroidFunctions env w functions i).2.2.2 ∧
      i ≤ (addGenericAndroidFunctions env w functions i).2.2.1 ∧
      BuildOK (addGenericAndroidFunctions env w functions i).2.2.1 l := by
  obtain ⟨l, h1, h2, h3, h4⟩ := replayLinks_spec (env.addGeneric w.trace functions).links w i
  refine ⟨l, ?_, ?_, ?_, ?_⟩
  · simp [addGenericAndroidFunctions, World.emit, h1]
  · exact h3
  · simp only [addGenericAndroidFunctions, h2]
    omega
  · simp only [addGenericAndroidFunctions, h2]
    exact h4

theorem adbOverride_spec (env : Env) (w : World) (functions : Nat) (mtype : mdmType)
    (vendorProp rmnetInst dplInst : String) (i : Nat) :
    ∃ l, (setupFunctions.adbOverride env w functions mtype vendorProp rmnetInst dplInst i).2.trace
        = w.trace ++ l ∧
      SameFlags w
        (setupFunctions.adbOverride env w functions mtype vendorProp rmnetInst dplInst i).2 ∧
      (∀ j, (setupFunctions.adbOverride env w functions mtype vendorProp rmnetInst dplInst i).1
          = .next j → i ≤ j ∧ BuildOK j l) ∧
      (∀ st, (setupFunctions.adbOverride env w functions mtype vendorProp rmnetInst dplInst i).1
          = .ret st →
        (st = .ERROR ∧
          ∃ n good e, l = good ++ [e] ∧ BuildOK n good ∧ e.isBuildStep = true ∧
          e.failed = true) ∨
        (st = .SUCCESS ∧ l = [.setProperty "vendor.usb.config" vendorProp] ∧
          functions &&& GadgetFunction.ADB ≠ 0 ∧ vendorProp ≠ "" ∧ i = 0)) := by
  by_cases hc : i = 0 ∧ functions &&& GadgetFunction.ADB ≠ 0
  · by_cases hv : vendorProp = ""
    · obtain ⟨l, h1, h2, h3, h4⟩ := runSteps_spec env (adbSteps mtype rmnetInst dplInst) w i
      have e : setupFunctions.adbOverride env w functions mtype vendorProp rmnetInst dplInst i
          = runSteps env (adbSteps mtype rmnetInst dplInst) w i := by
        simp [setupFunctions.adbOverride, hc, hv]
      rw [e]
      exact ⟨l, h1, h2, h3, fun st hst => Or.inl (h4 st hst)⟩
    · have e : setupFunctions.adbOverride env w functions mtype vendorProp rmnetInst dplInst i
          = (.ret .SUCCESS, w.emit (.setProperty "vendor.usb.config" vendorProp)) := by
        simp [setupFunctions.adbOverride, hc, hv]
      rw [e]
      refine ⟨[.setProperty "vendor.usb.config" vendorProp], by simp [World.emit],
        ⟨rfl, rfl, rfl, rfl⟩, ?_, ?_⟩
      · intro j hj
        simp at hj
      · intro st hst
        simp only [Flow.ret.injEq] at hst
        exact Or.inr ⟨hst.symm, rfl, hc.2, hv, hc.1⟩
  · have e : setupFunctions.adbOverride env w functions mtype vendorProp rmnetInst dplInst i
        = (.next i, w) := by
      simp only [setupFunctions.adbOverride, hc, if_false]
    rw [e]
    refine ⟨[], by simp, ⟨rfl, rfl, rfl, rfl⟩, ?_, ?_⟩
    · intro j hj
      simp only [Flow.next.injEq] at hj
      exact ⟨by omega, BuildOK.nil _⟩
    · intro st hst
      simp at hst

theorem finallyAdb_spec (env : Env) (w : World) (functions : Nat) (ffsEnabled : Bool) (i : Nat) :
    SameFlags w (setupFunctions.finallyAdb env w functions ffsEnabled i).2.2 ∧
    (functions &&& GadgetFunction.ADB ≠ 0 →
      (setupFunctions.finallyAdb env w functions ffsEnabled i).2.1 = true) ∧
    (∀ j, (setupFunctions.finallyAdb env w functions ffsEnabled i).1 = .next j →
      ∃ adb,
        (setupFunctions.finallyAdb env w functions ffsEnabled i).2.2.trace = w.trace ++ adb ∧
        ((functions &&& GadgetFunction.ADB = 0 ∧ adb = []) ∨
          (functions &&& GadgetFunction.ADB ≠ 0 ∧ adb = [.addAdb i .SUCCESS]))) ∧
    (∀ st, (setupFunctions.finallyAdb env w functions ffsEnabled i).1 = .ret st →
      st = .ERROR ∧ functions &&& GadgetFunction.ADB ≠ 0 ∧
      ∃ s, s ≠ .SUCCESS ∧
        (setupFunctions.finallyAdb env w functions ffsEnabled i).2.2.trace
          = w.trace ++ [.addAdb i s]) := by
  by_cases hc : functions &&& GadgetFunction.ADB = 0
  · have e : setupFunctions.finallyAdb env w functions ffsEnabled i =
        (.next i, ffsEnabled, w) := by
      simp [setupFunctions.finallyAdb, hc]
    rw [e]
    refine ⟨⟨rfl, rfl, rfl, rfl⟩, fun h => absurd hc h, ?_, ?_⟩
    · intro j _
      exact ⟨[], by simp, Or.inl ⟨hc, rfl⟩⟩
    · intro st hst
      simp at hst
  · by_cases hs : env.addAdb w.trace i = .SUCCESS
    · have e : setupFunctions.finallyAdb env w functions ffsEnabled i
          = (.next (i + 1), true, (addAdb env w i).2) := by
        simp [setupFunctions.finallyAdb, hc, addAdb, hs]
      rw [e]
      refine ⟨⟨rfl, rfl, rfl, rfl⟩, fun _ => rfl, ?_, ?_⟩
      · intro j _
        exact ⟨[.addAdb i .SUCCESS], by simp [addAdb, hs, World.emit], Or.inr ⟨hc, rfl⟩⟩
      · intro st hst
        simp at hst
    · have e : setupFunctions.finallyAdb env w functions ffsEnabled i
          = (.ret .ERROR, true, (addAdb env w i).2) := by
        simp [setupFunctions.finallyAdb, hc, addAdb, hs]
      rw [e]
      refine ⟨⟨rfl, rfl, rfl, rfl⟩, fun _ => rfl, ?_, ?_⟩
      · intro j hj
        simp at hj
      · intro st hst
        simp only [Flow.ret.injEq] at hst
        exact ⟨hst.symm, hc, env.addAdb w.trace i, hs, by simp [addAdb, World.emit]⟩

theorem BuildOK.generic (functions : Nat) (ffs : Bool) (n : Nat) :
    BuildOK n [Effect.addGenericAndroidFunctions functions .SUCCESS ffs] := by
  refine ⟨?_, ?_, ?_⟩ <;> simp [Effect.isBuildStep, Effect.failed]

theorem setupFunctions_shape (env : Env) (w : World) (functions : Nat) ( callback : Bool)
    (timeout : Nat) :
    SetupShape env w functions callback timeout
      (setupFunctions env w functions callback timeout) := by
  by_cases hg : env.props.gadgetName = ""
  · have e : setupFunctions env w functions callback timeout = (.ERROR, w) := by
      simp [setupFunctions, hg]
    rw [e]
    exact ⟨[], [], 0, false, false, by simp, BuildOK.nil _, SetupTail.udc hg, rfl, by simp,
      by simp, by simp⟩
  · obtain ⟨lg, g1, g2, g3, g4⟩ := addGeneric_spec env w functions 0
    rcases hG : addGenericAndroidFunctions env w functions 0 with ⟨st, ffs, i, w1⟩
    rw [hG] at g1 g2 g3 g4
    simp only at g1 g2 g3 g4
    by_cases hst : st = .SUCCESS
    swap
    · have e : setupFunctions env w functions callback timeout = (.ERROR, w1) := by
        simp [setupFunctions, hg, hG, hst]
      rw [e]
      refine ⟨lg, [Effect.addGenericAndroidFunctions functions st ffs], i, false, false, g1, g4,
        SetupTail.buildFail _ rfl (by simp [Effect.failed, hst]), g2.1, ?_, ?_, ?_⟩
      · simpa using g2.2.1
      · simpa using g2.2.2.2
      · simpa using g2.2.2.1
    subst hst
    obtain ⟨lr, r1, r2, r3, r4⟩ := runSteps_spec env
      (rndisSteps functions (getModemType env.fs)
        (env.props.rmnetFunc ++ "." ++ if env.props.dplInst = "" then "dpl" else env.props.dplInst))
      w1 i
    rcases hR : runSteps env
      (rndisSteps functions (getModemType env.fs)
        (env.props.rmnetFunc ++ "." ++ if env.props.dplInst = "" then "dpl" else env.props.dplInst))
      w1 i with ⟨flowR, w2⟩
    rw [hR] at r1 r2 r3 r4
    simp only at r1 r2 r3 r4
    have f2 := g2.trans r2
    cases flowR with
    | ret st2 =>
      have e : setupFunctions env w functions callback timeout = (st2, w2) := by
        simp [setupFunctions, hg, hG, hR]
      rw [e]
      obtain ⟨hs2, n, good, x, hl, hgood, hx1, hx2⟩ := r4 st2 rfl
      subst hs2
      refine ⟨lg ++ [Effect.addGenericAndroidFunctions functions .SUCCESS ffs] ++ good, [x],
        max i n, false, false, ?_, ?_, SetupTail.buildFail x hx1 hx2, f2.1, ?_, ?_, ?_⟩
      · simp only [r1, g1, hl]
        simp
      · exact BuildOK.append (BuildOK.append (g4.mono (le_max_left _ _)) (BuildOK.generic _ _ _))
          (hgood.mono (le_max_right _ _))
      · simpa using f2.2.1
      · simpa using f2.2.2.2
      · simpa using f2.2.2.1
    | next i2 =>
      obtain ⟨hi2, hbr⟩ := r3 i2 rfl
      obtain ⟨la, a1, a2, a3, a4⟩ := adbOverride_spec env w2 functions (getModemType env.fs)
        env.props.vendorProp
        (env.props.rmnetFunc ++ "." ++
          if env.props.rmnetInst = "" then "rmnet" else env.props.rmnetInst)
        (env.props.rmnetFunc ++ "." ++ if env.props.dplInst = "" then "dpl" else env.props.dplInst)
        i2
      rcases hA : setupFunctions.adbOverride env w2 functions (getModemType env.fs)
        env.props.vendorProp
        (env.props.rmnetFunc ++ "." ++
          if env.props.rmnetInst = "" then "rmnet" else env.props.rmnetInst)
        (env.props.rmnetFunc ++ "." ++ if env.props.dplInst = "" then "dpl" else env.props.dplInst)
        i2 with ⟨flowA, w3⟩
      rw [hA] at a1 a2 a3 a4
      simp only at a1 a2 a3 a4
      have f3 := f2.trans a2
      cases flowA with
      | ret st3 =>
        have e : setupFunctions env w functions callback timeout = (st3, w3) := by
          simp [setupFunctions, hg, hG, hR, hA]
        rw [e]
        rcases a4 st3 rfl with
          ⟨hs3, n, good, x, hl, hgood, hx1, hx2⟩ | ⟨hs3, hl, hadb, hv, hi0⟩
        · subst hs3
          refine ⟨lg ++ [Effect.addGenericAndroidFunctions functions .SUCCESS ffs] ++ lr ++ good,
            [x], max i2 n, false, false, ?_, ?_, SetupTail.buildFail x hx1 hx2, f3.1, ?_, ?_, ?_⟩
          · simp only [a1, r1, g1, hl]
            simp
          · exact BuildOK.append (BuildOK.append (BuildOK.append
              (g4.mono (le_trans hi2 (le_max_left _ _))) (BuildOK.generic _ _ _))
              (hbr.mono (le_max_left _ _))) (hgood.mono (le_max_right _ _))
          · simpa using f3.2.1
          · simpa using f3.2.2.2
          · simpa using f3.2.2.1
        · subst hs3
          refine ⟨lg ++ [Effect.addGenericAndroidFunctions functions .SUCCESS ffs] ++ lr,
            [.setProperty "vendor.usb.config" env.props.vendorProp], i2, false, false, ?_, ?_,
            SetupTail.vendor _ hadb hv hi0, f3.1, ?_, ?_, ?_⟩
          · simp only [a1, r1, g1, hl]
            simp
          · exact BuildOK.append (BuildOK.append (g4.mono hi2) (BuildOK.generic _ _ _)) hbr
          · simpa using f3.2.1
          · simpa using f3.2.2.2
          · simpa using f3.2.2.1
      | next i3 =>
        obtain ⟨hi3, hba⟩ := a3 i3 rfl
        have hb : BuildOK i3
            (lg ++ [Effect.addGenericAndroidFunctions functions .SUCCESS ffs] ++ lr ++ la) :=
          BuildOK.append (BuildOK.append (BuildOK.append
            (g4.mono (le_trans hi2 hi3)) (BuildOK.generic _ _ _)) (hbr.mono hi3)) hba
        obtain ⟨d1, d2, d3, d4⟩ := finallyAdb_spec env w3 functions ffs i3
        rcases hF : setupFunctions.finallyAdb env w3 functions ffs i3 with ⟨flowF, ffs2, w4⟩
        rw [hF] at d1 d2 d3 d4
        simp only at d1 d2 d3 d4
        have f4 := f3.trans d1
        cases flowF with
        | ret st4 =>
          have e : setupFunctions env w functions callback timeout = (st4, w4) := by
            simp [setupFunctions, hg, hG, hR, hA, hF]
          rw [e]
          obtain ⟨hs4, hadb, s, hs, ht⟩ := d4 st4 rfl
          subst hs4
          refine ⟨_, [.addAdb i3 s], i3, false, false, ?_, hb, SetupTail.adbFail s hadb hs, f4.1,
            ?_, ?_, ?_⟩
          · simp only [ht, a1, r1, g1]
            simp
          · simpa using f4.2.1
          · simpa using f4.2.2.2
          · simpa using f4.2.2.1
        | next i4 =>
          have e : setupFunctions env w functions callback timeout =
              setupFunctions.activate env w4 functions callback timeout env.props.gadgetName
                ffs2 := by
            simp [setupFunctions, hg, hG, hR, hA, hF]
          rw [e]
          obtain ⟨adb, ht, hadb⟩ := d3 i4 rfl
          obtain ⟨tail, applied, mon, t1, t2, t3, t4, t5, t6⟩ := activate_spec env w4 functions
            callback timeout env.props.gadgetName ffs2 i3 adb hadb d2
          refine ⟨_, adb ++ tail, i3, applied, mon, ?_, hb, t2, t3.trans f4.1, ?_, ?_, ?_⟩
          · simp only [t1, ht, a1, r1, g1]
            simp
          · rw [t4, f4.2.1]
          · rw [t5, f4.2.2.2]
          · rw [t6, f4.2.2.1]

theorem Effect.not_addAdb_of_buildStep (e : Effect) (h : e.isBuildStep = true) :
    ¬ e.isAddAdb = true := by
  cases e <;> simp [Effect.isBuildStep, Effect.isAddAdb] at h ⊢

theorem BuildOK.not_addAdb {n : Nat} {b : List Effect} (h : BuildOK n b) :
    ∀ e ∈ b, ¬ e.isAddAdb = true :=
  fun e he => e.not_addAdb_of_buildStep (h.1 e he)

theorem monitorTail_plain (functions : Nat) ( callback : Bool) (timeout : Nat) (pulled : Bool) :
    ∀ e ∈ [Effect.registerFunctionsAppliedCallback, Effect.startMonitor] ++
        (if callback then
          [Effect.waitForPullUp timeout pulled,
           Effect.setCurrentUsbFunctionsCb functions (if pulled then .SUCCESS else .ERROR)]
         else []),
      e.isLink = false ∧ e.isAddAdb = false ∧ e.isBuildStep = false ∧ e.failed = false := by
  cases callback <;> simp [Effect.isLink, Effect.isAddAdb, Effect.isBuildStep, Effect.failed]

theorem tearDownGadget_fail (env : Env) (w : World) (h : env.resetGadget w.trace ≠ .SUCCESS) :
    tearDownGadget env w = (.ERROR, w.emit (.resetGadget (env.resetGadget w.trace))) := by
  simp [tearDownGadget, resetGadget, h]

theorem tearDownGadget_ok (env : Env) (w : World) (h : env.resetGadget w.trace = .SUCCESS) :
    (tearDownGadget env w).1 = .SUCCESS ∧
    (tearDownGadget env w).2.trace = w.trace ++ teardownEffects env w ∧
    (tearDownGadget env w).2.mCurrentUsbFunctions = w.mCurrentUsbFunctions ∧
    (tearDownGadget env w).2.mCurrentUsbFunctionsApplied = w.mCurrentUsbFunctionsApplied ∧
    (tearDownGadget env w).2.pulledUp = false ∧
    (tearDownGadget env w).2.monitorRunning = false ∧
    (tearDownGadget env w).2.links = [] := by
  by_cases hm : w.monitorRunning = true <;>
    simp [tearDownGadget, resetGadget, h, hm, World.emit, teardownEffects]

theorem setCurrentUsbFunctions_shape (env : Env) (w : World) (functions : Nat)
    ( callback : Bool) (timeout : Nat) :
    CallShape env w functions callback timeout
      (setCurrentUsbFunctions env w functions callback timeout) := by
  by_cases hr : env.resetGadget w.trace = .SUCCESS
  swap
  · have e : setCurrentUsbFunctions env w functions callback timeout =
        setCurrentUsbFunctions.error
          ({ w with mCurrentUsbFunctions := functions,
                    mCurrentUsbFunctionsApplied := false }.emit
            (.resetGadget (env.resetGadget w.trace))) functions callback .ERROR := by
      simp [setCurrentUsbFunctions, tearDownGadget, resetGadget, hr]
    rw [e]
    refine ⟨false, false, false, cbEffects callback functions .ERROR, ?_, CallTail.teardownFail,
      by simp [hr], ?_, ?_, ?_, ?_⟩ <;>
      cases callback <;>
      simp [setCurrentUsbFunctions.error, World.emit, teardownEffects, cbEffects, hr]
  · obtain ⟨k1, k2, k3, k4, k5, k6, -⟩ := tearDownGadget_ok env
      { w with mCurrentUsbFunctions := functions, mCurrentUsbFunctionsApplied := false } hr
    rcases hT : tearDownGadget env
      { w with mCurrentUsbFunctions := functions, mCurrentUsbFunctionsApplied := false }
      with ⟨st, w1⟩
    rw [hT] at k1 k2 k3 k4 k5 k6
    simp only at k1 k2 k3 k4 k5 k6
    subst k1
    have k2b : w1.trace = w.trace ++ teardownEffects env w := by
      rw [k2]; rfl
    by_cases hf : functions = GadgetFunction.NONE
    · have e : setCurrentUsbFunctions env w functions callback timeout =
          if ¬ callback then w1.emit .usleep
          else (w1.emit .usleep).emit (.setCurrentUsbFunctionsCb functions .SUCCESS) := by
        simp only [setCurrentUsbFunctions, hT]
        simp [hf]
      rw [e]
      refine ⟨true, false, false, .usleep :: cbEffects callback functions .SUCCESS, ?_,
        CallTail.none hf, by simp [hr], ?_, ?_, ?_, ?_⟩ <;>
        cases callback <;> simp [World.emit, cbEffects, k2b, k3, k4, k5, k6]
    · cases hp : validateAndSetVidPid.product functions with
      | none =>
        have e : setCurrentUsbFunctions env w functions callback timeout =
            setCurrentUsbFunctions.error (w1.emit .usleep) functions callback
              .CONFIGURATION_NOT_SUPPORTED := by
          simp only [setCurrentUsbFunctions, hT]
          simp [hf, validateAndSetVidPid, hp]
        rw [e]
        refine ⟨true, false, false,
          .usleep :: cbEffects callback functions .CONFIGURATION_NOT_SUPPORTED, ?_,
          CallTail.unsupported hf hp, by simp [hr], ?_, ?_, ?_, ?_⟩ <;>
          cases callback <;>
          simp [setCurrentUsbFunctions.error, World.emit, cbEffects, k2b, k3, k4, k5, k6]
      | some pid =>
        by_cases hv : env.setVidPid (w1.emit .usleep).trace "0x18d1" pid = .SUCCESS
        swap
        · have e : setCurrentUsbFunctions env w functions callback timeout =
              setCurrentUsbFunctions.error (setVidPid env (w1.emit .usleep) "0x18d1" pid).2
                functions callback (env.setVidPid (w1.emit .usleep).trace "0x18d1" pid) := by
            simp only [setCurrentUsbFunctions, hT]
            simp [hf, validateAndSetVidPid, hp, setVidPid, hv]
          rw [e]
          refine ⟨true, false, false, _, ?_, CallTail.identityFail pid _ hf hp hv, by simp [hr],
            ?_, ?_, ?_, ?_⟩ <;>
            cases callback <;>
            simp [setCurrentUsbFunctions.error, setVidPid, World.emit, cbEffects, k2b, k3, k4,
              k5, k6]
        · obtain ⟨b, tail, n, applied, mon, s1, s2, s3, s4, s5, s6, s7⟩ :=
            setupFunctions_shape env
              ((w1.emit .usleep).emit (.setVidPid "0x18d1" pid .SUCCESS)) functions
              callback timeout
          rcases hS : setupFunctions env
            ((w1.emit .usleep).emit (.setVidPid "0x18d1" pid .SUCCESS))
            functions callback timeout with ⟨status, w2⟩
          rw [hS] at s1 s3 s4 s5 s6 s7
          simp only at s1 s3 s4 s5 s6 s7
          have e : setCurrentUsbFunctions env w functions callback timeout =
              if status ≠ .SUCCESS then setCurrentUsbFunctions.error w2 functions callback status
              else w2 := by
            simp only [setCurrentUsbFunctions, hT]
            simp [hf, validateAndSetVidPid, hp, hv, hS, setVidPid]
          rw [e]
          have s1b : w2.trace = w.trace ++ (teardownEffects env w ++
              (.usleep :: .setVidPid "0x18d1" pid .SUCCESS :: (b ++ tail))) := by
            rw [s1]
            simp [World.emit, k2b]
          refine ⟨true, applied, mon, _, ?_, CallTail.setup pid b tail n status applied mon hf hp
            s2 s3, by simp [hr], ?_, ?_, ?_, ?_⟩
          · by_cases hs : status = .SUCCESS <;> cases callback <;>
              simp [hs, setCurrentUsbFunctions.error, World.emit, cbEffects, s1b]
          · by_cases hs : status = .SUCCESS <;> cases callback <;>
              simp [hs, setCurrentUsbFunctions.error, World.emit, s4, k3]
          · by_cases hs : status = .SUCCESS <;> cases callback <;>
              simp [hs, setCurrentUsbFunctions.error, World.emit, s5, k4]
          · by_cases hs : status = .SUCCESS <;> cases callback <;>
              simp [hs, setCurrentUsbFunctions.error, World.emit, s6, k5]
          · by_cases hs : status = .SUCCESS <;> cases callback <;>
              simp [hs, setCurrentUsbFunctions.error, World.emit, s7, k6]

theorem split_at {α : Type} (P : α → Prop) {good rest pre post : List α} {x e : α}
    (h1 : ∀ y ∈ good, ¬ P y) (h2 : ∀ y ∈ rest, ¬ P y) (he : P e)
    (h : good ++ x :: rest = pre ++ e :: post) : pre = good ∧ e = x ∧ post = rest := by
  induction good generalizing pre with
  | nil =>
    cases pre with
    | nil =>
      simp only [List.nil_append, List.cons.injEq] at h
      exact ⟨rfl, h.1.symm, h.2.symm⟩
    | cons a pre =>
      simp only [List.nil_append, List.cons_append, List.cons.injEq] at h
      exact absurd he (h2 e (by rw [h.2]; simp))
  | cons g good ih =>
    cases pre with
    | nil =>
      simp only [List.nil_append, List.cons_append, List.cons.injEq] at h
      exact absurd (h.1 ▸ he) (h1 g (by simp))
    | cons a pre =>
      simp only [List.cons_append, List.cons.injEq] at h
      obtain ⟨e1, e2, e3⟩ := ih (fun y hy => h1 y (by simp [hy])) h.2
      exact ⟨by rw [h.1, e1], e2, e3⟩

theorem run_cons (w : World) (op : Op) (ops : List Op) :
    run w (op :: ops) = run (applyOp w op) ops := rfl

theorem run_keeps_monitor (ops : List Op) (w : World) (hops : ∀ op ∈ ops, op.isSet = false) :
    (run w ops).monitorRunning = w.monitorRunning := by
  induction ops generalizing w with
  | nil => rfl
  | cons op ops ih =>
    rw [run_cons, ih (applyOp w op) (fun o ho => hops o (by simp [ho]))]
    have hop := hops op (by simp)
    cases op with
    | callSet env functions callback timeout => simp [Op.isSet] at hop
    | callReset env =>
      by_cases hk : env.writePullup w.trace "none" = true <;>
        simp [applyOp, reset, writePullup, World.emit, hk]
    | callGet => simp [applyOp, getCurrentUsbFunctions, World.emit]
    | monitorEvent pulled =>
      by_cases hm : w.monitorRunning = true <;>
        simp [applyOp, monitorCompletion, functionsAppliedCallback, hm]

theorem run_keeps_functions (ops : List Op) (w : World) (hops : ∀ op ∈ ops, op.isSet = false) :
    (run w ops).mCurrentUsbFunctions = w.mCurrentUsbFunctions := by
  induction ops generalizing w with
  | nil => rfl
  | cons op ops ih =>
    rw [run_cons, ih (applyOp w op) (fun o ho => hops o (by simp [ho]))]
    have hop := hops op (by simp)
    cases op with
    | callSet env functions callback timeout => simp [Op.isSet] at hop
    | callReset env =>
      by_cases hk : env.writePullup w.trace "none" = true <;>
        simp [applyOp, reset, writePullup, World.emit, hk]
    | callGet => simp [applyOp, getCurrentUsbFunctions, World.emit]
    | monitorEvent pulled =>
      by_cases hm : w.monitorRunning = true <;>
        simp [applyOp, monitorCompletion, functionsAppliedCallback, hm]

theorem startsWith_iff (pat s : List Char) : startsWith pat s = true ↔ pat <+: s := by
  induction pat generalizing s with
  | nil => simp [startsWith]
  | cons p ps ih =>
    cases s with
    | nil => simp [startsWith]
    | cons c cs =>
      simp only [startsWith, Bool.and_eq_true, beq_iff_eq, ih, List.cons_prefix_cons]

theorem findFrom_ne_npos_iff (pat s : List Char) (pos : Nat) (hpat : pat ≠ [])
    (hlen : pos + s.length < 2 ^ 64) : findFrom pat s pos ≠ npos ↔ pat <:+: s := by
  induction s generalizing pos with
  | nil =>
    simp [findFrom, hpat]
  | cons c cs ih =>
    unfold findFrom
    rw [List.infix_cons_iff, ← startsWith_iff]
    split_ifs with h
    · simp only [h, true_or, iff_true]
      simp only [npos, List.length_cons] at hlen ⊢
      omega
    · simp only [h, Bool.false_eq_true, false_or]
      exact ih (pos + 1) (by simp only [List.length_cons] at hlen; omega)

theorem find_ne_npos_iff (s pat : String) (hpat : pat.data ≠ []) (hlen : s.length < 2 ^ 64) :
    find s pat ≠ npos ↔ pat.data <:+: s.data := by
  unfold find
  have h0 : 0 + s.data.length < 2 ^ 64 := by
    rw [Nat.zero_add]
    exact hlen
  exact findFrom_ne_npos_iff pat.data s.data 0 hpat h0

theorem findLastOfFrom_eq_last (ch : Char) (s : List Char) (pos acc : Nat) (hs : s ≠ [])
    (hacc : acc < pos ∨ pos + s.length ≤ acc) :
    findLastOfFrom ch s pos acc = pos + s.length - 1 ↔ s.getLast? = some ch := by
  induction s generalizing pos acc with
  | nil => exact absurd rfl hs
  | cons c cs ih =>
    cases cs with
    | nil =>
      simp only [findLastOfFrom, List.length_singleton, Nat.add_sub_cancel,
        List.getLast?_singleton, Option.some.injEq]
      simp only [List.length_singleton] at hacc
      split_ifs with h
      · simp [h]
      · simp only [h, iff_false]
        omega
    | cons d ds =>
      rw [findLastOfFrom, List.getLast?_cons_cons]
      have e : pos + (c :: d :: ds).length - 1 = pos + 1 + (d :: ds).length - 1 := by
        simp only [List.length_cons]
        omega
      rw [e]
      apply ih (pos + 1) (if c = ch then pos else acc) (by simp)
      simp only [List.length_cons] at hacc ⊢
      split_ifs with h
      · left
        omega
      · omega

theorem find_last_of_eq_iff (s : String) (ch : Char) (hs : s.data ≠ [])
    (hlen : s.length < 2 ^ 64) :
    find_last_of s ch = (s.length + 2 ^ 64 - 1) % 2 ^ 64 ↔ s.data.getLast? = some ch := by
  have hl : s.length = s.data.length := rfl
  have hpos : 0 < s.data.length := List.length_pos.2 hs
  have e : (s.length + 2 ^ 64 - 1) % 2 ^ 64 = 0 + s.data.length - 1 := by
    rw [hl] at hlen ⊢
    have : s.data.length + 2 ^ 64 - 1 = (s.data.length - 1) + 2 ^ 64 := by omega
    rw [this, Nat.add_mod_right, Nat.mod_eq_of_lt (by omega)]
    omega
  rw [e]
  unfold find_last_of
  apply findLastOfFrom_eq_last ch s.data 0 npos hs
  right
  rw [hl] at hlen
  simp only [npos]
  omega

theorem scanEsoc_eq_ref (entries : List EsocEntry)
    (hlen : ∀ e ∈ entries, ∀ name, e.esoc_name = some name → name.length < 2 ^ 64) :
    scanEsoc entries = if refExternal entries then .EXTERNAL else .INTERNAL := by
  induction entries with
  | nil => simp [scanEsoc, refExternal]
  | cons x rest ih =>
    have ihr := ih (fun e he => hlen e (by simp [he]))
    have hmdm : ("MDM" : String).data ≠ [] := by decide
    have hsdx : ("SDX" : String).data ≠ [] := by decide
    unfold scanEsoc
    by_cases hd : x.d_name.data.head? = some '.'
    · simp only [hd, if_true, ihr]
      simp [refExternal, hd]
    · simp only [hd, if_false]
      cases hn : x.esoc_name with
      | none =>
        simp only [ihr]
        simp [refExternal, hn]
      | some name =>
        have hl := hlen x (by simp) name hn
        simp only [find_ne_npos_iff name "MDM" hmdm hl, find_ne_npos_iff name "SDX" hsdx hl]
        by_cases hx : "MDM".data <:+: name.data ∨ "SDX".data <:+: name.data
        · simp only [hx, if_true]
          rcases hx with hx | hx <;> simp [refExternal, hd, hn, hx]
        · simp only [hx, if_false, ihr]
          simp only [not_or] at hx
          simp [refExternal, hd, hn, hx.1, hx.2]

theorem World.extend_extend (w : World) (a b : List Effect) (la lb : List (String × Nat)) :
    (w.extend a la).extend b lb = w.extend (a ++ b) (la ++ lb) := by
  simp [World.extend]

theorem World.extend_nil (w : World) : w.extend [] [] = w := by
  simp [World.extend]

theorem runSteps_all_ok (env : Env) (steps : List Step) (w : World) (i : Nat)
    (hlink : ∀ tr name i, env.linkFunction tr name i = 0)
    (hvid : ∀ tr vid pid, env.setVidPid tr vid pid = .SUCCESS) :
    runSteps env steps w i =
      (.next (i + countLinks steps), w.extend (stepEffects steps i) (stepLinks steps i)) := by
  induction steps generalizing w i with
  | nil => simp [runSteps, countLinks, stepEffects, stepLinks, World.extend]
  | cons s rest ih =>
    cases s with
    | link name =>
      rw [runSteps_link_ok env name rest w i (hlink _ _ _), ih]
      have e : (linkFunction env w name i).2 =
          w.extend [Effect.linkFunction name i 0] [(name, i)] := by
        simp [linkFunction, hlink, World.emit, World.extend]
      rw [e, World.extend_extend]
      simp only [countLinks, stepEffects, stepLinks, List.singleton_append, Prod.mk.injEq,
        Flow.next.injEq, and_true]
      omega
    | vidPid vid pid =>
      rw [runSteps_vidPid_ok env vid pid rest w i (hvid _ _ _), ih]
      have e : (setVidPid env w vid pid).2 =
          w.extend [Effect.setVidPid vid pid .SUCCESS] [] := by
        simp [setVidPid, hvid, World.emit, World.extend]
      rw [e, World.extend_extend]
      simp [countLinks, stepEffects, stepLinks]

theorem replayLinks_eq (names : List String) (w : World) (i : Nat) :
    replayLinks names w i =
      (w.extend (linkEffects names i) (linkPairs names i), i + names.length) := by
  induction names generalizing w i with
  | nil => simp [replayLinks, linkEffects, linkPairs, World.extend]
  | cons name rest ih =>
    rw [replayLinks, ih]
    simp only [linkEffects, linkPairs, List.length_cons, World.extend, World.emit, Prod.mk.injEq,
      List.append_assoc, List.singleton_append, true_and]
    omega

theorem addGeneric_eq (env : Env) (w : World) (functions : Nat) (names : List String)
    (ffs : Bool) (st : Status) (hgen : env.addGeneric w.trace functions = ⟨names, ffs, st⟩) :
    addGenericAndroidFunctions env w functions 0 =
      (st, ffs, names.length,
        w.extend (linkEffects names 0 ++ [Effect.addGenericAndroidFunctions functions st ffs])
          (linkPairs names 0)) := by
  simp [addGenericAndroidFunctions, hgen, replayLinks_eq, World.extend, World.emit]

theorem linkEffects_buildOK (names : List String) (start : Nat) :
    BuildOK (start + names.length) (linkEffects names start) := by
  induction names generalizing start with
  | nil => exact BuildOK.nil _
  | cons name rest ih =>
    have e : start + (name :: rest).length = start + 1 + rest.length := by
      simp only [List.length_cons]
      omega
    rw [linkEffects, e]
    exact BuildOK.append (l := [_]) (BuildOK.link name (by omega)) (ih (start + 1))

theorem activate_plain (env : Env) (w : World) (functions : Nat) ( callback : Bool)
    (timeout : Nat) (gadgetName : String) (ffsEnabled : Bool) :
    ∃ tail,
      (setupFunctions.activate env w functions callback timeout gadgetName ffsEnabled).2.trace
        = w.trace ++ tail ∧
      ∀ e ∈ tail, e.isBuildStep = false ∧ e.isLink = false := by
  cases ffsEnabled with
  | false =>
    by_cases hok : env.writePullup w.trace gadgetName = true
    · refine ⟨.writePullup gadgetName true :: cbEffects callback functions .SUCCESS, ?_, ?_⟩
      · cases callback <;>
          simp [setupFunctions.activate, writePullup, hok, World.emit, cbEffects]
      · cases callback <;> simp [cbEffects, Effect.isBuildStep, Effect.isLink]
    · refine ⟨[.writePullup gadgetName false], ?_, by simp [Effect.isBuildStep, Effect.isLink]⟩
      simp [setupFunctions.activate, writePullup, hok, World.emit]
  | true =>
    refine ⟨[.registerFunctionsAppliedCallback, .startMonitor] ++
          (if callback then
            [.waitForPullUp timeout (env.waitForPullUp
                (w.trace ++ [.registerFunctionsAppliedCallback, .startMonitor]) timeout),
             .setCurrentUsbFunctionsCb functions
               (if env.waitForPullUp
                 (w.trace ++ [.registerFunctionsAppliedCallback, .startMonitor]) timeout
                then .SUCCESS else .ERROR)]
           else []), ?_, ?_⟩
    · cases callback <;>
        simp [setupFunctions.activate, World.emit, waitForPullUp_fst, waitForPullUp_trace]
    · intro e he
      have := monitorTail_plain functions callback timeout (env.waitForPullUp
        (w.trace ++ [.registerFunctionsAppliedCallback, .startMonitor]) timeout) e he
      exact ⟨this.2.2.1, this.1⟩

theorem finish_plain (env : Env) (w : World) (functions : Nat) ( callback : Bool)
    (timeout : Nat) (gadgetName : String) (ffsEnabled : Bool) (i : Nat) :
    ∃ rest,
      (setupFunctions.finish env w functions callback timeout gadgetName ffsEnabled i).2.trace
        = w.trace ++ rest ∧
      ∀ e ∈ rest, e.isBuildStep = false ∧ e.isLink = false := by
  obtain ⟨d1, d2, d3, d4⟩ := finallyAdb_spec env w functions ffsEnabled i
  rcases hF : setupFunctions.finallyAdb env w functions ffsEnabled i with ⟨flowF, ffs2, w4⟩
  rw [hF] at d1 d2 d3 d4
  simp only at d1 d2 d3 d4
  cases flowF with
  | ret st =>
    obtain ⟨-, -, s, -, ht⟩ := d4 st rfl
    refine ⟨[.addAdb i s], ?_, by simp [Effect.isBuildStep, Effect.isLink]⟩
    simp [setupFunctions.finish, hF, ht]
  | next i4 =>
    obtain ⟨adb, ht, hadb⟩ := d3 i4 rfl
    obtain ⟨tail, t1, t2⟩ := activate_plain env w4 functions callback timeout gadgetName ffs2
    refine ⟨adb ++ tail, ?_, ?_⟩
    · simp [setupFunctions.finish, hF, t1, ht]
    · intro e he
      rcases List.mem_append.1 he with h | h
      · rcases hadb with ⟨_, rfl⟩ | ⟨_, rfl⟩
        · simp at h
        · simp only [List.mem_singleton] at h
          subst h
          simp [Effect.isBuildStep, Effect.isLink]
      · exact t2 e h

theorem setupFunctions_after_rndis (env : Env) (w : World) (functions : Nat)
    ( callback : Bool) (timeout : Nat) (names : List String) (ffs : Bool)
    (hname : env.props.gadgetName ≠ "")
    (hgen : env.addGeneric w.trace functions = ⟨names, ffs, .SUCCESS⟩)
    (hlink : ∀ tr name i, env.linkFunction tr name i = 0)
    (hvid : ∀ tr vid pid, env.setVidPid tr vid pid = .SUCCESS) :
    setupFunctions env w functions callback timeout =
      setupFunctions.afterRndis env
        (w.extend
          (linkEffects names 0 ++ [Effect.addGenericAndroidFunctions functions .SUCCESS ffs] ++
            stepEffects (rndisSteps functions (getModemType env.fs) env.props.dplName)
              names.length)
          (linkPairs names 0 ++
            stepLinks (rndisSteps functions (getModemType env.fs) env.props.dplName)
              names.length))
        functions callback timeout ffs
        (names.length + countLinks
          (rndisSteps functions (getModemType env.fs) env.props.dplName)) := by
  simp only [setupFunctions, hname, if_false, addGeneric_eq env w functions names ffs .SUCCESS hgen,
    ne_eq, not_true_eq_false, runSteps_all_ok env _ _ _ hlink hvid, World.extend_extend,
    setupFunctions.finish, setupFunctions.afterRndis, Props.dplName, Props.rmnetName,
    List.append_assoc]

theorem setupFunctions_no_rndis (env : Env) (w : World) (functions : Nat)
    ( callback : Bool) (timeout : Nat) (names : List String) (ffs : Bool)
    (hname : env.props.gadgetName ≠ "")
    (hgen : env.addGeneric w.trace functions = ⟨names, ffs, .SUCCESS⟩)
    (hr : rndisSteps functions (getModemType env.fs) env.props.dplName = []) :
    setupFunctions env w functions callback timeout =
      setupFunctions.afterRndis env
        (w.extend
          (linkEffects names 0 ++ [Effect.addGenericAndroidFunctions functions .SUCCESS ffs])
          (linkPairs names 0))
        functions callback timeout ffs names.length := by
  simp only [Props.dplName] at hr
  simp only [setupFunctions, hname, if_false, addGeneric_eq env w functions names ffs .SUCCESS hgen,
    ne_eq, not_true_eq_false, hr, runSteps, setupFunctions.finish, setupFunctions.afterRndis,
    Props.dplName, Props.rmnetName]

theorem afterRndis_positive (env : Env) (w : World) (functions : Nat) ( callback : Bool)
    (timeout : Nat) (ffs : Bool) (i : Nat) (hi : i ≠ 0) :
    setupFunctions.afterRndis env w functions callback timeout ffs i =
      setupFunctions.finish env w functions callback timeout env.props.gadgetName ffs i := by
  simp [setupFunctions.afterRndis, setupFunctions.adbOverride, hi]

theorem afterRndis_trace (env : Env) (w : World) (functions : Nat) ( callback : Bool)
    (timeout : Nat) (ffs : Bool) (i : Nat) :
    ∃ rest, (setupFunctions.afterRndis env w functions callback timeout ffs i).2.trace
      = w.trace ++ rest := by
  obtain ⟨la, a1, -⟩ := adbOverride_spec env w functions (getModemType env.fs)
    env.props.vendorProp env.props.rmnetName env.props.dplName i
  rcases hA : setupFunctions.adbOverride env w functions (getModemType env.fs)
    env.props.vendorProp env.props.rmnetName env.props.dplName i with ⟨flowA, w3⟩
  rw [hA] at a1
  simp only at a1
  cases flowA with
  | ret st => exact ⟨la, by simp [setupFunctions.afterRndis, hA, a1]⟩
  | next i3 =>
    obtain ⟨rest, r1, -⟩ := finish_plain env w3 functions callback timeout
      env.props.gadgetName ffs i3
    exact ⟨la ++ rest, by simp [setupFunctions.afterRndis, hA, r1, a1]⟩

theorem afterRndis_adb (env : Env) (w : World) (functions : Nat) ( callback : Bool)
    (timeout : Nat) (ffs : Bool) (hA : functions &&& GadgetFunction.ADB ≠ 0)
    (hvendor : env.props.vendorProp = "")
    (hlink : ∀ tr name i, env.linkFunction tr name i = 0)
    (hvid : ∀ tr vid pid, env.setVidPid tr vid pid = .SUCCESS) :
    setupFunctions.afterRndis env w functions callback timeout ffs 0 =
      setupFunctions.finish env
        (w.extend
          (stepEffects (adbSteps (getModemType env.fs) env.props.rmnetName env.props.dplName) 0)
          (stepLinks (adbSteps (getModemType env.fs) env.props.rmnetName env.props.dplName) 0))
        functions callback timeout env.props.gadgetName ffs
        (0 + countLinks
          (adbSteps (getModemType env.fs) env.props.rmnetName env.props.dplName)) := by
  simp only [setupFunctions.afterRndis, setupFunctions.adbOverride, hA, hvendor, ne_eq,
    not_false_eq_true, and_self, if_true, not_true_eq_false, if_false,
    runSteps_all_ok env _ _ _ hlink hvid]

theorem rndisSteps_nil_of (functions : Nat) (mtype : mdmType) (dplInst : String)
    (h : functions &&& GadgetFunction.RNDIS = 0 ∨ mtype = .NONE) :
    rndisSteps functions mtype dplInst = [] := by
  rcases h with h | h
  · simp [rndisSteps, h]
  · simp [rndisSteps, h]

theorem PhaseSorted.concat {l1 l2 : List Effect} (k : Nat) (h1 : PhaseSorted l1)
    (h2 : PhaseSorted l2) (hk1 : ∀ a ∈ l1, a.phase ≤ k) (hk2 : ∀ b ∈ l2, k ≤ b.phase) :
    PhaseSorted (l1 ++ l2) := by
  unfold PhaseSorted at *
  rw [List.pairwise_append]
  exact ⟨h1, h2, fun a ha b hb => le_trans (hk1 a ha) (hk2 b hb)⟩

theorem PhaseSorted.const {l : List Effect} (k : Nat) (h : ∀ a ∈ l, a.phase = k) :
    PhaseSorted l := by
  unfold PhaseSorted
  rw [List.pairwise_iff_forall_sublist]
  intro a b hab
  have ha : a ∈ l := hab.subset (by simp)
  have hb : b ∈ l := hab.subset (by simp)
  rw [h a ha, h b hb]

theorem PhaseSorted.cons {e : Effect} {l : List Effect} (h : PhaseSorted l)
    (hk : ∀ b ∈ l, e.phase ≤ b.phase) : PhaseSorted (e :: l) := by
  unfold PhaseSorted at *
  exact List.pairwise_cons.2 ⟨hk, h⟩

theorem teardownEffects_phase (env : Env) (w : World) :
    ∀ y ∈ teardownEffects env w, y.phase = 0 := by
  by_cases h : env.resetGadget w.trace = .SUCCESS ∧ w.monitorRunning = true <;>
    simp [teardownEffects, h, Effect.phase]

theorem cbEffects_phase ( callback : Bool) (functions : Nat) (st : Status) :
    ∀ y ∈ cbEffects callback functions st, y.phase = 4 := by
  cases callback <;> simp [cbEffects, Effect.phase]

theorem Effect.phase_of_buildStep (e : Effect) (h : e.isBuildStep = true) : e.phase = 2 := by
  cases e <;> simp [Effect.isBuildStep, Effect.phase] at h ⊢

theorem SetupTail.phases {functions : Nat} { callback : Bool} {timeout : Nat}
    {gadgetName : String} {n : Nat} {status : Status} {applied mon : Bool} {tail : List Effect}
    (h : SetupTail functions callback timeout gadgetName n status applied mon tail) :
    PhaseSorted tail ∧ ∀ e ∈ tail, 2 ≤ e.phase := by
  cases h with
  | udc _ => exact ⟨PhaseSorted.const 0 (by simp), by simp⟩
  | buildFail x hx1 _ =>
    have := x.phase_of_buildStep hx1
    exact ⟨PhaseSorted.const 2 (by simpa using this), by simp [this]⟩
  | vendor v _ _ _ =>
    exact ⟨PhaseSorted.const 2 (by simp [Effect.phase]), by simp [Effect.phase]⟩
  | adbFail s _ _ =>
    exact ⟨PhaseSorted.const 2 (by simp [Effect.phase]), by simp [Effect.phase]⟩
  | pullFail _ => exact ⟨PhaseSorted.const 3 (by simp [Effect.phase]), by simp [Effect.phase]⟩
  | direct _ =>
    refine ⟨PhaseSorted.cons (PhaseSorted.const 4 (cbEffects_phase _ _ _)) ?_, ?_⟩
    · intro b hb
      rw [cbEffects_phase _ _ _ b hb]
      simp [Effect.phase]
    · intro e he
      rcases List.mem_cons.1 he with rfl | he
      · simp [Effect.phase]
      · rw [cbEffects_phase _ _ _ e he]
        omega
  | monitor adb pulled hadb =>
    rcases hadb with ⟨_, rfl⟩ | ⟨_, rfl⟩ <;> cases callback <;>
      simp [PhaseSorted, Effect.phase]

theorem prefix_of_split {α : Type} (P : α → Prop) {l1 r pre post : List α} {e : α}
    (h1 : ∀ y ∈ l1, ¬ P y) (he : P e) (h : l1 ++ r = pre ++ e :: post) :
    ∃ pre2, pre = l1 ++ pre2 := by
  induction l1 generalizing pre with
  | nil => exact ⟨pre, rfl⟩
  | cons a l1 ih =>
    cases pre with
    | nil =>
      simp only [List.cons_append, List.nil_append, List.cons.injEq] at h
      exact absurd (h.1 ▸ he) (h1 a (by simp))
    | cons c pre =>
      simp only [List.cons_append, List.cons.injEq] at h
      obtain ⟨pre2, hp⟩ := ih (fun y hy => h1 y (by simp [hy])) h.2
      exact ⟨pre2, by rw [h.1, hp]; rfl⟩

theorem CallTail.phase_facts {env : Env} {functions : Nat} { callback : Bool} {timeout : Nat}
    {ok applied mon : Bool} {rest : List Effect}
    (h : CallTail env functions callback timeout ok applied mon rest) :
    PhaseSorted rest ∧ (∀ e ∈ rest, 1 ≤ e.phase) ∧
    (ok = false → ∀ e ∈ rest, e.phase = 4) ∧
    (ok = true → ∃ r, rest = Effect.usleep :: r ∧ ∀ e ∈ r, 2 ≤ e.phase) := by
  cases h with
  | teardownFail =>
    refine ⟨PhaseSorted.const 4 (cbEffects_phase _ _ _), ?_, fun _ => cbEffects_phase _ _ _,
      fun h => by simp at h⟩
    intro e he
    rw [cbEffects_phase _ _ _ e he]
    omega
  | none _ =>
    refine ⟨PhaseSorted.cons (PhaseSorted.const 4 (cbEffects_phase _ _ _)) ?_, ?_,
      fun h => by simp at h, fun _ => ⟨_, rfl, ?_⟩⟩
    · intro b hb
      rw [cbEffects_phase _ _ _ b hb]
      simp [Effect.phase]
    · intro e he
      rcases List.mem_cons.1 he with rfl | he
      · simp [Effect.phase]
      · rw [cbEffects_phase _ _ _ e he]
        omega
    · intro e he
      rw [cbEffects_phase _ _ _ e he]
      omega
  | unsupported _ _ =>
    refine ⟨PhaseSorted.cons (PhaseSorted.const 4 (cbEffects_phase _ _ _)) ?_, ?_,
      fun h => by simp at h, fun _ => ⟨_, rfl, ?_⟩⟩
    · intro b hb
      rw [cbEffects_phase _ _ _ b hb]
      simp [Effect.phase]
    · intro e he
      rcases List.mem_cons.1 he with rfl | he
      · simp [Effect.phase]
      · rw [cbEffects_phase _ _ _ e he]
        omega
    · intro e he
      rw [cbEffects_phase _ _ _ e he]
      omega
  | identityFail pid st _ _ _ =>
    have h2 : ∀ e ∈ Effect.setVidPid "0x18d1" pid st :: cbEffects callback functions st,
        2 ≤ e.phase := by
      intro e he
      rcases List.mem_cons.1 he with rfl | he
      · simp [Effect.phase]
      · rw [cbEffects_phase _ _ _ e he]
        omega
    have hs : PhaseSorted
        (Effect.setVidPid "0x18d1" pid st :: cbEffects callback functions st) := by
      refine PhaseSorted.cons (PhaseSorted.const 4 (cbEffects_phase _ _ _)) ?_
      intro b hb
      rw [cbEffects_phase _ _ _ b hb]
      simp [Effect.phase]
    refine ⟨PhaseSorted.cons hs ?_, ?_, fun h => by simp at h, fun _ => ⟨_, rfl, h2⟩⟩
    · intro b hb
      exact le_trans (show Effect.usleep.phase ≤ 2 by decide) (h2 b hb)
    · intro e he
      rcases List.mem_cons.1 he with rfl | he
      · simp [Effect.phase]
      · have := h2 e he
        omega
  | setup pid b tail n status applied2 mon2 hf hp hb ht =>
    obtain ⟨t1, t2⟩ := ht.phases
    have hbp : ∀ e ∈ b, e.phase = 2 := fun e he => e.phase_of_buildStep (hb.1 e he)
    have hc : ∀ e ∈ (if status = .SUCCESS then [] else cbEffects callback functions status),
        e.phase = 4 := by
      intro e he
      split_ifs at he
      · simp at he
      · exact cbEffects_phase _ _ _ e he
    have hbt : PhaseSorted (b ++ tail) :=
      PhaseSorted.concat 2 (PhaseSorted.const 2 hbp) t1 (fun a ha => by rw [hbp a ha]) t2
    have hbt2 : ∀ e ∈ b ++ tail, 2 ≤ e.phase ∧ e.phase ≤ 4 := by
      intro e he
      rcases List.mem_append.1 he with h | h
      · rw [hbp e h]
        omega
      · refine ⟨t2 e h, ?_⟩
        cases e <;> simp [Effect.phase]
    have hall : PhaseSorted (b ++ tail ++
        (if status = .SUCCESS then [] else cbEffects callback functions status)) :=
      PhaseSorted.concat 4 hbt (PhaseSorted.const 4 hc) (fun a ha => (hbt2 a ha).2)
        (fun a ha => by rw [hc a ha])
    have hall2 : ∀ e ∈ b ++ tail ++
        (if status = .SUCCESS then [] else cbEffects callback functions status),
        2 ≤ e.phase := by
      intro e he
      rcases List.mem_append.1 he with h | h
      · exact (hbt2 e h).1
      · rw [hc e h]
        omega
    have h2 : ∀ e ∈ Effect.setVidPid "0x18d1" pid .SUCCESS :: (b ++ tail ++
        (if status = .SUCCESS then [] else cbEffects callback functions status)),
        2 ≤ e.phase := by
      intro e he
      rcases List.mem_cons.1 he with rfl | he
      · simp [Effect.phase]
      · exact hall2 e he
    refine ⟨PhaseSorted.cons (PhaseSorted.cons hall ?_) ?_, ?_, fun h => by simp at h,
      fun _ => ⟨_, rfl, h2⟩⟩
    · intro e he
      have := hall2 e he
      simpa [Effect.phase] using this
    · intro e he
      exact le_trans (show Effect.usleep.phase ≤ 2 by decide) (h2 e he)
    · intro e he
      rcases List.mem_cons.1 he with rfl | he
      · simp [Effect.phase]
      · have := h2 e he
        omega

theorem SetupTail.monitor_of_start {functions : Nat} { callback : Bool} {timeout : Nat}
    {gadgetName : String} {n : Nat} {status : Status} {applied mon : Bool} {tail : List Effect}
    (h : SetupTail functions callback timeout gadgetName n status applied mon tail)
    (hm : Effect.startMonitor ∈ tail) :
    status = .SUCCESS ∧ mon = true ∧
    ∃ adb pulled,
      applied = (callback && pulled) ∧
      tail = adb ++ [Effect.registerFunctionsAppliedCallback, Effect.startMonitor] ++
        (if callback then
          [Effect.waitForPullUp timeout pulled,
           Effect.setCurrentUsbFunctionsCb functions (if pulled then .SUCCESS else .ERROR)]
         else []) ∧
      ∀ e ∈ adb, e.phase = 2 := by
  cases h with
  | udc _ => simp at hm
  | buildFail x hx1 _ =>
    simp only [List.mem_singleton] at hm
    subst hm
    simp [Effect.isBuildStep] at hx1
  | vendor v _ _ _ => simp at hm
  | adbFail s _ _ => simp at hm
  | pullFail _ => simp at hm
  | direct _ => cases callback <;> simp [cbEffects] at hm
  | monitor adb pulled hadb =>
    refine ⟨rfl, rfl, adb, pulled, rfl, rfl, ?_⟩
    rcases hadb with ⟨_, rfl⟩ | ⟨_, rfl⟩ <;> simp [Effect.phase]

/-! ## Theorems -/

/-- C1: `validateAndSetVidPid(f)` agrees with the identity table on every
bitmask `f`: when `f` is one of the 15 table entries (whose keys are pairwise
distinct) it makes exactly one call `setVidPid("0x18d1", pid)` with the
product of that entry and returns the status of that call; for every other
`f` it returns `CONFIGURATION_NOT_SUPPORTED` and leaves the state, including
the effect trace, untouched. -/
theorem validateAndSetVidPid_identity_table (env : Env) (w : World) (functions : Nat) :
    identityTable.map Prod.fst = [1, 4, 5, 32, 33, 16, 17, 8, 9, 2, 3, 64, 65, 66, 67] ∧
    (identityTable.map Prod.fst).Nodup ∧
    validateAndSetVidPid env w functions =
      match identityTable.lookup functions with
      | some pid =>
        (env.setVidPid w.trace "0x18d1" pid,
          w.emit (.setVidPid "0x18d1" pid (env.setVidPid w.trace "0x18d1" pid)))
      | none => (.CONFIGURATION_NOT_SUPPORTED, w) := by
  refine ⟨by decide, by decide, ?_⟩
  unfold validateAndSetVidPid
  rw [product_eq_lookup]
  cases identityTable.lookup functions <;> rfl

/-- C5 (as stated, refuted): with an esoc entry named `SDX55` and the machine
string `SDA`, `getModemType` does not return `NONE`. -/
theorem getModemType_sdx55_sda_not_none :
    getModemType ⟨some [⟨"esoc0", some "SDX55"⟩], some "SDA"⟩ ≠ .NONE := by
  decide

/-- C5 (amended): when the modem-device directory contains a non-hidden entry
whose `esoc_name` is `SDX55` and the machine string is `SDA`, `getModemType`
returns `EXTERNAL`: the external-modem evidence dominates the SDA override. -/
theorem getModemType_sdx55_sda_external (entries : List EsocEntry) (e : EsocEntry)
    (he : e ∈ entries) (hd : e.d_name.data.head? ≠ some '.')
    (hn : e.esoc_name = some "SDX55") :
    getModemType ⟨some entries, some "SDA"⟩ = .EXTERNAL := by
  have hs : scanEsoc entries = .EXTERNAL :=
    scanEsoc_external entries e he hd "SDX55" hn (Or.inr (by decide))
  have h1 : find "SDA" "SDA" ≠ npos := by decide
  simp [getModemType, hs, h1, mdmType.toNat]

/-- Witness of `getModemType_sdx55_sda_external`: a directory with the entries
`.`, `esoc0` (named `SDX55`). -/
theorem getModemType_sdx55_sda_external_witness :
    getModemType ⟨some [⟨".", none⟩, ⟨"esoc0", some "SDX55"⟩], some "SDA"⟩ = .EXTERNAL :=
  getModemType_sdx55_sda_external [⟨".", none⟩, ⟨"esoc0", some "SDX55"⟩]
    ⟨"esoc0", some "SDX55"⟩
    (by decide) (by decide) rfl

/-- C2: in any run of `setupFunctions`, for every bitmask, topology,
configuration and outcome of the individual operations, wherever the call
`addAdb` (the debug-bridge link) occurs in the effects of the run, no
`linkFunction` call and no second `addAdb` follows it, no `addAdb` precedes
it, and the index handed to it is strictly greater than the index of every
function linked before it (the links of the generic step included). -/
theorem setupFunctions_adb_last (env : Env) (w : World) (functions : Nat) ( callback : Bool)
    (timeout : Nat) (pre post : List Effect) (idx : Nat) (st : Status)
    (h : emitted w (setupFunctions env w functions callback timeout).2
      = pre ++ Effect.addAdb idx st :: post) :
    (∀ e ∈ post, e.isLink = false ∧ e.isAddAdb = false) ∧
    (∀ e ∈ pre, e.isAddAdb = false) ∧
    ∀ name j rc, Effect.linkFunction name j rc ∈ pre → j < idx := by
  obtain ⟨b, tail, n, applied, mon, h1, h2, h3, -⟩ :=
    setupFunctions_shape env w functions callback timeout
  rw [emitted_append _ _ _ h1] at h
  have hb := h2.not_addAdb
  have none_case : ∀ t : List Effect, (∀ e ∈ t, ¬ e.isAddAdb = true) →
      b ++ t = pre ++ Effect.addAdb idx st :: post → False := by
    intro t ht e
    have hm : Effect.addAdb idx st ∈ b ++ t := by rw [e]; simp
    rcases List.mem_append.1 hm with hm | hm
    · exact hb _ hm rfl
    · exact ht _ hm rfl
  have some_case : ∀ (s : Status) (rest : List Effect),
      (∀ e ∈ rest, e.isLink = false ∧ e.isAddAdb = false) →
      b ++ Effect.addAdb n s :: rest = pre ++ Effect.addAdb idx st :: post →
      (∀ e ∈ post, e.isLink = false ∧ e.isAddAdb = false) ∧
      (∀ e ∈ pre, e.isAddAdb = false) ∧
      ∀ name j rc, Effect.linkFunction name j rc ∈ pre → j < idx := by
    intro s rest hrest e
    have hP : (fun x : Effect => x.isAddAdb = true) (Effect.addAdb idx st) := rfl
    obtain ⟨e1, e2, e3⟩ := split_at (fun x : Effect => x.isAddAdb = true) hb
      (fun y hy => by simp [(hrest y hy).2]) hP e
    simp only [Effect.addAdb.injEq] at e2
    subst e1 e3
    rw [e2.1]
    exact ⟨hrest, fun x hx => by simpa using hb x hx, h2.2.2⟩
  generalize (setupFunctions env w functions callback timeout).1 = status at h3
  cases h3 with
  | udc _ => exact (none_case [] (by simp) h).elim
  | buildFail x hx1 _ =>
    refine (none_case [x] ?_ h).elim
    intro e he
    simp only [List.mem_singleton] at he
    subst he
    exact e.not_addAdb_of_buildStep hx1
  | vendor v _ _ => exact (none_case _ (by simp [Effect.isAddAdb]) h).elim
  | adbFail s _ _ => exact some_case s [] (by simp) h
  | pullFail _ => exact (none_case _ (by simp [Effect.isAddAdb]) h).elim
  | direct _ =>
    refine (none_case _ ?_ h).elim
    cases callback <;> simp [cbEffects, Effect.isAddAdb]
  | monitor adb pulled hadb =>
    have hplain := monitorTail_plain functions callback timeout pulled
    rcases hadb with ⟨_, rfl⟩ | ⟨_, rfl⟩
    · refine (none_case _ ?_ h).elim
      intro e he
      simp only [List.nil_append] at he
      simp [(hplain e he).2.1]
    · simp only [List.append_assoc, List.singleton_append] at h
      exact some_case .SUCCESS _ (fun e he => ⟨(hplain e he).1, (hplain e he).2.1⟩) h

/-- Witness of `setupFunctions_adb_last`: ADB with RNDIS on an internal-modem
platform; the generic step links `gsi.rndis` at position 0, the RNDIS
composition occupies positions 1 to 4 and `addAdb` gets index 5. -/
theorem setupFunctions_adb_last_witness :
    (∀ e ∈ [Effect.registerFunctionsAppliedCallback, Effect.startMonitor,
        Effect.waitForPullUp 1000 true, Effect.setCurrentUsbFunctionsCb 33 .SUCCESS],
      e.isLink = false ∧ e.isAddAdb = false) ∧
    (∀ e ∈ [Effect.linkFunction "gsi.rndis" 0 0,
        Effect.addGenericAndroidFunctions 33 .SUCCESS false,
        Effect.linkFunction "diag.diag" 1 0, Effect.linkFunction "qdss.qdss" 2 0,
        Effect.linkFunction "cser.dun.0" 3 0, Effect.linkFunction "gsi.dpl" 4 0,
        Effect.setVidPid "0x05c6" "0x90e9" .SUCCESS], e.isAddAdb = false) ∧
    ∀ name j rc, Effect.linkFunction name j rc ∈ [Effect.linkFunction "gsi.rndis" 0 0,
        Effect.addGenericAndroidFunctions 33 .SUCCESS false,
        Effect.linkFunction "diag.diag" 1 0, Effect.linkFunction "qdss.qdss" 2 0,
        Effect.linkFunction "cser.dun.0" 3 0, Effect.linkFunction "gsi.dpl" 4 0,
        Effect.setVidPid "0x05c6" "0x90e9" .SUCCESS] → j < 5 :=
  setupFunctions_adb_last
    (envAllOk sampleProps sampleFsInternal ⟨["gsi.rndis"], false, .SUCCESS⟩ true) freshWorld 33
    true 1000 _ _ 5 .SUCCESS (by decide)

/-- C4 (the code at the failing input): with a non-null callback, functions =
ADB, the vendor override `custom_usb_cfg` configured and every operation
succeeding, the effects of `setCurrentUsbFunctions` are the teardown, the
settle sleep, the identity write, the (empty) generic step and the property
write; `setCurrentUsbFunctionsCb` is not called at all. -/
theorem setCurrentUsbFunctions_vendor_override_no_callback :
    emitted freshWorld
      (setCurrentUsbFunctions
        (envAllOk { sampleProps with vendorProp := "custom_usb_cfg" } sampleFsInternal
          ⟨[], false, .SUCCESS⟩ true)
        freshWorld GadgetFunction.ADB true 1000)
      = [Effect.resetGadget .SUCCESS, Effect.usleep, Effect.setVidPid "0x18d1" "0x4ee7" .SUCCESS,
         Effect.addGenericAndroidFunctions 1 .SUCCESS false,
         Effect.setProperty "vendor.usb.config" "custom_usb_cfg"] := by
  decide

/-- C6 (as stated, refuted): for functions = ADB only, topology NONE, no
vendor override, a controller name and every operation succeeding,
`setupFunctions` does not write the pull-up path and does not set
`mCurrentUsbFunctionsApplied`; it starts the monitor and waits on it, and
when the wait times out the callback receives `ERROR`. -/
theorem setupFunctions_adb_only_not_direct :
    emitted freshWorld
      (setupFunctions (envAllOk sampleProps sampleFsNone ⟨[], false, .SUCCESS⟩ false)
        freshWorld GadgetFunction.ADB true 1000).2
      = [Effect.addGenericAndroidFunctions 1 .SUCCESS false,
         Effect.linkFunction "diag.diag" 0 0, Effect.setVidPid "0x05c6" "0x901d" .SUCCESS,
         Effect.addAdb 1 .SUCCESS, Effect.registerFunctionsAppliedCallback,
         Effect.startMonitor, Effect.waitForPullUp 1000 false,
         Effect.setCurrentUsbFunctionsCb 1 .ERROR] ∧
    (setupFunctions (envAllOk sampleProps sampleFsNone ⟨[], false, .SUCCESS⟩ false)
        freshWorld GadgetFunction.ADB true 1000).2.mCurrentUsbFunctionsApplied = false := by
  decide

/-- C6 (amended): for functions = ADB only, topology NONE, no vendor override,
a non-empty controller name, a generic step that links nothing and succeeds,
and all link and identity writes and `addAdb` succeeding, `setupFunctions`
links exactly `diag.diag` at position 0, sets the identity `0x05c6:0x901d`,
appends adb at position 1, then registers the completion callback and starts
the monitor instead of writing the pull-up path itself, and returns `SUCCESS`
with the monitor running.  With a non-null callback it waits for the monitor:
when the wait returned true, the callback receives `SUCCESS`, the gadget is
pulled up and the completion callback has set `mCurrentUsbFunctionsApplied`
to true; when it returned false, the callback receives `ERROR` and the flag
and the pull-up are as they were, as they are with a null callback, where
nothing is waited for.  A later completion of the monitor writes the value
it reports into the flag. -/
theorem setupFunctions_adb_only_monitor (env : Env) (w : World) ( callback : Bool)
    (timeout : Nat) (ffs : Bool)
    (hname : env.props.gadgetName ≠ "") (hvendor : env.props.vendorProp = "")
    (htopo : getModemType env.fs = .NONE)
    (hgen : env.addGeneric w.trace GadgetFunction.ADB = ⟨[], ffs, .SUCCESS⟩)
    (hlink : ∀ tr name i, env.linkFunction tr name i = 0)
    (hvid : ∀ tr vid pid, env.setVidPid tr vid pid = .SUCCESS)
    (hadb : ∀ tr i, env.addAdb tr i = .SUCCESS) :
    (setupFunctions env w GadgetFunction.ADB callback timeout).1 = .SUCCESS ∧
    (∃ pulled,
      emitted w (setupFunctions env w GadgetFunction.ADB callback timeout).2
        = [Effect.addGenericAndroidFunctions GadgetFunction.ADB .SUCCESS ffs,
           Effect.linkFunction "diag.diag" 0 0, Effect.setVidPid "0x05c6" "0x901d" .SUCCESS,
           Effect.addAdb 1 .SUCCESS, Effect.registerFunctionsAppliedCallback,
           Effect.startMonitor] ++
          (if callback then
            [Effect.waitForPullUp timeout pulled,
             Effect.setCurrentUsbFunctionsCb GadgetFunction.ADB
               (if pulled then .SUCCESS else .ERROR)]
           else []) ∧
      (setupFunctions env w GadgetFunction.ADB callback timeout).2.mCurrentUsbFunctionsApplied
        = (if callback = true ∧ pulled = true then true else w.mCurrentUsbFunctionsApplied) ∧
      (setupFunctions env w GadgetFunction.ADB callback timeout).2.pulledUp
        = (if callback = true ∧ pulled = true then true else w.pulledUp)) ∧
    (setupFunctions env w GadgetFunction.ADB callback timeout).2.monitorRunning = true ∧
    ∀ applied,
      (monitorCompletion (setupFunctions env w GadgetFunction.ADB callback timeout).2
        applied).mCurrentUsbFunctionsApplied = applied := by
  have hr : rndisSteps GadgetFunction.ADB .NONE
      (env.props.rmnetFunc ++ "." ++ if env.props.dplInst = "" then "dpl" else env.props.dplInst)
      = [] := by
    simp [rndisSteps, GadgetFunction.ADB, GadgetFunction.RNDIS]
  have ha : GadgetFunction.ADB &&& GadgetFunction.ADB ≠ 0 := by decide
  have hz : GadgetFunction.ADB ≠ 0 := by decide
  have hmon : (setupFunctions env w GadgetFunction.ADB callback timeout).2.monitorRunning
      = true := by
    cases callback <;>
      simp [setupFunctions, hname, hvendor, htopo, hgen, hlink, hvid, hadb, hr, ha, hz,
        addGenericAndroidFunctions, replayLinks, runSteps, setupFunctions.adbOverride,
        adbSteps, linkFunction, setVidPid, setupFunctions.finallyAdb, addAdb,
        setupFunctions.activate, World.emit, waitForPullUp, monitorCompletion,
        functionsAppliedCallback]
    split <;> simp
  refine ⟨?_, ⟨env.waitForPullUp (w.trace ++
      [Effect.addGenericAndroidFunctions GadgetFunction.ADB .SUCCESS ffs,
       Effect.linkFunction "diag.diag" 0 0, Effect.setVidPid "0x05c6" "0x901d" .SUCCESS,
       Effect.addAdb 1 .SUCCESS, Effect.registerFunctionsAppliedCallback,
       Effect.startMonitor]) timeout, ?_, ?_, ?_⟩, hmon, ?_⟩
  · cases callback <;>
      simp [setupFunctions, hname, hvendor, htopo, hgen, hlink, hvid, hadb, hr, ha, hz,
        addGenericAndroidFunctions, replayLinks, runSteps, setupFunctions.adbOverride,
        adbSteps, linkFunction, setVidPid, setupFunctions.finallyAdb, addAdb,
        setupFunctions.activate, World.emit]
  · apply emitted_append
    cases callback <;>
      simp [setupFunctions, hname, hvendor, htopo, hgen, hlink, hvid, hadb, hr, ha, hz,
        addGenericAndroidFunctions, replayLinks, runSteps, setupFunctions.adbOverride,
        adbSteps, linkFunction, setVidPid, setupFunctions.finallyAdb, addAdb,
        setupFunctions.activate, World.emit, waitForPullUp_fst, waitForPullUp_trace]
  · cases callback <;>
      simp [setupFunctions, hname, hvendor, htopo, hgen, hlink, hvid, hadb, hr, ha, hz,
        addGenericAndroidFunctions, replayLinks, runSteps, setupFunctions.adbOverride,
        adbSteps, linkFunction, setVidPid, setupFunctions.finallyAdb, addAdb,
        setupFunctions.activate, World.emit, waitForPullUp, monitorCompletion,
        functionsAppliedCallback]
    split <;> simp [*]
  · cases callback <;>
      simp [setupFunctions, hname, hvendor, htopo, hgen, hlink, hvid, hadb, hr, ha, hz,
        addGenericAndroidFunctions, replayLinks, runSteps, setupFunctions.adbOverride,
        adbSteps, linkFunction, setVidPid, setupFunctions.finallyAdb, addAdb,
        setupFunctions.activate, World.emit, waitForPullUp, monitorCompletion,
        functionsAppliedCallback]
    split <;> simp [*]
  · intro applied
    simp [monitorCompletion, functionsAppliedCallback, hmon]

/-- Witness of `setupFunctions_adb_only_monitor`: the sample platform without
modem, where every operation succeeds and the wait reports a pull-up; the
callback receives `SUCCESS` and the flag, false before, is true on return. -/
theorem setupFunctions_adb_only_monitor_witness :
    (setupFunctions (envAllOk sampleProps sampleFsNone ⟨[], false, .SUCCESS⟩ true) freshWorld
      GadgetFunction.ADB true 1000).1 = .SUCCESS ∧
    emitted freshWorld
      (setupFunctions (envAllOk sampleProps sampleFsNone ⟨[], false, .SUCCESS⟩ true) freshWorld
        GadgetFunction.ADB true 1000).2
      = [Effect.addGenericAndroidFunctions GadgetFunction.ADB .SUCCESS false,
         Effect.linkFunction "diag.diag" 0 0, Effect.setVidPid "0x05c6" "0x901d" .SUCCESS,
         Effect.addAdb 1 .SUCCESS, Effect.registerFunctionsAppliedCallback,
         Effect.startMonitor, Effect.waitForPullUp 1000 true,
         Effect.setCurrentUsbFunctionsCb GadgetFunction.ADB .SUCCESS] ∧
    freshWorld.mCurrentUsbFunctionsApplied = false ∧
    (setupFunctions (envAllOk sampleProps sampleFsNone ⟨[], false, .SUCCESS⟩ true) freshWorld
      GadgetFunction.ADB true 1000).2.mCurrentUsbFunctionsApplied = true ∧
    (setupFunctions (envAllOk sampleProps sampleFsNone ⟨[], false, .SUCCESS⟩ true) freshWorld
      GadgetFunction.ADB true 1000).2.pulledUp = true ∧
    (setupFunctions (envAllOk sampleProps sampleFsNone ⟨[], false, .SUCCESS⟩ true) freshWorld
      GadgetFunction.ADB true 1000).2.monitorRunning = true ∧
    (monitorCompletion
      (setupFunctions (envAllOk sampleProps sampleFsNone ⟨[], false, .SUCCESS⟩ true) freshWorld
        GadgetFunction.ADB true 1000).2 false).mCurrentUsbFunctionsApplied = false := by
  have h := setupFunctions_adb_only_monitor
    (envAllOk sampleProps sampleFsNone ⟨[], false, .SUCCESS⟩ true) freshWorld true 1000 false
    (by decide) rfl (by decide) rfl (fun _ _ _ => rfl) (fun _ _ _ => rfl) (fun _ _ => rfl)
  exact ⟨h.1, by decide, rfl, by decide, by decide, h.2.2.1, h.2.2.2 false⟩

/-- C8 (as stated, refuted): the bitmask `MIDI | PTP` is non-zero and has no
identity mapping, and a call of `setCurrentUsbFunctions` with it on a gadget
that has MIDI applied changes `mCurrentUsbFunctions`,
`mCurrentUsbFunctionsApplied`, the pull-up and the links before it reports
`CONFIGURATION_NOT_SUPPORTED`. -/
theorem setCurrentUsbFunctions_unsupported_changes_state :
    validateAndSetVidPid.product (GadgetFunction.MIDI ||| GadgetFunction.PTP) = none ∧
    (setCurrentUsbFunctions envMidi midiWorld (GadgetFunction.MIDI ||| GadgetFunction.PTP)
      true 1000).mCurrentUsbFunctions ≠ midiWorld.mCurrentUsbFunctions ∧
    (setCurrentUsbFunctions envMidi midiWorld (GadgetFunction.MIDI ||| GadgetFunction.PTP)
      true 1000).mCurrentUsbFunctionsApplied ≠ midiWorld.mCurrentUsbFunctionsApplied ∧
    (setCurrentUsbFunctions envMidi midiWorld (GadgetFunction.MIDI ||| GadgetFunction.PTP)
      true 1000).pulledUp ≠ midiWorld.pulledUp ∧
    (setCurrentUsbFunctions envMidi midiWorld (GadgetFunction.MIDI ||| GadgetFunction.PTP)
      true 1000).links ≠ midiWorld.links ∧
    emitted midiWorld
      (setCurrentUsbFunctions envMidi midiWorld (GadgetFunction.MIDI ||| GadgetFunction.PTP)
        true 1000)
      = [Effect.resetGadget .SUCCESS, Effect.usleep,
         Effect.setCurrentUsbFunctionsCb 24 .CONFIGURATION_NOT_SUPPORTED] := by
  decide

/-- C8 (amended): for every non-zero bitmask without identity mapping,
`setCurrentUsbFunctions` records the request and tears the gadget down before
it checks the identity: on return `mCurrentUsbFunctions` is the requested
bitmask and `mCurrentUsbFunctionsApplied` is false; the effects are the
teardown followed, when `resetGadget` failed, by the callback with `ERROR`,
and otherwise by the settle sleep and the callback with
`CONFIGURATION_NOT_SUPPORTED`; after a successful teardown the gadget is
pulled down, nothing is linked and the monitor is stopped.  No identity
write, link, pull-up write, property write or monitor start is attempted. -/
theorem setCurrentUsbFunctions_unsupported (env : Env) (w : World) (functions : Nat)
    ( callback : Bool) (timeout : Nat) (hf : functions ≠ GadgetFunction.NONE)
    (hp : validateAndSetVidPid.product functions = none) :
    (setCurrentUsbFunctions env w functions callback timeout).mCurrentUsbFunctions
      = functions ∧
    (setCurrentUsbFunctions env w functions callback timeout).mCurrentUsbFunctionsApplied
      = false ∧
    emitted w (setCurrentUsbFunctions env w functions callback timeout) =
      teardownEffects env w ++
        (if env.resetGadget w.trace = .SUCCESS then
          Effect.usleep :: cbEffects callback functions .CONFIGURATION_NOT_SUPPORTED
         else cbEffects callback functions .ERROR) ∧
    (∀ e ∈ emitted w (setCurrentUsbFunctions env w functions callback timeout),
      e.isIdentityOrBuild = false) ∧
    (env.resetGadget w.trace = .SUCCESS →
      (setCurrentUsbFunctions env w functions callback timeout).pulledUp = false ∧
      (setCurrentUsbFunctions env w functions callback timeout).links = [] ∧
      (setCurrentUsbFunctions env w functions callback timeout).monitorRunning = false) := by
  have key : (setCurrentUsbFunctions env w functions callback timeout).trace =
      w.trace ++ (teardownEffects env w ++
        (if env.resetGadget w.trace = .SUCCESS then
          Effect.usleep :: cbEffects callback functions .CONFIGURATION_NOT_SUPPORTED
         else cbEffects callback functions .ERROR)) := by
    simp only [setCurrentUsbFunctions, tearDownGadget, resetGadget, setCurrentUsbFunctions.error,
      World.emit, teardownEffects, cbEffects, validateAndSetVidPid, hp]
    by_cases h1 : env.resetGadget w.trace = .SUCCESS <;> by_cases h2 : w.monitorRunning <;>
      cases callback <;> simp [h1, h2, hf]
  refine ⟨?_, ?_, emitted_append _ _ _ key, ?_, ?_⟩
  · simp only [setCurrentUsbFunctions, tearDownGadget, resetGadget, setCurrentUsbFunctions.error,
      World.emit, validateAndSetVidPid, hp]
    by_cases h1 : env.resetGadget w.trace = .SUCCESS <;> by_cases h2 : w.monitorRunning <;>
      cases callback <;> simp [h1, h2, hf]
  · simp only [setCurrentUsbFunctions, tearDownGadget, resetGadget, setCurrentUsbFunctions.error,
      World.emit, validateAndSetVidPid, hp]
    by_cases h1 : env.resetGadget w.trace = .SUCCESS <;> by_cases h2 : w.monitorRunning <;>
      cases callback <;> simp [h1, h2, hf]
  · rw [emitted_append _ _ _ key]
    by_cases h1 : env.resetGadget w.trace = .SUCCESS <;> by_cases h2 : w.monitorRunning <;>
      cases callback <;> simp [h1, h2, teardownEffects, cbEffects, Effect.isIdentityOrBuild]
  · intro h1
    simp only [setCurrentUsbFunctions, tearDownGadget, resetGadget, setCurrentUsbFunctions.error,
      World.emit, validateAndSetVidPid, hp]
    by_cases h2 : w.monitorRunning <;> cases callback <;> simp [h1, h2, hf]

/-- Witness of `setCurrentUsbFunctions_unsupported`: the bitmask `MIDI | PTP`
requested on a gadget that has MIDI applied. -/
theorem setCurrentUsbFunctions_unsupported_witness :
    (setCurrentUsbFunctions envMidi midiWorld 24 true 1000).mCurrentUsbFunctions = 24 ∧
    (setCurrentUsbFunctions envMidi midiWorld 24 true 1000).mCurrentUsbFunctionsApplied
      = false ∧
    emitted midiWorld (setCurrentUsbFunctions envMidi midiWorld 24 true 1000) =
      teardownEffects envMidi midiWorld ++
        (if envMidi.resetGadget midiWorld.trace = .SUCCESS then
          Effect.usleep :: cbEffects true 24 .CONFIGURATION_NOT_SUPPORTED
         else cbEffects true 24 .ERROR) ∧
    (∀ e ∈ emitted midiWorld (setCurrentUsbFunctions envMidi midiWorld 24 true 1000),
      e.isIdentityOrBuild = false) ∧
    (envMidi.resetGadget midiWorld.trace = .SUCCESS →
      (setCurrentUsbFunctions envMidi midiWorld 24 true 1000).pulledUp = false ∧
      (setCurrentUsbFunctions envMidi midiWorld 24 true 1000).links = [] ∧
      (setCurrentUsbFunctions envMidi midiWorld 24 true 1000).monitorRunning = false) :=
  setCurrentUsbFunctions_unsupported envMidi midiWorld 24 true 1000 (by decide) (by decide)

/-- A run that is not admitted: when `resetGadget` fails in a call made while
the monitor is running, `tearDownGadget` returns before the monitor is stopped
(lines 102-105); a later completion of the monitor then sets
`mCurrentUsbFunctionsApplied` under the new `mCurrentUsbFunctions`, here MIDI,
while the links are still those of the previous request, here RNDIS with
ADB. -/
theorem stale_monitor_after_failed_teardown :
    admitted freshWorld [Op.callSet envRndis 33 true 1000,
      Op.callSet envResetFails GadgetFunction.MIDI true 1000, Op.monitorEvent true] = false ∧
    (run freshWorld [Op.callSet envRndis 33 true 1000,
      Op.callSet envResetFails GadgetFunction.MIDI true 1000,
      Op.monitorEvent true]).mCurrentUsbFunctions = GadgetFunction.MIDI ∧
    (run freshWorld [Op.callSet envRndis 33 true 1000,
      Op.callSet envResetFails GadgetFunction.MIDI true 1000,
      Op.monitorEvent true]).mCurrentUsbFunctionsApplied = true ∧
    (run freshWorld [Op.callSet envRndis 33 true 1000,
      Op.callSet envResetFails GadgetFunction.MIDI true 1000,
      Op.monitorEvent true]).links
      = [("gsi.rndis", 0), ("diag.diag", 1), ("qdss.qdss", 2), ("cser.dun.0", 3),
         ("gsi.dpl", 4), ("ffs.adb", 5)] := by
  decide

/-- C10: after a call `setCurrentUsbFunctions(f, ...)`, whether it succeeded
or not, and any later steps that are not `setCurrentUsbFunctions` calls,
`getCurrentUsbFunctions` makes exactly one call of its callback, with `f` and
with `FUNCTIONS_APPLIED` if `mCurrentUsbFunctionsApplied` is true and
`FUNCTIONS_NOT_APPLIED` otherwise, and it leaves `mCurrentUsbFunctions`,
`mCurrentUsbFunctionsApplied`, the pull-up, the links and the monitor as they
were. -/
theorem getCurrentUsbFunctions_reports_last_request (env : Env) (w : World) (functions : Nat)
    ( callback : Bool) (timeout : Nat) (ops : List Op) (hops : ∀ op ∈ ops, op.isSet = false) :
    emitted (run (setCurrentUsbFunctions env w functions callback timeout) ops)
      (getCurrentUsbFunctions (run (setCurrentUsbFunctions env w functions callback timeout) ops))
      = [Effect.getCurrentUsbFunctionsCb functions
          (if (run (setCurrentUsbFunctions env w functions callback timeout)
                ops).mCurrentUsbFunctionsApplied
           then .FUNCTIONS_APPLIED else .FUNCTIONS_NOT_APPLIED)] ∧
    (getCurrentUsbFunctions
      (run (setCurrentUsbFunctions env w functions callback timeout) ops)).mCurrentUsbFunctions
      = (run (setCurrentUsbFunctions env w functions callback timeout)
          ops).mCurrentUsbFunctions ∧
    (getCurrentUsbFunctions
      (run (setCurrentUsbFunctions env w functions callback timeout) ops)).mCurrentUsbFunctionsApplied
      = (run (setCurrentUsbFunctions env w functions callback timeout)
          ops).mCurrentUsbFunctionsApplied ∧
    (getCurrentUsbFunctions
      (run (setCurrentUsbFunctions env w functions callback timeout) ops)).pulledUp
      = (run (setCurrentUsbFunctions env w functions callback timeout)
          ops).pulledUp ∧
    (getCurrentUsbFunctions
      (run (setCurrentUsbFunctions env w functions callback timeout) ops)).links
      = (run (setCurrentUsbFunctions env w functions callback timeout)
          ops).links ∧
    (getCurrentUsbFunctions
      (run (setCurrentUsbFunctions env w functions callback timeout) ops)).monitorRunning
      = (run (setCurrentUsbFunctions env w functions callback timeout)
          ops).monitorRunning := by
  have hf : (run (setCurrentUsbFunctions env w functions callback timeout)
      ops).mCurrentUsbFunctions = functions := by
    rw [run_keeps_functions ops _ hops]
    obtain ⟨ok, applied, mon, rest, h1, h2, h3, h4, -⟩ :=
      setCurrentUsbFunctions_shape env w functions callback timeout
    exact h4
  refine ⟨?_, rfl, rfl, rfl, rfl, rfl⟩
  apply emitted_append
  simp [getCurrentUsbFunctions, World.emit, hf]

/-- Witness of `getCurrentUsbFunctions_reports_last_request`: MIDI requested
on a fresh gadget, then a `reset()` and a query before the final query. -/
theorem getCurrentUsbFunctions_reports_last_request_witness :
    emitted (run (setCurrentUsbFunctions envMidi freshWorld 8 true 1000)
        [Op.callReset envMidi, Op.callGet])
      (getCurrentUsbFunctions (run (setCurrentUsbFunctions envMidi freshWorld 8 true 1000)
        [Op.callReset envMidi, Op.callGet]))
      = [Effect.getCurrentUsbFunctionsCb 8
          (if (run (setCurrentUsbFunctions envMidi freshWorld 8 true 1000)
                [Op.callReset envMidi, Op.callGet]).mCurrentUsbFunctionsApplied
           then .FUNCTIONS_APPLIED else .FUNCTIONS_NOT_APPLIED)] ∧
    (getCurrentUsbFunctions (run (setCurrentUsbFunctions envMidi freshWorld 8 true 1000)
        [Op.callReset envMidi, Op.callGet])).mCurrentUsbFunctions
      = (run (setCurrentUsbFunctions envMidi freshWorld 8 true 1000)
        [Op.callReset envMidi, Op.callGet]).mCurrentUsbFunctions ∧
    (getCurrentUsbFunctions (run (setCurrentUsbFunctions envMidi freshWorld 8 true 1000)
        [Op.callReset envMidi, Op.callGet])).mCurrentUsbFunctionsApplied
      = (run (setCurrentUsbFunctions envMidi freshWorld 8 true 1000)
        [Op.callReset envMidi, Op.callGet]).mCurrentUsbFunctionsApplied ∧
    (getCurrentUsbFunctions (run (setCurrentUsbFunctions envMidi freshWorld 8 true 1000)
        [Op.callReset envMidi, Op.callGet])).pulledUp
      = (run (setCurrentUsbFunctions envMidi freshWorld 8 true 1000)
        [Op.callReset envMidi, Op.callGet]).pulledUp ∧
    (getCurrentUsbFunctions (run (setCurrentUsbFunctions envMidi freshWorld 8 true 1000)
        [Op.callReset envMidi, Op.callGet])).links
      = (run (setCurrentUsbFunctions envMidi freshWorld 8 true 1000)
        [Op.callReset envMidi, Op.callGet]).links ∧
    (getCurrentUsbFunctions (run (setCurrentUsbFunctions envMidi freshWorld 8 true 1000)
        [Op.callReset envMidi, Op.callGet])).monitorRunning
      = (run (setCurrentUsbFunctions envMidi freshWorld 8 true 1000)
        [Op.callReset envMidi, Op.callGet]).monitorRunning :=
  getCurrentUsbFunctions_reports_last_request envMidi freshWorld 8 true 1000
    [Op.callReset envMidi, Op.callGet] (by simp [Op.isSet])

/-- C13: when the modem-device directory exists and the machine-identity file
is readable and non-empty, `getModemType` equals the reference classification
with `ext` = some entry whose name does not start with a dot has a readable
`esoc_name` containing `MDM` or `SDX`, and `ov` = the machine string contains
`SDA` or its last character is `P`: the result is `NONE` for `ov` without
`ext`, `EXTERNAL` for `ov` with `ext`, `INTERNAL_EXTERNAL` for `ext` without
`ov`, and `INTERNAL` for neither.  The strings are shorter than `2 ^ 64`
characters, as every `std::string` is. -/
theorem getModemType_eq_reference (entries : List EsocEntry) (machine : String)
    (hne : machine ≠ "")
    (hmlen : machine.length < 2 ^ 64)
    (hlen : ∀ e ∈ entries, ∀ name, e.esoc_name = some name → name.length < 2 ^ 64) :
    getModemType ⟨some entries, some machine⟩ =
      refModemType (refExternal entries) (refOverride machine) := by
  have hdata : machine.data ≠ [] := by
    intro h
    apply hne
    cases machine
    simp_all
  have hsda : ("SDA" : String).data ≠ [] := by decide
  simp only [getModemType, scanEsoc_eq_ref entries hlen, find_ne_npos_iff machine "SDA" hsda hmlen,
    find_last_of_eq_iff machine 'P' hdata hmlen]
  by_cases h1 : "SDA".data <:+: machine.data <;>
    by_cases h2 : machine.data.getLast? = some 'P' <;>
    cases h3 : refExternal entries <;>
    simp [refOverride, refModemType, h1, h2, mdmType.toNat]

/-- Witness of `getModemType_eq_reference`: a directory with the entries `.`
and `esoc0` (named `MDM9x55`) on a machine `SM8150`. -/
theorem getModemType_eq_reference_witness :
    getModemType ⟨some [⟨".", none⟩, ⟨"esoc0", some "MDM9x55"⟩], some "SM8150"⟩ =
      refModemType (refExternal [⟨".", none⟩, ⟨"esoc0", some "MDM9x55"⟩])
        (refOverride "SM8150") :=
  getModemType_eq_reference [⟨".", none⟩, ⟨"esoc0", some "MDM9x55"⟩] "SM8150" (by decide)
    (by decide)
    (by
      intro e he name hn
      simp only [List.mem_cons, List.mem_singleton, List.not_mem_nil, or_false] at he
      rcases he with rfl | rfl
      · simp at hn
      · simp only [Option.some.injEq] at hn
        subst hn
        decide)

/-- C14 (as stated, refuted): without the modem-device directory and with the
machine string `SDA`, `getModemType` returns `INTERNAL`, not `NONE`. -/
theorem getModemType_no_dir_sda_internal :
    getModemType ⟨none, some "SDA"⟩ = .INTERNAL ∧
    getModemType ⟨none, some "SDA"⟩ ≠ .NONE := by
  decide

/-- C14 (amended): when the modem-device directory does not exist,
`getModemType` returns `INTERNAL` at once, whatever the machine-identity file
holds and whether or not it can be read: the machine-identity check is not
performed. -/
theorem getModemType_no_dir (socMachine : Option String) :
    getModemType ⟨none, socMachine⟩ = .INTERNAL := by
  rfl

/-- C15 (the code at the failing input): with an empty machine string the
comparison `pos_p == length - 1` holds, both sides being `npos`, so the
override is taken: the result is `NONE` when no external modem was found and
`EXTERNAL` when one was found. -/
theorem getModemType_empty_machine :
    find_last_of "" 'P' = npos ∧ ("".length + 2 ^ 64 - 1) % 2 ^ 64 = npos ∧
    getModemType ⟨some [], some ""⟩ = .NONE ∧
    getModemType ⟨some [⟨"esoc0", some "SDX55"⟩], some ""⟩ = .EXTERNAL := by
  decide

/-- C11 (as stated, refuted): a second `reset()` need not return the status
of the first nor leave the same state.  On the gadget that has MIDI applied,
when the first write of `"none"` succeeds and the second fails, the single
`reset()` returns `SUCCESS` and the second one `ERROR`; when the first write
fails and the second succeeds, the single `reset()` returns `ERROR` and leaves
the gadget pulled up, while two leave it pulled down and the second returns
`SUCCESS`. -/
theorem reset_twice_differs :
    ((reset (envFlaky true false) midiWorld).1 = .SUCCESS ∧
      (reset (envFlaky true false) (reset (envFlaky true false) midiWorld).2).1 = .ERROR) ∧
    ((reset (envFlaky false true) midiWorld).1 = .ERROR ∧
      (reset (envFlaky false true) midiWorld).2.pulledUp = true ∧
      (reset (envFlaky false true) (reset (envFlaky false true) midiWorld).2).1 = .SUCCESS ∧
      (reset (envFlaky false true) (reset (envFlaky false true) midiWorld).2).2.pulledUp
        = false) := by
  decide

/-- C11 (amended): `reset()` only clears the pull-up.  It makes one write of
`"none"` to the pull-up path and returns `SUCCESS` exactly when that write
succeeds; it leaves `mCurrentUsbFunctions`, `mCurrentUsbFunctionsApplied`, the
links and the monitor untouched, and after a successful write the gadget is
pulled down.  Hence a second `reset()` whose write has the same outcome as the
first returns the same status and leaves the same state (pull-up included) as
the single `reset()`. -/
theorem reset_idempotent (env env2 : Env) (w : World)
    (hsame : env2.writePullup (reset env w).2.trace "none" = env.writePullup w.trace "none") :
    ((reset env w).1 = .SUCCESS ↔ env.writePullup w.trace "none" = true) ∧
    emitted w (reset env w).2 = [Effect.writePullup "none" (env.writePullup w.trace "none")] ∧
    (reset env w).2.mCurrentUsbFunctions = w.mCurrentUsbFunctions ∧
    (reset env w).2.mCurrentUsbFunctionsApplied = w.mCurrentUsbFunctionsApplied ∧
    (reset env w).2.links = w.links ∧
    (reset env w).2.monitorRunning = w.monitorRunning ∧
    ((reset env w).1 = .SUCCESS → (reset env w).2.pulledUp = false) ∧
    (reset env2 (reset env w).2).1 = (reset env w).1 ∧
    (reset env2 (reset env w).2).2.pulledUp = (reset env w).2.pulledUp ∧
    (reset env2 (reset env w).2).2.mCurrentUsbFunctions = (reset env w).2.mCurrentUsbFunctions ∧
    (reset env2 (reset env w).2).2.mCurrentUsbFunctionsApplied
      = (reset env w).2.mCurrentUsbFunctionsApplied ∧
    (reset env2 (reset env w).2).2.links = (reset env w).2.links ∧
    (reset env2 (reset env w).2).2.monitorRunning = (reset env w).2.monitorRunning := by
  by_cases h : env.writePullup w.trace "none" = true
  · have h2 : env2.writePullup (w.trace ++ [Effect.writePullup "none" true]) "none" = true := by
      simpa [reset, writePullup, World.emit, h] using hsame
    refine ⟨?_, ?_, ?_, ?_, ?_, ?_, ?_, ?_, ?_, ?_, ?_, ?_, ?_⟩ <;>
      simp [reset, writePullup, World.emit, emitted, h, h2]
  · have h2 : env2.writePullup
        (w.trace ++ [Effect.writePullup "none" false]) "none" = false := by
      simpa [reset, writePullup, World.emit, h] using hsame
    simp only [Bool.not_eq_true] at h
    refine ⟨?_, ?_, ?_, ?_, ?_, ?_, ?_, ?_, ?_, ?_, ?_, ?_, ?_⟩ <;>
      simp [reset, writePullup, World.emit, emitted, h, h2]

/-- Witness of `reset_idempotent` on the gadget that has MIDI applied: two
resets whose writes succeed both return `SUCCESS` and leave it pulled down, two
resets whose writes fail both return `ERROR` and leave it pulled up; the flag
stays true in both cases. -/
theorem reset_idempotent_witness :
    ((reset (envFlaky true true) midiWorld).1 = .SUCCESS ∧
      (reset (envFlaky true true) (reset (envFlaky true true) midiWorld).2).1
        = (reset (envFlaky true true) midiWorld).1 ∧
      (reset (envFlaky true true) (reset (envFlaky true true) midiWorld).2).2.pulledUp
        = false ∧
      (reset (envFlaky true true) midiWorld).2.mCurrentUsbFunctionsApplied = true) ∧
    ((reset (envFlaky false false) midiWorld).1 = .ERROR ∧
      (reset (envFlaky false false) (reset (envFlaky false false) midiWorld).2).1
        = (reset (envFlaky false false) midiWorld).1 ∧
      (reset (envFlaky false false) (reset (envFlaky false false) midiWorld).2).2.pulledUp
        = true ∧
      (reset (envFlaky false false) midiWorld).2.mCurrentUsbFunctionsApplied = true) :=
  ⟨⟨by decide,
      (reset_idempotent (envFlaky true true) (envFlaky true true) midiWorld
        (by decide)).2.2.2.2.2.2.2.1,
      by decide, by decide⟩,
    ⟨by decide,
      (reset_idempotent (envFlaky false false) (envFlaky false false) midiWorld
        (by decide)).2.2.2.2.2.2.2.1,
      by decide, by decide⟩⟩

/-- C16: for every bitmask containing both RNDIS and ADB, when the generic step
has linked `n` functions (at positions `0` to `n - 1`) and every link and
identity write succeeds, the effects of `setupFunctions` continue, for
topology `EXTERNAL` or `INTERNAL_EXTERNAL`, with the links of `diag.diag`,
`diag.diag_mdm`, `qdss.qdss`, `qdss.qdss_mdm`, `cser.dun.0` and
`<rmnetFunc>.<dplInst>` at positions `n` to `n + 5` followed by
`setVidPid("0x05c6", "0x90e7")`; for topology `INTERNAL` with the links of
`diag.diag`, `qdss.qdss`, `cser.dun.0` and `<rmnetFunc>.<dplInst>` at
positions `n` to `n + 3` followed by `setVidPid("0x05c6", "0x90e9")`; for
topology `NONE` the RNDIS block has no statement at all.  Unless the topology
is `NONE` and `n = 0` (where the ADB block follows), no further link or
identity write follows. -/
theorem setupFunctions_rndis_composition (env : Env) (w : World) (functions : Nat)
    ( callback : Bool) (timeout : Nat) (names : List String) (ffs : Bool)
    (hname : env.props.gadgetName ≠ "")
    (hR : functions &&& GadgetFunction.RNDIS ≠ 0) (hA : functions &&& GadgetFunction.ADB ≠ 0)
    (hgen : env.addGeneric w.trace functions = ⟨names, ffs, .SUCCESS⟩)
    (hlink : ∀ tr name i, env.linkFunction tr name i = 0)
    (hvid : ∀ tr vid pid, env.setVidPid tr vid pid = .SUCCESS) :
    (∃ rest,
      emitted w (setupFunctions env w functions callback timeout).2 =
        linkEffects names 0 ++ [Effect.addGenericAndroidFunctions functions .SUCCESS ffs] ++
        (match getModemType env.fs with
          | .EXTERNAL | .INTERNAL_EXTERNAL =>
            [Effect.linkFunction "diag.diag" names.length 0,
             Effect.linkFunction "diag.diag_mdm" (names.length + 1) 0,
             Effect.linkFunction "qdss.qdss" (names.length + 2) 0,
             Effect.linkFunction "qdss.qdss_mdm" (names.length + 3) 0,
             Effect.linkFunction "cser.dun.0" (names.length + 4) 0,
             Effect.linkFunction env.props.dplName (names.length + 5) 0,
             Effect.setVidPid "0x05c6" "0x90e7" .SUCCESS]
          | .INTERNAL =>
            [Effect.linkFunction "diag.diag" names.length 0,
             Effect.linkFunction "qdss.qdss" (names.length + 1) 0,
             Effect.linkFunction "cser.dun.0" (names.length + 2) 0,
             Effect.linkFunction env.props.dplName (names.length + 3) 0,
             Effect.setVidPid "0x05c6" "0x90e9" .SUCCESS]
          | .NONE => []) ++ rest ∧
      ((getModemType env.fs ≠ .NONE ∨ names ≠ []) →
        ∀ e ∈ rest, e.isBuildStep = false ∧ e.isLink = false)) ∧
    rndisSteps functions .NONE env.props.dplName = [] ∧
    (env.props.dplInst = "" → env.props.dplName = env.props.rmnetFunc ++ ".dpl") := by
  refine ⟨?_, by simp [rndisSteps], ?_⟩
  swap
  · intro h
    simp [Props.dplName, h, String.append_assoc]
  rw [setupFunctions_after_rndis env w functions callback timeout names ffs hname hgen hlink hvid]
  cases hm : getModemType env.fs with
  | INTERNAL =>
    have hs : rndisSteps functions .INTERNAL env.props.dplName =
        [.link "diag.diag", .link "qdss.qdss", .link "cser.dun.0", .link env.props.dplName,
         .vidPid "0x05c6" "0x90e9"] := by
      simp [rndisSteps, hR, hA]
    rw [hs, afterRndis_positive _ _ _ _ _ _ _ (by simp [countLinks])]
    obtain ⟨rest, r1, r2⟩ := finish_plain env
      (w.extend
        (linkEffects names 0 ++ [Effect.addGenericAndroidFunctions functions .SUCCESS ffs] ++
          stepEffects [.link "diag.diag", .link "qdss.qdss", .link "cser.dun.0",
            .link env.props.dplName, .vidPid "0x05c6" "0x90e9"] names.length)
        (linkPairs names 0 ++
          stepLinks [.link "diag.diag", .link "qdss.qdss", .link "cser.dun.0",
            .link env.props.dplName, .vidPid "0x05c6" "0x90e9"] names.length))
      functions callback timeout env.props.gadgetName ffs
      (names.length + countLinks [.link "diag.diag", .link "qdss.qdss", .link "cser.dun.0",
            .link env.props.dplName, .vidPid "0x05c6" "0x90e9"])
    refine ⟨rest, ?_, fun _ => r2⟩
    apply emitted_append
    rw [r1]
    simp [World.extend, stepEffects]
  | EXTERNAL =>
    have hs : rndisSteps functions .EXTERNAL env.props.dplName =
        [.link "diag.diag", .link "diag.diag_mdm", .link "qdss.qdss", .link "qdss.qdss_mdm",
         .link "cser.dun.0", .link env.props.dplName, .vidPid "0x05c6" "0x90e7"] := by
      simp [rndisSteps, hR, hA]
    rw [hs, afterRndis_positive _ _ _ _ _ _ _ (by simp [countLinks])]
    obtain ⟨rest, r1, r2⟩ := finish_plain env
      (w.extend
        (linkEffects names 0 ++ [Effect.addGenericAndroidFunctions functions .SUCCESS ffs] ++
          stepEffects [.link "diag.diag", .link "diag.diag_mdm", .link "qdss.qdss",
            .link "qdss.qdss_mdm", .link "cser.dun.0", .link env.props.dplName,
            .vidPid "0x05c6" "0x90e7"] names.length)
        (linkPairs names 0 ++
          stepLinks [.link "diag.diag", .link "diag.diag_mdm", .link "qdss.qdss",
            .link "qdss.qdss_mdm", .link "cser.dun.0", .link env.props.dplName,
            .vidPid "0x05c6" "0x90e7"] names.length))
      functions callback timeout env.props.gadgetName ffs
      (names.length + countLinks [.link "diag.diag", .link "diag.diag_mdm", .link "qdss.qdss",
            .link "qdss.qdss_mdm", .link "cser.dun.0", .link env.props.dplName,
            .vidPid "0x05c6" "0x90e7"])
    refine ⟨rest, ?_, fun _ => r2⟩
    apply emitted_append
    rw [r1]
    simp [World.extend, stepEffects]
  | INTERNAL_EXTERNAL =>
    have hs : rndisSteps functions .INTERNAL_EXTERNAL env.props.dplName =
        [.link "diag.diag", .link "diag.diag_mdm", .link "qdss.qdss", .link "qdss.qdss_mdm",
         .link "cser.dun.0", .link env.props.dplName, .vidPid "0x05c6" "0x90e7"] := by
      simp [rndisSteps, hR, hA]
    rw [hs, afterRndis_positive _ _ _ _ _ _ _ (by simp [countLinks])]
    obtain ⟨rest, r1, r2⟩ := finish_plain env
      (w.extend
        (linkEffects names 0 ++ [Effect.addGenericAndroidFunctions functions .SUCCESS ffs] ++
          stepEffects [.link "diag.diag", .link "diag.diag_mdm", .link "qdss.qdss",
            .link "qdss.qdss_mdm", .link "cser.dun.0", .link env.props.dplName,
            .vidPid "0x05c6" "0x90e7"] names.length)
        (linkPairs names 0 ++
          stepLinks [.link "diag.diag", .link "diag.diag_mdm", .link "qdss.qdss",
            .link "qdss.qdss_mdm", .link "cser.dun.0", .link env.props.dplName,
            .vidPid "0x05c6" "0x90e7"] names.length))
      functions callback timeout env.props.gadgetName ffs
      (names.length + countLinks [.link "diag.diag", .link "diag.diag_mdm", .link "qdss.qdss",
            .link "qdss.qdss_mdm", .link "cser.dun.0", .link env.props.dplName,
            .vidPid "0x05c6" "0x90e7"])
    refine ⟨rest, ?_, fun _ => r2⟩
    apply emitted_append
    rw [r1]
    simp [World.extend, stepEffects]
  | NONE =>
    have hs : rndisSteps functions .NONE env.props.dplName = [] := by
      simp [rndisSteps]
    rw [hs]
    simp only [stepEffects, stepLinks, countLinks, List.append_nil, Nat.add_zero]
    by_cases hn : names = []
    · obtain ⟨rest, r1⟩ := afterRndis_trace env
        (w.extend
          (linkEffects names 0 ++ [Effect.addGenericAndroidFunctions functions .SUCCESS ffs])
          (linkPairs names 0)) functions callback timeout ffs names.length
      refine ⟨rest, ?_, fun h => ?_⟩
      · apply emitted_append
        rw [r1]
        simp [World.extend]
      · rcases h with h | h
        · exact absurd rfl h
        · exact absurd hn h
    · rw [afterRndis_positive _ _ _ _ _ _ _ (by simpa using hn)]
      obtain ⟨rest, r1, r2⟩ := finish_plain env
        (w.extend
          (linkEffects names 0 ++ [Effect.addGenericAndroidFunctions functions .SUCCESS ffs])
          (linkPairs names 0)) functions callback timeout env.props.gadgetName ffs names.length
      refine ⟨rest, ?_, fun _ => r2⟩
      apply emitted_append
      rw [r1]
      simp [World.extend]

/-- Witness of `setupFunctions_rndis_composition`: RNDIS with ADB on the
sample platform with an internal modem, the generic step having linked
`gsi.rndis` at position 0. -/
theorem setupFunctions_rndis_composition_witness :
    ∃ rest,
      emitted freshWorld (setupFunctions envRndis freshWorld 33 true 1000).2 =
        [Effect.linkFunction "gsi.rndis" 0 0,
         Effect.addGenericAndroidFunctions 33 .SUCCESS false,
         Effect.linkFunction "diag.diag" 1 0, Effect.linkFunction "qdss.qdss" 2 0,
         Effect.linkFunction "cser.dun.0" 3 0, Effect.linkFunction "gsi.dpl" 4 0,
         Effect.setVidPid "0x05c6" "0x90e9" .SUCCESS] ++ rest ∧
      ((getModemType envRndis.fs ≠ .NONE ∨ ["gsi.rndis"] ≠ []) →
        ∀ e ∈ rest, e.isBuildStep = false ∧ e.isLink = false) :=
  (setupFunctions_rndis_composition envRndis freshWorld 33 true 1000 ["gsi.rndis"] false
    (by decide) (by decide) (by decide) rfl (fun _ _ _ => rfl) (fun _ _ _ => rfl)).1

/-- C17: for every bitmask containing ADB, when the generic step has linked
nothing and the RNDIS block links nothing (RNDIS absent or topology `NONE`),
so that `i == 0`, with no vendor override configured and every link and
identity write succeeding, the effects of `setupFunctions` continue, for
topology `EXTERNAL` or `INTERNAL_EXTERNAL`, with the links of `diag.diag`,
`diag.diag_mdm`, `qdss.qdss`, `qdss.qdss_mdm`, `cser.dun.0`,
`<rmnetFunc>.<dplInst>` and `<rmnetFunc>.<rmnetInst>` at positions 0 to 6 and
`setVidPid("0x05c6", "0x90e5")`; for topology `NONE` with the link of
`diag.diag` at position 0 and `setVidPid("0x05c6", "0x901d")`; for the
remaining topology with the links of `diag.diag`, `cser.dun.0`,
`<rmnetFunc>.<rmnetInst>`, `<rmnetFunc>.<dplInst>` and `qdss.qdss` at positions
0 to 4 and `setVidPid("0x05c6", "0x90db")`; no further link or identity write
follows.  With a counter `i > 0` the block does nothing at all, in every
environment. -/
theorem setupFunctions_adb_composition (env : Env) (w : World) (functions : Nat)
    ( callback : Bool) (timeout : Nat) (ffs : Bool)
    (hname : env.props.gadgetName ≠ "")
    (hA : functions &&& GadgetFunction.ADB ≠ 0)
    (hgen : env.addGeneric w.trace functions = ⟨[], ffs, .SUCCESS⟩)
    (hr : functions &&& GadgetFunction.RNDIS = 0 ∨ getModemType env.fs = .NONE)
    (hvendor : env.props.vendorProp = "")
    (hlink : ∀ tr name i, env.linkFunction tr name i = 0)
    (hvid : ∀ tr vid pid, env.setVidPid tr vid pid = .SUCCESS) :
    (∃ rest,
      emitted w (setupFunctions env w functions callback timeout).2 =
        [Effect.addGenericAndroidFunctions functions .SUCCESS ffs] ++
        (match getModemType env.fs with
          | .EXTERNAL | .INTERNAL_EXTERNAL =>
            [Effect.linkFunction "diag.diag" 0 0,
             Effect.linkFunction "diag.diag_mdm" 1 0,
             Effect.linkFunction "qdss.qdss" 2 0,
             Effect.linkFunction "qdss.qdss_mdm" 3 0,
             Effect.linkFunction "cser.dun.0" 4 0,
             Effect.linkFunction env.props.dplName 5 0,
             Effect.linkFunction env.props.rmnetName 6 0,
             Effect.setVidPid "0x05c6" "0x90e5" .SUCCESS]
          | .NONE =>
            [Effect.linkFunction "diag.diag" 0 0,
             Effect.setVidPid "0x05c6" "0x901d" .SUCCESS]
          | .INTERNAL =>
            [Effect.linkFunction "diag.diag" 0 0,
             Effect.linkFunction "cser.dun.0" 1 0,
             Effect.linkFunction env.props.rmnetName 2 0,
             Effect.linkFunction env.props.dplName 3 0,
             Effect.linkFunction "qdss.qdss" 4 0,
             Effect.setVidPid "0x05c6" "0x90db" .SUCCESS]) ++ rest ∧
      ∀ e ∈ rest, e.isBuildStep = false ∧ e.isLink = false) ∧
    ∀ (env2 : Env) (w2 : World) (f2 : Nat) (mtype : mdmType)
      (vendorProp rmnetInst dplInst : String) (i : Nat), 0 < i →
      setupFunctions.adbOverride env2 w2 f2 mtype vendorProp rmnetInst dplInst i
        = (.next i, w2) := by
  refine ⟨?_, ?_⟩
  swap
  · intro env2 w2 f2 mtype vendorProp rmnetInst dplInst i hi
    have : i ≠ 0 := by omega
    simp [setupFunctions.adbOverride, this]
  rw [setupFunctions_no_rndis env w functions callback timeout [] ffs hname hgen
    (rndisSteps_nil_of _ _ _ hr)]
  simp only [linkEffects, linkPairs, List.nil_append, List.length_nil]
  rw [afterRndis_adb env _ functions callback timeout ffs hA hvendor hlink hvid]
  obtain ⟨rest, r1, r2⟩ := finish_plain env
    ((w.extend [Effect.addGenericAndroidFunctions functions .SUCCESS ffs] []).extend
      (stepEffects (adbSteps (getModemType env.fs) env.props.rmnetName env.props.dplName) 0)
      (stepLinks (adbSteps (getModemType env.fs) env.props.rmnetName env.props.dplName) 0))
    functions callback timeout env.props.gadgetName ffs
    (0 + countLinks (adbSteps (getModemType env.fs) env.props.rmnetName env.props.dplName))
  refine ⟨rest, ?_, r2⟩
  apply emitted_append
  rw [r1]
  cases hm : getModemType env.fs <;> simp [World.extend, adbSteps, stepEffects]

/-- Witness of `setupFunctions_adb_composition`: ADB alone on the sample
platform with an internal and an external modem. -/
theorem setupFunctions_adb_composition_witness :
    ∃ rest,
      emitted freshWorld (setupFunctions envExternal freshWorld 1 true 1000).2 =
        [Effect.addGenericAndroidFunctions 1 .SUCCESS false] ++
        [Effect.linkFunction "diag.diag" 0 0,
         Effect.linkFunction "diag.diag_mdm" 1 0,
         Effect.linkFunction "qdss.qdss" 2 0,
         Effect.linkFunction "qdss.qdss_mdm" 3 0,
         Effect.linkFunction "cser.dun.0" 4 0,
         Effect.linkFunction "gsi.dpl" 5 0,
         Effect.linkFunction "gsi.rmnet" 6 0,
         Effect.setVidPid "0x05c6" "0x90e5" .SUCCESS] ++ rest ∧
      ∀ e ∈ rest, e.isBuildStep = false ∧ e.isLink = false :=
  (setupFunctions_adb_composition envExternal freshWorld 1 true 1000 false
    (by decide) (by decide) rfl (Or.inl (by decide)) rfl (fun _ _ _ => rfl)
    (fun _ _ _ => rfl)).1

/-- C18: for every bitmask containing ADB, when the generic step has linked
nothing and the RNDIS block links nothing (`i == 0`) and the vendor override
string is non-empty, then for every topology `setupFunctions` returns
`SUCCESS` and its only effects are the return of the generic step and
`SetProperty("vendor.usb.config", <override>)` with the override string
verbatim: no link, identity write, adb link, pull-up write or monitor
operation, and the gadget flags stay as they were.  Conversely, in every run
of `setupFunctions` in which a property is written, ADB is requested, the
property is `vendor.usb.config`, the string is non-empty, the status is
`SUCCESS` and no function was linked in that run. -/
theorem setupFunctions_vendor_override (env : Env) (w : World) (functions : Nat)
    ( callback : Bool) (timeout : Nat) :
    (∀ ffs, env.props.gadgetName ≠ "" → functions &&& GadgetFunction.ADB ≠ 0 →
      env.addGeneric w.trace functions = ⟨[], ffs, .SUCCESS⟩ →
      (functions &&& GadgetFunction.RNDIS = 0 ∨ getModemType env.fs = .NONE) →
      env.props.vendorProp ≠ "" →
      (setupFunctions env w functions callback timeout).1 = .SUCCESS ∧
      emitted w (setupFunctions env w functions callback timeout).2 =
        [Effect.addGenericAndroidFunctions functions .SUCCESS ffs,
         Effect.setProperty "vendor.usb.config" env.props.vendorProp] ∧
      (setupFunctions env w functions callback timeout).2.mCurrentUsbFunctionsApplied
        = w.mCurrentUsbFunctionsApplied ∧
      (setupFunctions env w functions callback timeout).2.pulledUp = w.pulledUp ∧
      (setupFunctions env w functions callback timeout).2.monitorRunning = w.monitorRunning ∧
      (setupFunctions env w functions callback timeout).2.links = w.links) ∧
    (∀ key value,
      Effect.setProperty key value ∈
        emitted w (setupFunctions env w functions callback timeout).2 →
      functions &&& GadgetFunction.ADB ≠ 0 ∧ key = "vendor.usb.config" ∧ value ≠ "" ∧
      (setupFunctions env w functions callback timeout).1 = .SUCCESS ∧
      ∀ e ∈ emitted w (setupFunctions env w functions callback timeout).2,
        e.isLink = false) := by
  refine ⟨?_, ?_⟩
  · intro ffs hname hA hgen hr hv
    have key : setupFunctions env w functions callback timeout =
        (.SUCCESS, (w.extend [Effect.addGenericAndroidFunctions functions .SUCCESS ffs] []).emit
          (.setProperty "vendor.usb.config" env.props.vendorProp)) := by
      rw [setupFunctions_no_rndis env w functions callback timeout [] ffs hname hgen
        (rndisSteps_nil_of _ _ _ hr)]
      simp [linkEffects, linkPairs, setupFunctions.afterRndis, setupFunctions.adbOverride, hA, hv]
    rw [key]
    refine ⟨rfl, ?_, rfl, rfl, rfl, ?_⟩
    · apply emitted_append
      simp [World.extend, World.emit]
    · simp [World.extend, World.emit]
  · intro key value hmem
    obtain ⟨b, tail, n, applied, mon, h1, h2, h3, -⟩ :=
      setupFunctions_shape env w functions callback timeout
    rw [emitted_append _ _ _ h1] at hmem ⊢
    have hb : Effect.setProperty key value ∉ b := by
      intro h
      have := h2.1 _ h
      simp [Effect.isBuildStep] at this
    have ht : Effect.setProperty key value ∈ tail := by
      rcases List.mem_append.1 hmem with h | h
      · exact absurd h hb
      · exact h
    generalize (setupFunctions env w functions callback timeout).1 = status at h3 ⊢
    cases h3 with
    | udc _ => simp at ht
    | buildFail x hx1 _ =>
      simp only [List.mem_singleton] at ht
      subst ht
      simp [Effect.isBuildStep] at hx1
    | vendor v hadb hv hn =>
      simp only [List.mem_singleton, Effect.setProperty.injEq] at ht
      refine ⟨hadb, ht.1, by rw [ht.2]; exact hv, rfl, ?_⟩
      intro e he
      rcases List.mem_append.1 he with h | h
      · cases e with
        | linkFunction name j rc =>
          have := h2.2.2 name j rc h
          omega
        | _ => rfl
      · simp only [List.mem_singleton] at h
        subst h
        rfl
    | adbFail s _ _ => simp at ht
    | pullFail _ => simp at ht
    | direct _ => cases callback <;> simp [cbEffects] at ht
    | monitor adb pulled hadb =>
      exfalso
      rcases hadb with ⟨_, rfl⟩ | ⟨_, rfl⟩ <;> cases callback <;> simp at ht

/-- Witness of `setupFunctions_vendor_override`: ADB alone with the vendor
override `custom_usb_cfg` on the sample platform with an internal modem. -/
theorem setupFunctions_vendor_override_witness :
    (setupFunctions envVendor freshWorld 1 true 1000).1 = .SUCCESS ∧
    emitted freshWorld (setupFunctions envVendor freshWorld 1 true 1000).2 =
      [Effect.addGenericAndroidFunctions 1 .SUCCESS false,
       Effect.setProperty "vendor.usb.config" "custom_usb_cfg"] ∧
    (setupFunctions envVendor freshWorld 1 true 1000).2.mCurrentUsbFunctionsApplied
      = freshWorld.mCurrentUsbFunctionsApplied ∧
    (setupFunctions envVendor freshWorld 1 true 1000).2.pulledUp = freshWorld.pulledUp ∧
    (setupFunctions envVendor freshWorld 1 true 1000).2.monitorRunning
      = freshWorld.monitorRunning ∧
    (setupFunctions envVendor freshWorld 1 true 1000).2.links = freshWorld.links :=
  (setupFunctions_vendor_override envVendor freshWorld 1 true 1000).1 false (by decide)
    (by decide) rfl (Or.inl (by decide)) (by decide)

/-- C19: for every bitmask without ADB, when the generic step succeeds and
reports no FFS function, `setupFunctions` writes the controller name to the
pull-up path right after the generic step; `ok` is the outcome of that write.
If the write succeeds it sets `mCurrentUsbFunctionsApplied`, calls a non-null
callback with `(functions, SUCCESS)` and returns `SUCCESS`; if the write fails
it returns `ERROR`, calls nothing and leaves `mCurrentUsbFunctionsApplied` as
it was (false, inside `setCurrentUsbFunctions`).  In both cases the monitor is
neither registered with, nor started, nor waited on. -/
theorem setupFunctions_direct_pullup (env : Env) (w : World) (functions : Nat)
    ( callback : Bool) (timeout : Nat) (names : List String) (ok : Bool)
    (hname : env.props.gadgetName ≠ "")
    (hA : functions &&& GadgetFunction.ADB = 0)
    (hgen : env.addGeneric w.trace functions = ⟨names, false, .SUCCESS⟩)
    (hok : env.writePullup
      (w.trace ++ (linkEffects names 0 ++
        [Effect.addGenericAndroidFunctions functions .SUCCESS false]))
      env.props.gadgetName = ok) :
    emitted w (setupFunctions env w functions callback timeout).2 =
      linkEffects names 0 ++ [Effect.addGenericAndroidFunctions functions .SUCCESS false] ++
        Effect.writePullup env.props.gadgetName ok ::
          (if ok then cbEffects callback functions .SUCCESS else []) ∧
    (setupFunctions env w functions callback timeout).1 = (if ok then .SUCCESS else .ERROR) ∧
    (setupFunctions env w functions callback timeout).2.mCurrentUsbFunctionsApplied
      = (if ok then true else w.mCurrentUsbFunctionsApplied) ∧
    (setupFunctions env w functions callback timeout).2.pulledUp
      = (if ok then true else w.pulledUp) ∧
    (setupFunctions env w functions callback timeout).2.monitorRunning = w.monitorRunning := by
  have hr : rndisSteps functions (getModemType env.fs) env.props.dplName = [] := by
    simp [rndisSteps, hA]
  rw [setupFunctions_no_rndis env w functions callback timeout names false hname hgen hr]
  cases ok with
  | true =>
    refine ⟨?_, ?_, ?_, ?_, ?_⟩
    · apply emitted_append
      cases callback <;>
        simp [setupFunctions.afterRndis, setupFunctions.adbOverride, hA, setupFunctions.finish,
          setupFunctions.finallyAdb, setupFunctions.activate, writePullup, World.extend,
          World.emit, hok, cbEffects]
    all_goals
      cases callback <;>
        simp [setupFunctions.afterRndis, setupFunctions.adbOverride, hA, setupFunctions.finish,
          setupFunctions.finallyAdb, setupFunctions.activate, writePullup, World.extend,
          World.emit, hok]
  | false =>
    refine ⟨?_, ?_, ?_, ?_, ?_⟩
    · apply emitted_append
      simp [setupFunctions.afterRndis, setupFunctions.adbOverride, hA, setupFunctions.finish,
        setupFunctions.finallyAdb, setupFunctions.activate, writePullup, World.extend,
        World.emit, hok]
    all_goals
      simp [setupFunctions.afterRndis, setupFunctions.adbOverride, hA, setupFunctions.finish,
        setupFunctions.finallyAdb, setupFunctions.activate, writePullup, World.extend,
        World.emit, hok]

/-- Witness of `setupFunctions_direct_pullup`: MIDI alone on the sample
platform, the generic step linking `midi.gs5` and the pull-up write
succeeding. -/
theorem setupFunctions_direct_pullup_witness :
    emitted freshWorld (setupFunctions envMidi freshWorld 8 true 1000).2 =
      linkEffects ["midi.gs5"] 0 ++ [Effect.addGenericAndroidFunctions 8 .SUCCESS false] ++
        Effect.writePullup envMidi.props.gadgetName true ::
          (if true then cbEffects true 8 .SUCCESS else []) ∧
    (setupFunctions envMidi freshWorld 8 true 1000).1 = (if true then .SUCCESS else .ERROR) ∧
    (setupFunctions envMidi freshWorld 8 true 1000).2.mCurrentUsbFunctionsApplied
      = (if true then true else freshWorld.mCurrentUsbFunctionsApplied) ∧
    (setupFunctions envMidi freshWorld 8 true 1000).2.pulledUp
      = (if true then true else freshWorld.pulledUp) ∧
    (setupFunctions envMidi freshWorld 8 true 1000).2.monitorRunning
      = freshWorld.monitorRunning :=
  setupFunctions_direct_pullup envMidi freshWorld 8 true 1000 ["midi.gs5"] true (by decide)
    (by decide) rfl rfl

/-- C20: in the effects of every call of `setCurrentUsbFunctions` the phases
occur in a fixed order (teardown, settle sleep, identity writes and links,
activation, report): no effect is followed by an effect of an earlier phase,
so no teardown effect occurs after the settle sleep and no link or identity
write occurs after the pull-up write or the monitor start; and every identity
write, link and activation effect is preceded by the settle sleep, itself
preceded by a successful `resetGadget`. -/
theorem setCurrentUsbFunctions_phase_order (env : Env) (w : World) (functions : Nat)
    ( callback : Bool) (timeout : Nat) :
    PhaseSorted (emitted w (setCurrentUsbFunctions env w functions callback timeout)) ∧
    ∀ pre e post,
      emitted w (setCurrentUsbFunctions env w functions callback timeout) = pre ++ e :: post →
      (e.phase = 2 ∨ e.phase = 3) →
      ∃ pre1 pre2, pre = Effect.resetGadget .SUCCESS :: pre1 ++ Effect.usleep :: pre2 ∧
        (∀ x ∈ pre1, x.phase = 0) ∧ ∀ x ∈ pre2, 2 ≤ x.phase := by
  obtain ⟨ok, applied, mon, rest, h1, h2, h3, -⟩ :=
    setCurrentUsbFunctions_shape env w functions callback timeout
  rw [emitted_append _ _ _ h1]
  obtain ⟨p1, p2, p3, p4⟩ := h2.phase_facts
  have ht := teardownEffects_phase env w
  refine ⟨PhaseSorted.concat 0 (PhaseSorted.const 0 ht) p1 (fun a ha => by rw [ht a ha])
    (fun b _ => Nat.zero_le _), ?_⟩
  intro pre e post hsplit he
  cases ok with
  | false =>
    exfalso
    have hm : e ∈ teardownEffects env w ++ rest := by rw [hsplit]; simp
    rcases List.mem_append.1 hm with h | h
    · rw [ht e h] at he
      omega
    · rw [p3 rfl e h] at he
      omega
  | true =>
    obtain ⟨r, hr, hr2⟩ := p4 rfl
    have hreset : env.resetGadget w.trace = .SUCCESS := h3.1 rfl
    have hT : teardownEffects env w = Effect.resetGadget .SUCCESS ::
        (if w.monitorRunning = true then [Effect.monitorReset] else []) := by
      simp [teardownEffects, hreset]
    have e1 : teardownEffects env w ++ rest = (teardownEffects env w ++ [Effect.usleep]) ++ r := by
      rw [hr]; simp
    rw [e1] at hsplit
    obtain ⟨pre2, hpre⟩ := prefix_of_split (fun x : Effect => x.phase = 2 ∨ x.phase = 3)
      (by
        intro y hy
        show ¬ (y.phase = 2 ∨ y.phase = 3)
        rcases List.mem_append.1 hy with h | h
        · rw [ht y h]; omega
        · simp only [List.mem_singleton] at h
          subst h
          simp [Effect.phase]) he hsplit
    refine ⟨if w.monitorRunning = true then [Effect.monitorReset] else [], pre2, ?_, ?_, ?_⟩
    · rw [hpre, hT]
      simp
    · intro x hx
      split_ifs at hx
      · simp only [List.mem_singleton] at hx
        subst hx
        rfl
      · simp at hx
    · intro x hx
      have hx2 : x ∈ r := by
        have hs2 : (teardownEffects env w ++ [Effect.usleep]) ++ r =
            (teardownEffects env w ++ [Effect.usleep]) ++ (pre2 ++ e :: post) := by
          rw [hsplit, hpre, List.append_assoc]
        have := List.append_cancel_left hs2
        have hm : x ∈ pre2 ++ e :: post := by simp [hx]
        rw [← this] at hm
        exact hm
      exact hr2 x hx2

/-- Witness of `setCurrentUsbFunctions_phase_order`: RNDIS with ADB on the
sample platform with an internal modem; the monitor start is preceded by the
teardown, the settle sleep, the identity writes and the links. -/
theorem setCurrentUsbFunctions_phase_order_witness :
    ∃ pre1 pre2,
      [Effect.resetGadget .SUCCESS, Effect.usleep, Effect.setVidPid "0x18d1" "0x4ee4" .SUCCESS,
        Effect.linkFunction "gsi.rndis" 0 0, Effect.addGenericAndroidFunctions 33 .SUCCESS false,
        Effect.linkFunction "diag.diag" 1 0, Effect.linkFunction "qdss.qdss" 2 0,
        Effect.linkFunction "cser.dun.0" 3 0, Effect.linkFunction "gsi.dpl" 4 0,
        Effect.setVidPid "0x05c6" "0x90e9" .SUCCESS, Effect.addAdb 5 .SUCCESS,
        Effect.registerFunctionsAppliedCallback]
        = Effect.resetGadget .SUCCESS :: pre1 ++ Effect.usleep :: pre2 ∧
      (∀ x ∈ pre1, x.phase = 0) ∧ ∀ x ∈ pre2, 2 ≤ x.phase :=
  (setCurrentUsbFunctions_phase_order envRndis freshWorld 33 true 1000).2
    [Effect.resetGadget .SUCCESS, Effect.usleep, Effect.setVidPid "0x18d1" "0x4ee4" .SUCCESS,
      Effect.linkFunction "gsi.rndis" 0 0, Effect.addGenericAndroidFunctions 33 .SUCCESS false,
      Effect.linkFunction "diag.diag" 1 0, Effect.linkFunction "qdss.qdss" 2 0,
      Effect.linkFunction "cser.dun.0" 3 0, Effect.linkFunction "gsi.dpl" 4 0,
      Effect.setVidPid "0x05c6" "0x90e9" .SUCCESS, Effect.addAdb 5 .SUCCESS,
      Effect.registerFunctionsAppliedCallback]
    Effect.startMonitor
    [Effect.waitForPullUp 1000 true, Effect.setCurrentUsbFunctionsCb 33 .SUCCESS]
    (by decide) (Or.inr (by decide))

/-- C12: whenever a run takes the monitor path, that is `startMonitor` occurs
among its effects, (1) `setupFunctions` returns `SUCCESS`, its effects end
with the registration of the completion callback, the monitor start and,
for a non-null callback, the wait followed by the callback with `SUCCESS` if
the wait returned true and `ERROR` if it returned false; everything before
belongs to composition building; the monitor is left running, and
`mCurrentUsbFunctionsApplied` is true if the wait returned true, where the
completion callback has set it, and otherwise as it was; (2) a call of
`setCurrentUsbFunctions` with a non-null callback ends with exactly these four
effects, so that the callback is called once and nothing stops or resets the
monitor after its start; on return the monitor is running and
`mCurrentUsbFunctionsApplied` and the pull-up hold the result of the wait;
after any later steps other than a new `setCurrentUsbFunctions` call the
monitor is still running, a completion of the monitor writes the value it
reports into `mCurrentUsbFunctionsApplied`, and `reset` and
`getCurrentUsbFunctions` leave the flag alone; (3) the activation block of
`setupFunctions` takes this path whenever `ffsEnabled` is true; (4) the
registered completion callback stores the reported value in
`mCurrentUsbFunctionsApplied` and changes nothing else. -/
theorem monitor_path_outcome (env : Env) (w : World) (functions : Nat) (timeout : Nat) :
    (∀ callback : Bool,
      Effect.startMonitor ∈ emitted w (setupFunctions env w functions callback timeout).2 →
      (setupFunctions env w functions callback timeout).1 = .SUCCESS ∧
      (∃ pre pulled,
        emitted w (setupFunctions env w functions callback timeout).2 =
          pre ++ [Effect.registerFunctionsAppliedCallback, Effect.startMonitor] ++
            (if callback then
              [Effect.waitForPullUp timeout pulled,
               Effect.setCurrentUsbFunctionsCb functions (if pulled then .SUCCESS else .ERROR)]
             else []) ∧
        (∀ e ∈ pre, e.phase = 2) ∧
        (setupFunctions env w functions callback timeout).2.mCurrentUsbFunctionsApplied
          = (if callback = true ∧ pulled = true then true
             else w.mCurrentUsbFunctionsApplied)) ∧
      (setupFunctions env w functions callback timeout).2.monitorRunning = true) ∧
    (Effect.startMonitor ∈ emitted w (setCurrentUsbFunctions env w functions true timeout) →
      (∃ pre pulled,
        emitted w (setCurrentUsbFunctions env w functions true timeout) =
          pre ++ [Effect.registerFunctionsAppliedCallback, Effect.startMonitor,
            Effect.waitForPullUp timeout pulled,
            Effect.setCurrentUsbFunctionsCb functions (if pulled then .SUCCESS else .ERROR)] ∧
        (∀ e ∈ pre, e.phase ≤ 2) ∧
        (setCurrentUsbFunctions env w functions true timeout).mCurrentUsbFunctionsApplied
          = pulled ∧
        (setCurrentUsbFunctions env w functions true timeout).pulledUp = pulled) ∧
      (setCurrentUsbFunctions env w functions true timeout).monitorRunning = true ∧
      ∀ ops : List Op, (∀ op ∈ ops, op.isSet = false) →
        (run (setCurrentUsbFunctions env w functions true timeout) ops).monitorRunning
          = true ∧
        (∀ applied,
          (monitorCompletion (run (setCurrentUsbFunctions env w functions true timeout) ops)
            applied).mCurrentUsbFunctionsApplied = applied) ∧
        (∀ env2,
          (reset env2 (run (setCurrentUsbFunctions env w functions true timeout)
            ops)).2.mCurrentUsbFunctionsApplied
            = (run (setCurrentUsbFunctions env w functions true timeout)
                ops).mCurrentUsbFunctionsApplied) ∧
        (getCurrentUsbFunctions (run (setCurrentUsbFunctions env w functions true timeout)
          ops)).mCurrentUsbFunctionsApplied
          = (run (setCurrentUsbFunctions env w functions true timeout)
              ops).mCurrentUsbFunctionsApplied) ∧
    (∀ (w4 : World) ( callback : Bool) (gadgetName : String),
      (setupFunctions.activate env w4 functions callback timeout gadgetName true).1
        = .SUCCESS ∧
      Effect.startMonitor ∈
        emitted w4
          (setupFunctions.activate env w4 functions callback timeout gadgetName true).2) ∧
    ∀ (w4 : World) (applied : Bool),
      functionsAppliedCallback w4 applied
        = ⟨w4.mCurrentUsbFunctions, applied, w4.monitorRunning, w4.pulledUp, w4.links,
            w4.trace⟩ := by
  refine ⟨?_, ?_, ?_, ?_⟩
  · intro callback hm
    obtain ⟨b, tail, n, applied, mon, h1, h2, h3, -, h5, -, h7⟩ :=
      setupFunctions_shape env w functions callback timeout
    rw [emitted_append _ _ _ h1] at hm ⊢
    have hb : ∀ e ∈ b, e.phase = 2 := fun e he => e.phase_of_buildStep (h2.1 e he)
    have ht : Effect.startMonitor ∈ tail := by
      rcases List.mem_append.1 hm with h | h
      · have := hb _ h
        simp [Effect.phase] at this
      · exact h
    obtain ⟨e1, e2, adb, pulled, e3, e4, e5⟩ := h3.monitor_of_start ht
    refine ⟨e1, ⟨b ++ adb, pulled, by rw [e4]; simp, ?_, ?_⟩, by rw [h7, e2]; rfl⟩
    · intro e he
      rcases List.mem_append.1 he with h | h
      · exact hb e h
      · exact e5 e h
    · rw [h5, e3]
      cases callback <;> cases pulled <;> simp
  · intro hm
    obtain ⟨ok, applied, mon, rest, h1, h2, h3, -, h5, h6, h7⟩ :=
      setCurrentUsbFunctions_shape env w functions true timeout
    rw [emitted_append _ _ _ h1] at hm ⊢
    have hT := teardownEffects_phase env w
    have hr : Effect.startMonitor ∈ rest := by
      rcases List.mem_append.1 hm with h | h
      · have := hT _ h
        simp [Effect.phase] at this
      · exact h
    have hmon : (setCurrentUsbFunctions env w functions true timeout).monitorRunning = true ∧
        ∃ pre pulled,
          teardownEffects env w ++ rest =
            pre ++ [Effect.registerFunctionsAppliedCallback, Effect.startMonitor,
              Effect.waitForPullUp timeout pulled,
              Effect.setCurrentUsbFunctionsCb functions
                (if pulled then .SUCCESS else .ERROR)] ∧
          (∀ e ∈ pre, e.phase ≤ 2) ∧
          (setCurrentUsbFunctions env w functions true timeout).mCurrentUsbFunctionsApplied
            = pulled ∧
          (setCurrentUsbFunctions env w functions true timeout).pulledUp = pulled := by
      cases h2 with
      | teardownFail => simp [cbEffects] at hr
      | none _ => simp [cbEffects] at hr
      | unsupported _ _ => simp [cbEffects] at hr
      | identityFail _ _ _ _ _ => simp [cbEffects] at hr
      | setup pid b tail n status applied2 mon2 hf hp hb ht =>
        have hbp : ∀ e ∈ b, e.phase = 2 := fun e he => e.phase_of_buildStep (hb.1 e he)
        have htail : Effect.startMonitor ∈ tail := by
          simp only [List.mem_cons, List.mem_append] at hr
          rcases hr with h | h | (h | h) | h
          · simp at h
          · simp at h
          · have := hbp _ h
            simp [Effect.phase] at this
          · exact h
          · split_ifs at h
            · simp at h
            · simp [cbEffects] at h
        obtain ⟨e1, e2, adb, pulled, e3, e4, e5⟩ := ht.monitor_of_start htail
        subst e1 e2
        have e3b : (true && pulled) = pulled := rfl
        rw [e3b] at e3
        refine ⟨by rw [h7]; rfl, teardownEffects env w ++
          (Effect.usleep :: Effect.setVidPid "0x18d1" pid .SUCCESS :: (b ++ adb)), pulled,
          ?_, ?_, by rw [h5, e3], by rw [h6, e3]; rfl⟩
        · rw [e4]
          simp
        · intro e he
          rcases List.mem_append.1 he with h | h
          · rw [hT e h]
            omega
          · rcases List.mem_cons.1 h with rfl | h
            · simp [Effect.phase]
            · rcases List.mem_cons.1 h with rfl | h
              · simp [Effect.phase]
              · rcases List.mem_append.1 h with h | h
                · rw [hbp e h]
                · rw [e5 e h]
    refine ⟨hmon.2, hmon.1, ?_⟩
    intro ops hops
    have hk : (run (setCurrentUsbFunctions env w functions true timeout) ops).monitorRunning
        = true := by
      rw [run_keeps_monitor ops _ hops]
      exact hmon.1
    refine ⟨hk, ?_, ?_, ?_⟩
    · intro applied
      simp [monitorCompletion, functionsAppliedCallback, hk]
    · intro env2
      by_cases hw2 : env2.writePullup
          (run (setCurrentUsbFunctions env w functions true timeout) ops).trace "none" = true <;>
        simp [reset, writePullup, World.emit, hw2]
    · simp [getCurrentUsbFunctions, World.emit]
  · intro w4 callback gadgetName
    cases callback <;>
      simp [setupFunctions.activate, emitted, World.emit, waitForPullUp_trace]
  · intro w4 applied
    rfl

/-- Witness of `monitor_path_outcome`: RNDIS with ADB on the sample platform
with an internal modem takes the monitor path; the wait returns true, the
callback receives `SUCCESS`, the flag is true on return and a later completion
reporting a pull-down clears it. -/
theorem monitor_path_outcome_witness :
    emitted freshWorld (setCurrentUsbFunctions envRndis freshWorld 33 true 1000)
      = [Effect.resetGadget .SUCCESS, Effect.usleep,
         Effect.setVidPid "0x18d1" "0x4ee4" .SUCCESS, Effect.linkFunction "gsi.rndis" 0 0,
         Effect.addGenericAndroidFunctions 33 .SUCCESS false,
         Effect.linkFunction "diag.diag" 1 0, Effect.linkFunction "qdss.qdss" 2 0,
         Effect.linkFunction "cser.dun.0" 3 0, Effect.linkFunction "gsi.dpl" 4 0,
         Effect.setVidPid "0x05c6" "0x90e9" .SUCCESS, Effect.addAdb 5 .SUCCESS,
         Effect.registerFunctionsAppliedCallback, Effect.startMonitor,
         Effect.waitForPullUp 1000 true, Effect.setCurrentUsbFunctionsCb 33 .SUCCESS] ∧
    (setCurrentUsbFunctions envRndis freshWorld 33 true 1000).mCurrentUsbFunctionsApplied
      = true ∧
    (setCurrentUsbFunctions envRndis freshWorld 33 true 1000).monitorRunning = true ∧
    (monitorCompletion (run (setCurrentUsbFunctions envRndis freshWorld 33 true 1000)
      [Op.callReset envRndis, Op.callGet]) false).mCurrentUsbFunctionsApplied = false := by
  have h := (monitor_path_outcome envRndis freshWorld 33 1000).2.1 (by decide)
  exact ⟨by decide, by decide, h.2.1,
    (h.2.2 [Op.callReset envRndis, Op.callGet] (by simp [Op.isSet])).2.1 false⟩

end UsbGadget
